import Mathlib

/-!
# Web scraper: extraction routes (`api/routes/scraping.js`)

A shallow embedding of `ScrapingService` and of the `POST /scrape` handler.

The third-party collaborators (`fetch`, `cheerio`, `puppeteer`, `validator`,
the database module, `JSON.stringify`) are not part of the repository; every
call to one of them is answered by an environment value that may either
return or throw, and every call is appended to a log of observable effects.
-/

namespace WebScraper

/-! ## JavaScript values -/

/-- A thrown JavaScript error. The scraping module only reads `error.message`; the legacy
handler also tests `error.response` (kept as the status it carries) and `error.request`,
which only errors thrown by axios have. -/
structure JsError where
  message : String
  response : Option Nat := none
  request : Bool := false
  deriving DecidableEq, Repr

/-- Values a request field or a query parameter can hold after parsing. Numbers are only
tested for truthiness by the code; a plain object is kept as its JSON text; an array is kept
as the texts of its elements, each as `Array.prototype.join` renders it (`null` and
`undefined` as the empty text). -/
inductive JsValue where
  | undefined
  | null
  | bool (b : Bool)
  | number (n : Int)
  | string (s : String)
  | object (json : String)
  | array (items : List String)
  deriving DecidableEq, Repr

/-- A Number as `parseInt` can return it: `NaN`, an infinity, or an integer that a double
holds exactly, kept as sign and magnitude so that `-0` differs from `0`. -/
inductive JsNumber where
  | nan
  | infinity (negative : Bool)
  | finite (negative : Bool) (magnitude : Nat)
  deriving DecidableEq, Repr

/-- `ToBoolean` of a Number: `NaN` and the two zeros are falsy. -/
def JsNumber.truthy : JsNumber → Bool
  | .nan => false
  | .infinity _ => true
  | .finite _ magnitude => decide (magnitude ≠ 0)

/-- JavaScript `ToBoolean`. -/
def JsValue.truthy : JsValue → Bool
  | .undefined => false
  | .null => false
  | .bool b => b
  | .number n => decide (n ≠ 0)
  | .string s => decide (s ≠ "")
  | .object _ => true
  | .array _ => true

/-- The test `v === s` against a string literal `s`. -/
def JsValue.strictEqString (v : JsValue) (s : String) : Bool :=
  match v with
  | .string t => decide (t = s)
  | _ => false

/-- Default value of a destructured field or of a parameter: used only when the value is `undefined`. -/
def JsValue.withDefault (v d : JsValue) : JsValue :=
  match v with
  | .undefined => d
  | w => w

/-- The abstract operation `ToString`, as a template literal and `parseInt` apply it. A plain
object gives `[object Object]`, an array its elements joined by commas. -/
def JsValue.toText : JsValue → String
  | .undefined => "undefined"
  | .null => "null"
  | .bool b => if b then "true" else "false"
  | .number n => toString n
  | .string s => s
  | .object _ => "[object Object]"
  | .array items => ",".intercalate items

/-- The expression `x || d` on a possibly missing string: an empty string is falsy. -/
def orString (x : Option String) (d : String) : String :=
  match x with
  | some s => if s = "" then d else s
  | none => d

/-- ECMAScript `WhiteSpace` and `LineTerminator` code points, the ones `String.prototype.trim` strips. -/
def isJsWhiteSpace (c : Char) : Bool :=
  c.toNat = 0x9 || c.toNat = 0xA || c.toNat = 0xB || c.toNat = 0xC || c.toNat = 0xD ||
  c.toNat = 0x20 || c.toNat = 0xA0 || c.toNat = 0x1680 ||
  (0x2000 ≤ c.toNat && c.toNat ≤ 0x200A) ||
  c.toNat = 0x2028 || c.toNat = 0x2029 || c.toNat = 0x202F || c.toNat = 0x205F ||
  c.toNat = 0x3000 || c.toNat = 0xFEFF

/-- The method `String.prototype.trim`. -/
def jsTrim (s : String) : String :=
  String.mk ((s.toList.dropWhile isJsWhiteSpace).reverse.dropWhile isJsWhiteSpace).reverse

/-- A plain object with string values: its own properties, as a list. Objects are read by
name; the order in which JavaScript enumerates the properties (integer-like names first) is
not modelled. -/
abbrev JsObject := List (String × String)

/-- Creation or update of an own property: a new key is appended, an existing key keeps its
place and takes the new value. -/
def JsObject.define : JsObject → String → String → JsObject
  | [], name, value => [(name, value)]
  | (k, v) :: rest, name, value =>
    if k = name then (k, value) :: rest else (k, v) :: JsObject.define rest name value

/-- The assignment `acc[name] = value` of a string on an object created by `{}`. The name
`__proto__` finds the accessor inherited from `Object.prototype`, whose setter ignores a
value that is neither an object nor `null`: nothing is stored. Every other name creates or
updates an own property. -/
def JsObject.set (obj : JsObject) (name value : String) : JsObject :=
  if name = "__proto__" then obj else obj.define name value

/-- Property read `obj[name]`. -/
def JsObject.get (obj : JsObject) (name : String) : Option String :=
  obj.lookup name

/-! ## Results -/

/-- One entry of `content`. `html` is `none` for `null`; `tagName` is `none` when the key is absent. -/
structure ElementRecord where
  text : String
  html : Option String
  tagName : Option String
  attributes : JsObject
  deriving DecidableEq, Repr

/-- The object returned by both extraction methods. `content = none` is `null`;
`count` and `error` are `none` when the key is absent. -/
structure ScrapeResult where
  success : Bool
  content : Option (List ElementRecord)
  count : Option Nat
  error : Option String
  deriving DecidableEq, Repr

/-- The literal `{ success: false, content: null, error: reason }`. -/
def ScrapeResult.failure (reason : String) : ScrapeResult :=
  ⟨false, none, none, some reason⟩

/-- The literal `{ success: true, content: results, count: results.length }`. -/
def ScrapeResult.ok (results : List ElementRecord) : ScrapeResult :=
  ⟨true, some results, some results.length, none⟩

/-- The message of the zero-match failure. -/
def noElementsMessage : String := "No elements found with the provided selector"

/-- The `User-Agent` string sent by both paths. -/
def userAgent : String :=
  "Mozilla/5.0 (Windows NT 10.0; Win64; x64) AppleWebKit/537.36 (KHTML, like Gecko) Chrome/91.0.4472.124 Safari/537.36"

/-! ## External collaborators -/

/-- What the static path reads from a `fetch` response. -/
structure HttpResponse where
  status : Nat
  statusText : String
  text : Except JsError String

/-- The getter `response.ok` of the Fetch standard: the status is in the range 200 to 299. -/
def HttpResponse.ok (r : HttpResponse) : Bool :=
  decide (200 ≤ r.status) && decide (r.status ≤ 299)

/-- What the static path reads from a matched cheerio element. -/
structure CheerioElement where
  text : String
  html : Option String
  attribs : Option JsObject
  deriving DecidableEq, Repr

/-- The function `$` returned by `cheerio.load`. -/
structure CheerioAPI where
  select : JsValue → Except JsError (List CheerioElement)

/-- What the in-page functions read from a DOM node; a property a node lacks is `none`. -/
structure DomNode where
  textContent : Option String
  innerHTML : Option String
  tagName : Option String
  attributes : Option (List (String × String))
  deriving DecidableEq, Repr

/-- A puppeteer page. The two DOM queries are answered inside the loaded document. -/
structure Page where
  setUserAgent : String → Except JsError Unit
  setViewport : Nat → Nat → Except JsError Unit
  goto : JsValue → String → Nat → Except JsError Unit
  waitForTimeout : Nat → Except JsError Unit
  documentEvaluate : JsValue → Except JsError (List DomNode)
  querySelectorAll : JsValue → Except JsError (List DomNode)

/-- A puppeteer browser. -/
structure Browser where
  newPage : Except JsError Page
  close : Except JsError Unit

/-- The record handed to `database.insertScrapingRecord`. -/
structure DbRecord where
  url : JsValue
  selector : JsValue
  selectorType : JsValue
  content : Option String
  status : String
  errorMessage : Option String
  deriving DecidableEq, Repr

/-- A row as `database.getScrapingHistory` resolves it: the `content` column, a text or
`null`, and the other columns, which the handler does not read. -/
structure HistoryRow where
  content : Option String
  others : List (String × JsValue)
  deriving DecidableEq, Repr

/-- A row as `GET /history` sends it: `content` replaced by the parsed value or by `null`. -/
structure ProcessedRow where
  content : Option (List ElementRecord)
  others : List (String × JsValue)
  deriving DecidableEq, Repr

/-- A response body: an extraction result, or an object literal `{ success, error }`; the
legacy handler sends `{ error }`, `{ message }` and `{ message, content, id }`; the history
routes send `{ success, data }` and `{ success, message }`. -/
inductive ResponseBody where
  | result (r : ScrapeResult)
  | message (success : Bool) (error : String)
  | errorOnly (error : String)
  | messageOnly (message : String)
  | saved (message : String) (content : String) (id : Nat)
  | history (success : Bool) (data : List ProcessedRow)
  | notice (success : Bool) (message : String)
  deriving DecidableEq, Repr

/-- Everything outside the module, as the module sees it. -/
structure Env where
  fetch : JsValue → List (String × String) → Except JsError HttpResponse
  cheerioLoad : String → Except JsError CheerioAPI
  puppeteerLaunch : Bool → List String → Except JsError Browser
  validatorIsURL : JsValue → List String → Bool → Except JsError Bool
  insertScrapingRecord : DbRecord → Except JsError Unit
  jsonStringify : Option (List ElementRecord) → String

/-! ## Observable effects -/

/-- One observable effect: the entry of a `ScrapingService` extraction method (`invoke`, with
the arguments passed), a call to a collaborator, a line on the error console, or a response
sent to the client. -/
inductive Event where
  | invoke (method : String) (args : List JsValue)
  | fetch (url : JsValue) (headers : List (String × String))
  | responseText
  | cheerioLoad (html : String)
  | cheerioSelect (selector : JsValue)
  | puppeteerLaunch (headless : Bool) (args : List String)
  | newPage
  | setUserAgent (ua : String)
  | setViewport (width height : Nat)
  | goto (url : JsValue) (waitUntil : String) (timeout : Nat)
  | waitForTimeout (ms : Nat)
  | pageEvaluate (xpath : Bool) (selector : JsValue)
  | browserClose
  | validatorIsURL (url : JsValue)
  | insertScrapingRecord (record : DbRecord)
  | consoleError (label : String) (message : String)
  | respond (status : Nat) (body : ResponseBody)
  | axiosGet (url : JsValue) (headers : List (String × String))
  | dbRun (sql : String) (params : List JsValue)
  | consoleLog (message : String)
  | getScrapingHistory (limit : JsNumber)
  | jsonParse (text : String)
  | deleteScrapingRecord (id : JsNumber)
  deriving DecidableEq, Repr

/-- Program state: the effects so far, oldest first, and the local `browser` of `scrapeWithPuppeteer`. -/
structure St where
  log : List Event
  browser : Option Browser

/-- The state before anything has happened. -/
def St.init : St := ⟨[], none⟩

/-- A JavaScript computation: it extends the state and either returns or throws. -/
def Js (α : Type) : Type := St → St × Except JsError α

instance : Monad Js where
  pure a := fun s => (s, .ok a)
  bind m f := fun s =>
    match m s with
    | (s1, .ok a) => f a s1
    | (s1, .error e) => (s1, .error e)

/-- The statement `throw e`. -/
def Js.throw {α : Type} (e : JsError) : Js α := fun s => (s, .error e)

/-- A call to a collaborator: it is logged, then it returns or throws as the environment says. -/
def Js.call {α : Type} (ev : Event) (r : Except JsError α) : Js α :=
  fun s => ({ s with log := s.log ++ [ev] }, r)

/-- The block `try body catch (error) handler`. -/
def Js.tryCatch {α : Type} (body : Js α) (handler : JsError → Js α) : Js α := fun s =>
  match body s with
  | (s1, .ok a) => (s1, .ok a)
  | (s1, .error e) => handler e s1

/-- The block `try body catch (error) handler finally fin`: `fin` runs on every exit;
if it throws, its error replaces the pending return value. -/
def Js.tryCatchFinally {α : Type} (body : Js α) (handler : JsError → Js α) (fin : Js Unit) : Js α :=
  fun s =>
    match Js.tryCatch body handler s with
    | (s1, r) =>
      match fin s1 with
      | (s2, .ok _) => (s2, r)
      | (s2, .error e) => (s2, .error e)

/-- Run a computation from the initial state. -/
def Js.run {α : Type} (m : Js α) : St × Except JsError α := m St.init

/-! ## `ScrapingService.scrapeWithCheerio` -/

/-- The `catch (error)` clause of both extraction methods: the error becomes a failure value. -/
def catchAsFailure (error : JsError) : Js ScrapeResult :=
  pure (ScrapeResult.failure error.message)

/-- The object pushed by the `elements.each` callback. -/
def cheerioRecord (element : CheerioElement) : ElementRecord :=
  { text := jsTrim element.text
    html := element.html
    tagName := none
    attributes := element.attribs.getD [] }

/-- The loop `elements.each(...)`: one `results.push` per element, in order. -/
def cheerioEach (elements : List CheerioElement) : List ElementRecord :=
  elements.foldl (fun results element => results ++ [cheerioRecord element]) []

/-- The method `ScrapingService.scrapeWithCheerio(url, selector)`. -/
def ScrapingService.scrapeWithCheerio (env : Env) (url selector : JsValue) : Js ScrapeResult := do
  Js.call (Event.invoke "scrapeWithCheerio" [url, selector]) (.ok ())
  Js.tryCatch
    (do
      let response ← Js.call (Event.fetch url [("User-Agent", userAgent)])
        (env.fetch url [("User-Agent", userAgent)])
      if !response.ok then
        Js.throw { message := "HTTP " ++ toString response.status ++ ": " ++ response.statusText }
      else do
        let html ← Js.call Event.responseText response.text
        let dollar ← Js.call (Event.cheerioLoad html) (env.cheerioLoad html)
        let elements ← Js.call (Event.cheerioSelect selector) (dollar.select selector)
        if elements.length = 0 then
          pure (ScrapeResult.failure noElementsMessage)
        else
          pure (ScrapeResult.ok (cheerioEach elements)))
    catchAsFailure

/-! ## `ScrapingService.scrapeWithPuppeteer` -/

/-- The `args` array passed to `puppeteer.launch`. -/
def launchArgs : List String :=
  ["--no-sandbox", "--disable-setuid-sandbox", "--disable-dev-shm-usage",
   "--disable-accelerated-2d-canvas", "--no-first-run", "--no-zygote",
   "--single-process", "--disable-gpu"]

/-- The callback of `Array.from(element.attributes || []).reduce(..., {})`. -/
def attributesToObject (attributes : List (String × String)) : JsObject :=
  attributes.foldl (fun acc attr => acc.set attr.1 attr.2) []

/-- The object pushed for one node by both in-page functions. -/
def domRecord (element : DomNode) : ElementRecord :=
  { text := orString (element.textContent.map jsTrim) ""
    html := some (orString element.innerHTML "")
    tagName := some (orString element.tagName "")
    attributes := attributesToObject (element.attributes.getD []) }

/-- The loop over the matched nodes: one `results.push` per node, in order. -/
def domEach (elements : List DomNode) : List ElementRecord :=
  elements.foldl (fun results element => results ++ [domRecord element]) []

/-- The function evaluated in the page for an XPath selector. -/
def pageFunctionXPath (page : Page) (xpath : JsValue) : Except JsError (List ElementRecord) := do
  let elements ← page.documentEvaluate xpath
  pure (domEach elements)

/-- The function evaluated in the page for a CSS selector. -/
def pageFunctionCss (page : Page) (cssSelector : JsValue) : Except JsError (List ElementRecord) := do
  let elements ← page.querySelectorAll cssSelector
  pure (domEach elements)

/-- Assignment to the local `browser`. -/
def Js.setBrowser (b : Option Browser) : Js Unit := fun s => ({ s with browser := b }, .ok ())

/-- Read of the local `browser`. -/
def Js.getBrowser : Js (Option Browser) := fun s => (s, .ok s.browser)

/-- Lines 109 to 127: launch, assign `browser`, open the page, set user agent and viewport. -/
def puppeteerLaunchPage (env : Env) : Js Page := do
  let browser ← Js.call (Event.puppeteerLaunch true launchArgs) (env.puppeteerLaunch true launchArgs)
  Js.setBrowser (some browser)
  let page ← Js.call Event.newPage browser.newPage
  Js.call (Event.setUserAgent userAgent) (page.setUserAgent userAgent)
  Js.call (Event.setViewport 1280 720) (page.setViewport 1280 720)
  pure page

/-- Lines 130 to 133: `page.goto(url, ...)`. -/
def puppeteerNavigate (page : Page) (url : JsValue) : Js Unit :=
  Js.call (Event.goto url "networkidle2" 30000) (page.goto url "networkidle2" 30000)

/-- Line 136: `page.waitForTimeout(2000)`. -/
def puppeteerSettle (page : Page) : Js Unit :=
  Js.call (Event.waitForTimeout 2000) (page.waitForTimeout 2000)

/-- Lines 138 to 186: `page.evaluate` with the XPath function when `selectorType === 'xpath'`,
with the CSS function otherwise. -/
def puppeteerEvaluate (page : Page) (selector selectorType : JsValue) :
    Js (Option (List ElementRecord)) :=
  if selectorType.strictEqString "xpath" then
    Js.call (Event.pageEvaluate true selector) ((pageFunctionXPath page selector).map some)
  else
    Js.call (Event.pageEvaluate false selector) ((pageFunctionCss page selector).map some)

/-- Lines 138 to 200: evaluate the selector in the page and build the return value. -/
def puppeteerExtract (page : Page) (selector selectorType : JsValue) : Js ScrapeResult := do
  let results ← puppeteerEvaluate page selector selectorType
  match results with
  | none => pure (ScrapeResult.failure noElementsMessage)
  | some rs =>
    if rs.length = 0 then
      pure (ScrapeResult.failure noElementsMessage)
    else
      pure (ScrapeResult.ok rs)

/-- The `finally` clause: `if (browser) await browser.close()`. -/
def puppeteerFinally : Js Unit := do
  match (← Js.getBrowser) with
  | some browser => Js.call Event.browserClose browser.close
  | none => pure ()

/-- Lines 108 to 200: the `try` block. -/
def puppeteerTryBlock (env : Env) (url selector selectorType : JsValue) : Js ScrapeResult := do
  let page ← puppeteerLaunchPage env
  puppeteerNavigate page url
  puppeteerSettle page
  puppeteerExtract page selector selectorType

/-- The method `ScrapingService.scrapeWithPuppeteer(url, selector, selectorType = 'css')`. -/
def ScrapingService.scrapeWithPuppeteer (env : Env) (url selector selectorTypeArg : JsValue) :
    Js ScrapeResult := do
  Js.call (Event.invoke "scrapeWithPuppeteer" [url, selector, selectorTypeArg]) (.ok ())
  let selectorType := selectorTypeArg.withDefault (.string "css")
  Js.setBrowser none
  Js.tryCatchFinally (puppeteerTryBlock env url selector selectorType) catchAsFailure
    puppeteerFinally

/-! ## The rendering path as a state machine -/

/-- The states of the rendering path. -/
inductive Phase where
  | Idle
  | Launching
  | NavigatingReady
  | Settling
  | Extracting
  | Closed
  deriving DecidableEq, Repr

/-- A configuration of one call: the phase, the program state, the page once it exists,
and what the call has delivered to its caller (a value, or a rejection). -/
structure Machine where
  phase : Phase
  st : St
  page : Option Page
  delivered : Option (Except JsError ScrapeResult)

/-- The configuration before the call. -/
def Machine.start : Machine := ⟨.Idle, St.init, none, none⟩

/-- Leaving the `try` block with `pending`: the `catch` clause, then the `finally` clause, then
the call delivers. -/
def Machine.close (st : St) (pending : Except JsError ScrapeResult) : Machine :=
  match Js.tryCatchFinally (fun s => (s, pending)) catchAsFailure puppeteerFinally st with
  | (s2, r) => ⟨.Closed, s2, none, some r⟩

/-- One transition of the rendering path. -/
def Machine.step (env : Env) (url selector selectorTypeArg : JsValue) (m : Machine) :
    Option Machine :=
  match m.phase with
  | .Idle =>
    match (do
        Js.call (Event.invoke "scrapeWithPuppeteer" [url, selector, selectorTypeArg]) (.ok ())
        Js.setBrowser none : Js Unit) m.st with
    | (s1, _) => some ⟨.Launching, s1, none, none⟩
  | .Launching =>
    match puppeteerLaunchPage env m.st with
    | (s1, .ok page) => some ⟨.NavigatingReady, s1, some page, none⟩
    | (s1, .error e) => some (Machine.close s1 (.error e))
  | .NavigatingReady =>
    match m.page with
    | none => none
    | some page =>
      match puppeteerNavigate page url m.st with
      | (s1, .ok _) => some ⟨.Settling, s1, some page, none⟩
      | (s1, .error e) => some (Machine.close s1 (.error e))
  | .Settling =>
    match m.page with
    | none => none
    | some page =>
      match puppeteerSettle page m.st with
      | (s1, .ok _) => some ⟨.Extracting, s1, some page, none⟩
      | (s1, .error e) => some (Machine.close s1 (.error e))
  | .Extracting =>
    match m.page with
    | none => none
    | some page =>
      match puppeteerExtract page selector (selectorTypeArg.withDefault (.string "css")) m.st with
      | (s1, r) => some (Machine.close s1 r)
  | .Closed => none

/-- Take transitions until none is left, at most `fuel` of them. -/
def Machine.run (env : Env) (url selector selectorTypeArg : JsValue) : Nat → Machine → Machine
  | 0, m => m
  | fuel + 1, m =>
    match Machine.step env url selector selectorTypeArg m with
    | some m1 => Machine.run env url selector selectorTypeArg fuel m1
    | none => m

/-- The phases visited by a run, the starting phase first. -/
def Machine.phases (env : Env) (url selector selectorTypeArg : JsValue) : Nat → Machine → List Phase
  | 0, m => [m.phase]
  | fuel + 1, m =>
    match Machine.step env url selector selectorTypeArg m with
    | some m1 => m.phase :: Machine.phases env url selector selectorTypeArg fuel m1
    | none => [m.phase]

/-- The transitions the state machine of the specification allows. -/
def Phase.allowed : Phase → Phase → Bool
  | .Idle, .Launching => true
  | .Launching, .NavigatingReady => true
  | .NavigatingReady, .Settling => true
  | .Settling, .Extracting => true
  | .Extracting, .Closed => true
  | .Launching, .Closed => true
  | .NavigatingReady, .Closed => true
  | .Settling, .Closed => true
  | _, _ => false

/-! ## `POST /scrape` -/

/-- Property read on the parsed body; with duplicate keys the last one wins. -/
def getField (fields : List (String × JsValue)) (name : String) : JsValue :=
  (fields.reverse.lookup name).getD .undefined

/-- The method `ScrapingService.isValidUrl(url)`. -/
def ScrapingService.isValidUrl (env : Env) (url : JsValue) : Js Bool :=
  Js.call (Event.validatorIsURL url) (env.validatorIsURL url ["http", "https"] true)

/-- The method `ScrapingService.isValidCssSelector(selector)`. -/
def ScrapingService.isValidCssSelector (env : Env) (selector : JsValue) : Js Bool :=
  Js.tryCatch
    (do
      let dollar ← Js.call (Event.cheerioLoad "<div></div>") (env.cheerioLoad "<div></div>")
      let _ ← Js.call (Event.cheerioSelect selector) (dollar.select selector)
      pure true)
    (fun _ => pure false)

/-- The calls `res.status(status).json(body)` and `res.json(body)` (status 200). -/
def respond (status : Nat) (body : ResponseBody) : Js Unit :=
  Js.call (Event.respond status body) (.ok ())

/-- The object literal `dbRecord`. -/
def makeDbRecord (env : Env) (url selector selectorType : JsValue) (result : ScrapeResult) :
    DbRecord :=
  { url := url
    selector := selector
    selectorType := selectorType
    content := if result.success then some (env.jsonStringify result.content) else none
    status := if result.success then "success" else "failed"
    errorMessage :=
      match result.error with
      | some e => if e = "" then none else some e
      | none => none }

/-- Lines 251 to 255: the choice of the extraction method. -/
def extract (env : Env) (url selector selectorType usePuppeteer : JsValue) : Js ScrapeResult :=
  if usePuppeteer.truthy || selectorType.strictEqString "xpath" then
    ScrapingService.scrapeWithPuppeteer env url selector selectorType
  else
    ScrapingService.scrapeWithCheerio env url selector

/-- Lines 248 to 274: extract, store, answer. -/
def scrapeStoreRespond (env : Env) (url selector selectorType usePuppeteer : JsValue) : Js Unit := do
  let result ← extract env url selector selectorType usePuppeteer
  let dbRecord := makeDbRecord env url selector selectorType result
  Js.tryCatch
    (Js.call (Event.insertScrapingRecord dbRecord) (env.insertScrapingRecord dbRecord))
    (fun dbError => Js.call (Event.consoleError "Database error:" dbError.message) (.ok ()))
  respond 200 (.result result)

/-- The condition `selectorType === 'css' && !ScrapingService.isValidCssSelector(selector)`;
the selector is only checked when the left operand holds. -/
def cssSelectorRejected (env : Env) (selector selectorType : JsValue) : Js Bool :=
  if selectorType.strictEqString "css" then do
    let valid ← ScrapingService.isValidCssSelector env selector
    pure (!valid)
  else
    pure false

/-- Destructuring `req.body`: a `TypeError` when the body is `undefined`. -/
def destructureBody (body : Option (List (String × JsValue))) : Js (List (String × JsValue)) :=
  match body with
  | some fields => pure fields
  | none => Js.throw { message := "Cannot destructure property url of req.body as it is undefined." }

/-- Lines 222 to 274: the `try` block of the handler. A missing body makes the destructuring throw. -/
def postScrapeTry (env : Env) (body : Option (List (String × JsValue))) : Js Unit := do
  let fields ← destructureBody body
  let url := getField fields "url"
  let selector := getField fields "selector"
  let selectorType := (getField fields "selectorType").withDefault (.string "css")
  let usePuppeteer := (getField fields "usePuppeteer").withDefault (.bool false)
  if !url.truthy || !selector.truthy then
    respond 400 (.message false "URL and selector are required")
  else do
    let validUrl ← ScrapingService.isValidUrl env url
    if !validUrl then
      respond 400 (.message false "Invalid URL format")
    else do
      let invalidCss ← cssSelectorRejected env selector selectorType
      if invalidCss then
        respond 400 (.message false "Invalid CSS selector format")
      else
        scrapeStoreRespond env url selector selectorType usePuppeteer

/-- The handler `router.post('/scrape', ...)`. -/
def postScrape (env : Env) (body : Option (List (String × JsValue))) : Js Unit :=
  Js.tryCatch (postScrapeTry env body)
    (fun error => do
      Js.call (Event.consoleError "Scraping error:" error.message) (.ok ())
      respond 500 (.message false "Internal server error during scraping"))

/-! ## The legacy backend: `utils/scraper.js` and `routes/scrapeRoutes.js` -/

/-- What the legacy backend sees of its collaborators: `axios.get` gives `response.data` or
throws (also on a status outside 2xx), `db.run` hands its callback an error or `this.lastID`. -/
structure LegacyEnv where
  axiosGet : JsValue → List (String × String) → Except JsError String
  cheerioLoad : String → Except JsError CheerioAPI
  dbRun : String → List JsValue → Except JsError Nat

/-- The method `.text()` on a selection: the combined text of the matched elements. -/
def selectionText (elements : List CheerioElement) : String :=
  String.join (elements.map (fun element => element.text))

/-- The function `scrapeContent(url, selector)`. It resolves with the text or with `null`
(`none`), or throws. -/
def scrapeContent (env : LegacyEnv) (url selector : JsValue) : Js (Option String) :=
  Js.tryCatch
    (do
      let htmlData ← Js.call (Event.axiosGet url [("User-Agent", userAgent)])
        (env.axiosGet url [("User-Agent", userAgent)])
      let dollar ← Js.call (Event.cheerioLoad htmlData) (env.cheerioLoad htmlData)
      let elements ← Js.call (Event.cheerioSelect selector) (dollar.select selector)
      let extractedContent := jsTrim (selectionText elements)
      pure (if extractedContent = "" then none else some extractedContent))
    (fun error => do
      Js.call (Event.consoleError
        ("Error scraping " ++ url.toText ++ " with selector " ++ selector.toText ++ ":")
        error.message) (.ok ())
      Js.throw error)

/-- The statement of the legacy insert. -/
def insertSql : String := "INSERT INTO scraped_items (url, selector, content) VALUES (?, ?, ?)"

/-- The call `db.run(...)` of the legacy handler with its callback. -/
def legacyStore (env : LegacyEnv) (url selector : JsValue) (content : String) : Js Unit := do
  Js.call (Event.dbRun insertSql [url, selector, .string content]) (.ok ())
  match env.dbRun insertSql [url, selector, .string content] with
  | .error err => do
    Js.call (Event.consoleError "Error inserting data into DB:" err.message) (.ok ())
    respond 500 (.errorOnly "Failed to save scraped data to database.")
  | .ok lastID => do
    Js.call (Event.consoleLog ("A row has been inserted with rowid " ++ toString lastID)) (.ok ())
    respond 200 (.saved "Scraping successful and data saved!" content lastID)

/-- The `catch (error)` clause of the legacy handler. -/
def legacyCatch (error : JsError) : Js Unit := do
  Js.call (Event.consoleError "Scraping error in route handler:" error.message) (.ok ())
  match error.response with
  | some status =>
    respond status
      (.errorOnly ("Failed to fetch URL (" ++ toString status ++ "): " ++ error.message))
  | none =>
    if error.request then
      respond 503 (.errorOnly
        "No response received from URL. Please check the URL or your network connection.")
    else
      respond 500
        (.errorOnly ("An unexpected error occurred during scraping: " ++ error.message))

/-- The `try` block of the legacy handler. -/
def legacyTry (env : LegacyEnv) (url selector : JsValue) : Js Unit := do
  let extractedContent ← scrapeContent env url selector
  match extractedContent with
  | none => respond 404 (.messageOnly "No content found for the given selector or URL.")
  | some content =>
    if content = "" then
      respond 404 (.messageOnly "No content found for the given selector or URL.")
    else
      legacyStore env url selector content

/-- The legacy handler `router.post('/scrape', ...)` of `scrapeRoutes.js`. The destructuring
of `req.body` stands before the `try` block. -/
def legacyPostScrape (env : LegacyEnv) (body : Option (List (String × JsValue))) : Js Unit := do
  let fields ← destructureBody body
  let url := getField fields "url"
  let selector := getField fields "selector"
  if !url.truthy || !selector.truthy then
    respond 400 (.errorOnly "URL and selector are required.")
  else
    Js.tryCatch (legacyTry env url selector) legacyCatch

/-! ## The history routes: `GET /history` and `DELETE /history/:id` -/

/-- Value of a character as a digit of the given radix, when it is one. -/
def digitValue (radix : Nat) (c : Char) : Option Nat :=
  let value : Option Nat :=
    if 48 ≤ c.toNat ∧ c.toNat ≤ 57 then some (c.toNat - 48)
    else if 97 ≤ c.toNat ∧ c.toNat ≤ 122 then some (c.toNat - 97 + 10)
    else if 65 ≤ c.toNat ∧ c.toNat ≤ 90 then some (c.toNat - 65 + 10)
    else none
  value.filter (fun v => decide (v < radix))

/-- Whether the text, after leading white space, starts with a minus sign. -/
def parseIntNegative (trimmed : List Char) : Bool :=
  match trimmed with
  | c :: _ => decide (c = '-')
  | [] => false

/-- The text after an optional sign. -/
def parseIntUnsigned (trimmed : List Char) : List Char :=
  match trimmed with
  | c :: rest => if c = '-' ∨ c = '+' then rest else trimmed
  | [] => []

/-- Whether the text after the sign starts with `0x` or `0X`. -/
def parseIntHex (unsigned : List Char) : Bool :=
  match unsigned with
  | zero :: x :: _ => decide (zero = '0') && (decide (x = 'x') || decide (x = 'X'))
  | _ => false

/-- The digits `parseInt` reads: the longest run of digits of the radix, after the sign and
the `0x` mark. -/
def parseIntDigits (input : String) : Nat × List Char :=
  let unsigned := parseIntUnsigned (input.toList.dropWhile isJsWhiteSpace)
  let radix := if parseIntHex unsigned then 16 else 10
  let body := if parseIntHex unsigned then unsigned.drop 2 else unsigned
  (radix, body.takeWhile (fun c => (digitValue radix c).isSome))

/-- The bound 2^1024 that no double reaches (written as a power of 2^256). -/
def doubleLimit : Nat := (2 ^ 256) ^ 4

/-- The spacing of the doubles around `n`: the least power of two `unit`, starting from
`unit`, with `n / unit` below 2^53. After 1024 doublings `n` is beyond every double. -/
def doubleUnit : Nat → Nat → Nat → Nat
  | 0, unit, _ => unit
  | fuel + 1, unit, n => if n / unit < 2 ^ 53 then unit else doubleUnit fuel (2 * unit) n

/-- The Number value of a natural number, after ECMAScript: the nearest double, a tie going
to the one with the even significand; `none` is `Infinity`, reached from 2^1024 - 2^970 on. -/
def roundToDouble (n : Nat) : Option Nat :=
  let unit := doubleUnit 1024 1 n
  let low := n / unit * unit
  let rest := n % unit
  let rounded :=
    if 2 * rest < unit then low
    else if unit < 2 * rest then low + unit
    else if (n / unit) % 2 = 0 then low else low + unit
  if rounded < doubleLimit then some rounded else none

/-- The built-in `parseInt(string)` with no radix argument, after ECMAScript: leading white
space is skipped, a sign and a `0x` mark are read, then the longest run of digits; no digit
gives `NaN`; the integer read is returned as a Number, so it is rounded to the nearest double
and is an infinity when too large. Every digit is read: the leave the standard gives to
approximate after the twentieth decimal digit is not taken. -/
def parseInt (input : String) : JsNumber :=
  let radix := (parseIntDigits input).1
  let digits := (parseIntDigits input).2
  let negative := parseIntNegative (input.toList.dropWhile isJsWhiteSpace)
  if digits = [] then .nan
  else
    match roundToDouble
        (digits.foldl (fun acc c => acc * radix + (digitValue radix c).getD 0) 0) with
    | some magnitude => .finite negative magnitude
    | none => .infinity negative

/-- What the history routes see of their collaborators: the two functions of the database
module, which resolve or reject, and `JSON.parse` on a stored content. The result of
`deleteScrapingRecord` is kept as its `changes` count. -/
structure HistoryEnv where
  getScrapingHistory : JsNumber → Except JsError (List HistoryRow)
  deleteScrapingRecord : JsNumber → Except JsError Nat
  jsonParse : String → Except JsError (Option (List ElementRecord))

/-- The expression `parseInt(req.query.limit) || 50`: `NaN` and zero are falsy. -/
def historyLimit (limit : JsValue) : JsNumber :=
  if (parseInt limit.toText).truthy then parseInt limit.toText else .finite false 50

/-- The arrow function mapped over the rows: `record.content ? JSON.parse(record.content) : null`
with the other columns spread unchanged. -/
def processRow (env : HistoryEnv) (record : HistoryRow) : Js ProcessedRow :=
  match record.content with
  | some text =>
    if text = "" then pure { content := none, others := record.others }
    else do
      let parsed ← Js.call (Event.jsonParse text) (env.jsonParse text)
      pure { content := parsed, others := record.others }
  | none => pure { content := none, others := record.others }

/-- The call `history.map(...)`: the rows in order; a `JSON.parse` that throws ends it. -/
def processHistory (env : HistoryEnv) : List HistoryRow → Js (List ProcessedRow)
  | [] => pure []
  | record :: rest => do
    let processed ← processRow env record
    let others ← processHistory env rest
    pure (processed :: others)

/-- The `try` block of `GET /history`. -/
def getHistoryTry (env : HistoryEnv) (limit : JsValue) : Js Unit := do
  let history ← Js.call (Event.getScrapingHistory (historyLimit limit))
    (env.getScrapingHistory (historyLimit limit))
  let processedHistory ← processHistory env history
  respond 200 (.history true processedHistory)

/-- The handler `router.get('/history', ...)`; `limit` is `req.query.limit`. -/
def getHistory (env : HistoryEnv) (limit : JsValue) : Js Unit :=
  Js.tryCatch (getHistoryTry env limit)
    (fun error => do
      Js.call (Event.consoleError "History retrieval error:" error.message) (.ok ())
      respond 500 (.message false "Failed to retrieve scraping history"))

/-- The `try` block of `DELETE /history/:id`. -/
def deleteHistoryTry (env : HistoryEnv) (id : String) : Js Unit :=
  if id = "" ∨ parseInt id = .nan then respond 400 (.message false "Invalid ID provided")
  else do
    let changes ← Js.call (Event.deleteScrapingRecord (parseInt id))
      (env.deleteScrapingRecord (parseInt id))
    if changes = 0 then respond 404 (.message false "Record not found")
    else respond 200 (.notice true "Record deleted successfully")

/-- The handler `router.delete('/history/:id', ...)`; `id` is `req.params.id`. -/
def deleteHistory (env : HistoryEnv) (id : String) : Js Unit :=
  Js.tryCatch (deleteHistoryTry env id)
    (fun error => do
      Js.call (Event.consoleError "Delete error:" error.message) (.ok ())
      respond 500 (.message false "Failed to delete record"))

/-! ## Reading the log -/

/-- The event is the entry of the named `ScrapingService` method. -/
def Event.isInvokeOf (method : String) : Event → Bool
  | .invoke m _ => decide (m = method)
  | _ => false

/-- The event is the entry of some `ScrapingService` method. -/
def Event.isInvoke : Event → Bool
  | .invoke _ _ => true
  | _ => false

/-- The event is a response sent to the client. -/
def Event.isRespond : Event → Bool
  | .respond _ _ => true
  | _ => false

/-- The event is a call of `browser.close()`. -/
def Event.isClose : Event → Bool
  | .browserClose => true
  | _ => false

/-- The event is a call to `fetch`, cheerio or puppeteer made while extracting. -/
def Event.isExtraction : Event → Bool
  | .fetch _ _ => true
  | .responseText => true
  | .cheerioLoad _ => true
  | .cheerioSelect _ => true
  | .puppeteerLaunch _ _ => true
  | .newPage => true
  | .setUserAgent _ => true
  | .setViewport _ _ => true
  | .goto _ _ _ => true
  | .waitForTimeout _ => true
  | .pageEvaluate _ _ => true
  | .browserClose => true
  | _ => false

/-- The event is a browser operation of the `try` block of the rendering path. -/
def Event.isBrowserStep : Event → Bool
  | .puppeteerLaunch _ _ => true
  | .newPage => true
  | .setUserAgent _ => true
  | .setViewport _ _ => true
  | .goto _ _ _ => true
  | .waitForTimeout _ => true
  | .pageEvaluate _ _ => true
  | _ => false

/-- The event is a call of `fetch`. -/
def Event.isFetch : Event → Bool
  | .fetch _ _ => true
  | _ => false

/-- The event is a call of `database.insertScrapingRecord` or of the legacy `db.run`. -/
def Event.isStore : Event → Bool
  | .insertScrapingRecord _ => true
  | .dbRun _ _ => true
  | _ => false

/-- The records handed to `database.insertScrapingRecord`, in order. -/
def insertedRecords (log : List Event) : List DbRecord :=
  log.filterMap (fun e =>
    match e with
    | .insertScrapingRecord record => some record
    | _ => none)

/-- The timeout, in milliseconds, that a call passes to its collaborator: only `page.goto`
is called with one; `fetch` is called with `headers` only and `puppeteer.launch` with
`headless` and `args` only. -/
def Event.timeoutOption : Event → Option Nat
  | .goto _ _ timeout => some timeout
  | _ => none

/-- The event is one of the suspension points the specification names as bounded: the
HTTP fetch, the browser launch, the page navigation. -/
def Event.isBoundedSuspension : Event → Bool
  | .fetch _ _ => true
  | .puppeteerLaunch _ _ => true
  | .goto _ _ _ => true
  | _ => false

/-- The body has a `content` key. -/
def ResponseBody.hasContentKey : ResponseBody → Bool
  | .result _ => true
  | .saved _ _ _ => true
  | _ => false

/-- The responses sent to the client, in order. -/
def responses (log : List Event) : List Event := log.filter Event.isRespond

/-- A computation appends only events satisfying `P` to the log. -/
def Js.Emits {α : Type} (P : Event → Prop) (m : Js α) : Prop :=
  ∀ s : St, ∃ t : List Event, (m s).1.log = s.log ++ t ∧ ∀ e ∈ t, P e

/-- A computation neither reads nor rewrites the log it is given: started from `s` it appends
to `s.log` what it logs when started from an empty log. -/
def Js.Framed {α : Type} (m : Js α) : Prop :=
  ∀ s : St, m s =
    (⟨s.log ++ (m ⟨[], s.browser⟩).1.log, (m ⟨[], s.browser⟩).1.browser⟩, (m ⟨[], s.browser⟩).2)

/-- Every value a computation returns satisfies `Q`. -/
def Js.Returns {α : Type} (Q : α → Prop) (m : Js α) : Prop :=
  ∀ (s : St) (a : α), (m s).2 = .ok a → Q a

/-- The two shapes of an extraction result: a failure value with a reason, or a success
value over a non-empty list of records. -/
def ScrapeResult.WellShaped (r : ScrapeResult) : Prop :=
  (∃ reason : String, r = ScrapeResult.failure reason) ∨
  (∃ records : List ElementRecord, records ≠ [] ∧ r = ScrapeResult.ok records)

/-- A computation leaves the local `browser` as it found it. -/
def Js.KeepsBrowser {α : Type} (m : Js α) : Prop :=
  ∀ s : St, (m s).1.browser = s.browser

/-- A handler computation sends exactly one response when it completes and none when it throws. -/
def Js.AnswersOnce (m : Js Unit) : Prop :=
  ∀ s : St,
    match (m s).2 with
    | .ok _ => ∃ (status : Nat) (body : ResponseBody),
        responses (m s).1.log = responses s.log ++ [Event.respond status body]
    | .error _ => responses (m s).1.log = responses s.log

/-- The entry event of the extraction method that lines 251 to 255 choose. -/
def chosenInvoke (url selector selectorType usePuppeteer : JsValue) : Event :=
  if usePuppeteer.truthy || selectorType.strictEqString "xpath" then
    Event.invoke "scrapeWithPuppeteer" [url, selector, selectorType]
  else
    Event.invoke "scrapeWithCheerio" [url, selector]

/-- The events of the validation steps of a request that passes them. -/
def validationEvents (url selector selectorType : JsValue) : List Event :=
  Event.validatorIsURL url ::
    (if selectorType.strictEqString "css" then
      [Event.cheerioLoad "<div></div>", Event.cheerioSelect selector]
    else [])

/-- The events of lines 257 to 282 once the extraction has returned `r` or thrown: the
record handed to the database, the console line of a database error, and the response; or
the console line and the 500 of the outer `catch`. -/
def storeAndAnswerEvents (env : Env) (url selector selectorType : JsValue)
    (outcome : Except JsError ScrapeResult) : List Event :=
  match outcome with
  | .ok r =>
    Event.insertScrapingRecord (makeDbRecord env url selector selectorType r) ::
      ((match env.insertScrapingRecord (makeDbRecord env url selector selectorType r) with
        | .ok _ => []
        | .error dbError => [Event.consoleError "Database error:" dbError.message]) ++
       [Event.respond 200 (.result r)])
  | .error e =>
    [Event.consoleError "Scraping error:" e.message,
     Event.respond 500 (.message false "Internal server error during scraping")]

/-- The parameters of a `db.run` call. -/
def Event.insertedRow : Event → Option (List JsValue)
  | .dbRun _ params => some params
  | _ => none

/-- The rows handed to `db.run` by the legacy handler, in order. -/
def insertedRows (log : List Event) : List (List JsValue) :=
  log.filterMap Event.insertedRow

/-- An event of the legacy `scrapeContent`: neither a response nor a database call. -/
def Event.isQuiet (e : Event) : Bool :=
  match e with
  | .respond _ _ => false
  | .dbRun _ _ => false
  | _ => true

/-- The limit of a `database.getScrapingHistory` call. -/
def Event.historyQuery : Event → Option JsNumber
  | .getScrapingHistory limit => some limit
  | _ => none

/-- The limits handed to `database.getScrapingHistory`, in order. -/
def historyQueries (log : List Event) : List JsNumber :=
  log.filterMap Event.historyQuery

/-- The id of a `database.deleteScrapingRecord` call. -/
def Event.deletion : Event → Option JsNumber
  | .deleteScrapingRecord id => some id
  | _ => none

/-- The ids handed to `database.deleteScrapingRecord`, in order. -/
def deletions (log : List Event) : List JsNumber :=
  log.filterMap Event.deletion

/-- The event is a call of `JSON.parse`. -/
def Event.isParse : Event → Bool
  | .jsonParse _ => true
  | _ => false

/-- The events `GET /history` logs after the database call, given what the database call and
the mapping over the rows came to: the 200 with the processed rows, or the console line and
the 500 of the `catch`. -/
def historyAnswerEvents (outcome : Except JsError (List ProcessedRow)) : List Event :=
  match outcome with
  | .ok data => [Event.respond 200 (.history true data)]
  | .error e =>
    [Event.consoleError "History retrieval error:" e.message,
     Event.respond 500 (.message false "Failed to retrieve scraping history")]

/-! ## Scenarios -/

/-- The code points that `trim` strips, as ECMAScript lists them: `WhiteSpace` (tab, vertical
tab, form feed, the byte order mark and the space separators of Unicode) and
`LineTerminator` (line feed, carriage return, line and paragraph separator). -/
def whiteSpaceCodePoints : List Nat :=
  [0x0009, 0x000B, 0x000C, 0xFEFF,
   0x0020, 0x00A0, 0x1680, 0x2000, 0x2001, 0x2002, 0x2003, 0x2004, 0x2005, 0x2006, 0x2007,
   0x2008, 0x2009, 0x200A, 0x202F, 0x205F, 0x3000,
   0x000A, 0x000D, 0x2028, 0x2029]

/-- The text `t` is `s` without its leading and trailing white space: `s` is `t` between two
runs of white-space characters, and `t` neither starts nor ends with one. -/
def TrimOf (s t : String) : Prop :=
  ∃ before after : List Char,
    s.toList = before ++ t.toList ++ after ∧
    (∀ c ∈ before, c.toNat ∈ whiteSpaceCodePoints) ∧
    (∀ c ∈ after, c.toNat ∈ whiteSpaceCodePoints) ∧
    (∀ c : Char, t.toList.head? = some c → c.toNat ∉ whiteSpaceCodePoints) ∧
    (∀ c : Char, t.toList.getLast? = some c → c.toNat ∉ whiteSpaceCodePoints)

/-- The static path obtains the page (a 2xx response whose body is read and parsed) and
the selector matches exactly `elements`. -/
def StaticPageMatches (env : Env) (url selector : JsValue) (elements : List CheerioElement) : Prop :=
  ∃ (response : HttpResponse) (html : String) (dollar : CheerioAPI),
    env.fetch url [("User-Agent", userAgent)] = .ok response ∧
    200 ≤ response.status ∧ response.status ≤ 299 ∧
    response.text = .ok html ∧
    env.cheerioLoad html = .ok dollar ∧
    dollar.select selector = .ok elements

/-- The rendering path obtains the page (every browser operation succeeds, `close` included)
and the selector, read as XPath when `selectorType` is `xpath` and as CSS otherwise,
matches exactly `nodes`. -/
def RenderedPageMatches (env : Env) (url selector selectorType : JsValue) (nodes : List DomNode) :
    Prop :=
  ∃ (browser : Browser) (page : Page),
    env.puppeteerLaunch true launchArgs = .ok browser ∧
    browser.newPage = .ok page ∧
    page.setUserAgent userAgent = .ok () ∧
    page.setViewport 1280 720 = .ok () ∧
    page.goto url "networkidle2" 30000 = .ok () ∧
    page.waitForTimeout 2000 = .ok () ∧
    (if (selectorType.withDefault (.string "css")).strictEqString "xpath" then
      page.documentEvaluate selector = .ok nodes
    else
      page.querySelectorAll selector = .ok nodes) ∧
    browser.close = .ok ()

/-- The rendering path obtains the page and the selector matches exactly `nodes`, as in
`RenderedPageMatches`, but `browser.close()` ends as `closing` says: it returns or throws. -/
def RenderedThenClosed (env : Env) (url selector selectorType : JsValue) (nodes : List DomNode)
    (closing : Except JsError Unit) : Prop :=
  ∃ (browser : Browser) (page : Page),
    env.puppeteerLaunch true launchArgs = .ok browser ∧
    browser.newPage = .ok page ∧
    page.setUserAgent userAgent = .ok () ∧
    page.setViewport 1280 720 = .ok () ∧
    page.goto url "networkidle2" 30000 = .ok () ∧
    page.waitForTimeout 2000 = .ok () ∧
    (if (selectorType.withDefault (.string "css")).strictEqString "xpath" then
      page.documentEvaluate selector = .ok nodes
    else
      page.querySelectorAll selector = .ok nodes) ∧
    browser.close = closing

/-- The request passes the three validation steps of the handler and so reaches the extractor. -/
def Validated (env : Env) (fields : List (String × JsValue)) : Prop :=
  (getField fields "url").truthy = true ∧
  (getField fields "selector").truthy = true ∧
  env.validatorIsURL (getField fields "url") ["http", "https"] true = .ok true ∧
  (((getField fields "selectorType").withDefault (.string "css")).strictEqString "css" = true →
    ∃ (dollar : CheerioAPI) (elements : List CheerioElement),
      env.cheerioLoad "<div></div>" = .ok dollar ∧
      dollar.select (getField fields "selector") = .ok elements)

/-- The browser session of one call succeeds up to the evaluation and closes without error;
`page` is the page it rendered. -/
def SessionRenders (env : Env) (url : JsValue) (page : Page) : Prop :=
  ∃ browser : Browser,
    env.puppeteerLaunch true launchArgs = .ok browser ∧
    browser.newPage = .ok page ∧
    page.setUserAgent userAgent = .ok () ∧
    page.setViewport 1280 720 = .ok () ∧
    page.goto url "networkidle2" 30000 = .ok () ∧
    page.waitForTimeout 2000 = .ok () ∧
    browser.close = .ok ()

/-- The browser session of one call succeeds up to the evaluation: `browser` is launched and
`page` is the page it rendered. Nothing is said about `browser.close()`. -/
def SessionOpens (env : Env) (url : JsValue) (browser : Browser) (page : Page) : Prop :=
  env.puppeteerLaunch true launchArgs = .ok browser ∧
  browser.newPage = .ok page ∧
  page.setUserAgent userAgent = .ok () ∧
  page.setViewport 1280 720 = .ok () ∧
  page.goto url "networkidle2" 30000 = .ok () ∧
  page.waitForTimeout 2000 = .ok ()

/-- Two rendered pages hold the same content as far as the selector can tell: both DOM
queries answer alike. -/
def SameRenderedPage (page1 page2 : Page) (selector : JsValue) : Prop :=
  page1.documentEvaluate selector = page2.documentEvaluate selector ∧
  page1.querySelectorAll selector = page2.querySelectorAll selector

/-! ## A concrete environment

The page `http://example.test/page` has the body `<h1>Hello</h1>`. -/

/-- The only element of the example page, as cheerio shows it. -/
def helloElement : CheerioElement := ⟨"Hello", some "Hello", some []⟩

/-- The only element of the example page, as the browser shows it. -/
def helloNode : DomNode := ⟨some "Hello", some "Hello", some "H1", some []⟩

/-- The example page in cheerio: `h1` matches the heading, nothing else matches. -/
def exampleDollar : CheerioAPI :=
  ⟨fun selector => if selector = .string "h1" then .ok [helloElement] else .ok []⟩

/-- An empty document in cheerio. -/
def emptyDollar : CheerioAPI := ⟨fun _ => .ok []⟩

/-- The example page in the browser. -/
def examplePage : Page :=
  { setUserAgent := fun _ => .ok ()
    setViewport := fun _ _ => .ok ()
    goto := fun url _ _ =>
      if url = .string "http://example.test/page" then .ok () else .error { message := "net::ERR_NAME_NOT_RESOLVED" }
    waitForTimeout := fun _ => .ok ()
    documentEvaluate := fun xpath => if xpath = .string "//h1" then .ok [helloNode] else .ok []
    querySelectorAll := fun selector => if selector = .string "h1" then .ok [helloNode] else .ok [] }

/-- A browser that opens the example page and closes without error. -/
def exampleBrowser : Browser := ⟨.ok examplePage, .ok ()⟩

/-- A browser whose `close` throws. -/
def brokenCloseBrowser : Browser := ⟨.ok examplePage, .error { message := "Protocol error: Connection closed." }⟩

/-- The example environment: the page answers with 200, `http://example.test/gone` with 404,
any other address cannot be fetched; the validator accepts strings that start with `http://`
or `https://` and throws on anything that is not a string; the database accepts every record;
the serializer is a stand-in that lists the texts of the records. -/
def exampleEnv : Env :=
  { fetch := fun url _ =>
      if url = .string "http://example.test/page" then .ok ⟨200, "OK", .ok "<h1>Hello</h1>"⟩
      else if url = .string "http://example.test/gone" then .ok ⟨404, "Not Found", .ok ""⟩
      else .error { message := "fetch failed" }
    cheerioLoad := fun html => if html = "<h1>Hello</h1>" then .ok exampleDollar else .ok emptyDollar
    puppeteerLaunch := fun _ _ => .ok exampleBrowser
    validatorIsURL := fun url _ _ =>
      match url with
      | .string u =>
        .ok ("http://".toList.isPrefixOf u.toList || "https://".toList.isPrefixOf u.toList)
      | _ => .error { message := "Expected a string" }
    insertScrapingRecord := fun _ => .ok ()
    jsonStringify := fun content =>
      match content with
      | some records => "[" ++ ", ".intercalate (records.map (fun r => r.text)) ++ "]"
      | none => "null" }

/-- The heading of the padded page, as cheerio shows it: its text has white space around it. -/
def paddedElement : CheerioElement :=
  ⟨"\n  Hello world \t", some "<b>Hello</b> world", some [("class", "title")]⟩

/-- The padded page in cheerio. -/
def paddedDollar : CheerioAPI :=
  ⟨fun selector => if selector = .string "h1" then .ok [paddedElement] else .ok []⟩

/-- The example environment with the padded page at `http://example.test/padded`. -/
def paddedEnv : Env :=
  { exampleEnv with
    fetch := fun url _ =>
      if url = .string "http://example.test/padded" then
        .ok ⟨200, "OK", .ok "<h1 class=title>\n  <b>Hello</b> world \t</h1>"⟩
      else .error { message := "fetch failed" }
    cheerioLoad := fun html =>
      if html = "<h1 class=title>\n  <b>Hello</b> world \t</h1>" then .ok paddedDollar
      else .ok emptyDollar }

/-- A `div` with white space around its text and an attribute named `__proto__`. -/
def protoNode : DomNode :=
  ⟨some "  Hi\n", some "Hi", some "DIV", some [("id", "a"), ("__proto__", "x")]⟩

/-- The example page in the browser with `protoNode` as its only `div`. -/
def protoPage : Page :=
  { examplePage with
    documentEvaluate := fun xpath => if xpath = .string "//div" then .ok [protoNode] else .ok []
    querySelectorAll := fun selector =>
      if selector = .string "div" then .ok [protoNode] else .ok [] }

/-- The example environment with a browser that shows `protoPage`. -/
def protoEnv : Env := { exampleEnv with puppeteerLaunch := fun _ _ => .ok ⟨.ok protoPage, .ok ()⟩ }

/-- The example environment with a browser whose `close` throws. -/
def closeThrowsEnv : Env := { exampleEnv with puppeteerLaunch := fun _ _ => .ok brokenCloseBrowser }

/-- The example environment in which the browser cannot be launched. -/
def launchFailsEnv : Env :=
  { exampleEnv with puppeteerLaunch := fun _ _ => .error { message := "Failed to launch the browser process" } }

/-- The example environment in which the database rejects every insert. -/
def dbFailsEnv : Env := { exampleEnv with insertScrapingRecord := fun _ => .error { message := "SQLITE_BUSY" } }

/-- The example environment in which `fetch` rejects with an error whose message is empty. -/
def emptyReasonEnv : Env := { exampleEnv with fetch := fun _ _ => .error { message := "" } }

/-- The example request with a number sent as `url`. -/
def numberUrlRequest : List (String × JsValue) :=
  [("url", .number 42), ("selector", .string "h1")]

/-- The example request with an empty `url`. -/
def emptyUrlRequest : List (String × JsValue) :=
  [("url", .string ""), ("selector", .string "h1")]

/-- The example request through the browser. -/
def renderedRequest : List (String × JsValue) :=
  [("url", .string "http://example.test/page"), ("selector", .string "h1"),
   ("selectorType", .string "css"), ("usePuppeteer", .bool true)]

/-- The example request without the two optional fields. -/
def shortRequest : List (String × JsValue) :=
  [("url", .string "http://example.test/page"), ("selector", .string "h1")]

/-- The legacy example environment: the example page can be fetched, any other address
fails without a response; the database numbers its rows from 1. -/
def legacyExampleEnv : LegacyEnv :=
  { axiosGet := fun url _ =>
      if url = .string "http://example.test/page" then .ok "<h1>Hello</h1>"
      else .error { message := "getaddrinfo ENOTFOUND", request := true }
    cheerioLoad := fun html => if html = "<h1>Hello</h1>" then .ok exampleDollar else .ok emptyDollar
    dbRun := fun _ _ => .ok 1 }

/-- The padded page in the legacy cheerio: `p` matches two paragraphs with white space around
their texts, `.blank` matches an element that holds white space only. -/
def legacyPaddedDollar : CheerioAPI :=
  ⟨fun selector =>
    if selector = .string "p" then
      .ok [⟨"  Hello ", some "  Hello ", some []⟩, ⟨"world \n", some "world \n", some []⟩]
    else if selector = .string ".blank" then .ok [⟨" \n\t ", some " \n\t ", some []⟩]
    else .ok []⟩

/-- The legacy environment with the padded page at `http://example.test/padded`. -/
def legacyPaddedEnv : LegacyEnv :=
  { legacyExampleEnv with
    axiosGet := fun url _ =>
      if url = .string "http://example.test/padded" then
        .ok "<p>  Hello </p><p>world \n</p><i class=blank> \n\t </i>"
      else .error { message := "getaddrinfo ENOTFOUND", request := true }
    cheerioLoad := fun _ => .ok legacyPaddedDollar }

/-- The example request for an address that cannot be reached. -/
def downRequest : List (String × JsValue) :=
  [("url", .string "http://example.test/down"), ("selector", .string "h1")]

/-- The example request with a selector that matches nothing. -/
def missingRequest : List (String × JsValue) :=
  [("url", .string "http://example.test/page"), ("selector", .string ".missing"),
   ("selectorType", .string "css"), ("usePuppeteer", .bool false)]

/-- The example request with the string `"false"` sent as `usePuppeteer`. -/
def stringFlagRequest : List (String × JsValue) :=
  [("url", .string "http://example.test/page"), ("selector", .string "h1"),
   ("selectorType", .string "css"), ("usePuppeteer", .string "false")]

/-- The example request of the specification, as a parsed body. -/
def helloRequest : List (String × JsValue) :=
  [("url", .string "http://example.test/page"), ("selector", .string "h1"),
   ("selectorType", .string "css"), ("usePuppeteer", .bool false)]

/-- The example request with a selector type the handler does not know. -/
def regexTypeRequest : List (String × JsValue) :=
  [("url", .string "http://example.test/page"), ("selector", .string "h1"),
   ("selectorType", .string "regex"), ("usePuppeteer", .bool false)]

/-- The example history environment: the table holds the record of the example request and
one failed record; only record 12 can be deleted; the parser reads back what the stand-in
serializer of the example environment writes for the example page. -/
def exampleHistoryEnv : HistoryEnv :=
  { getScrapingHistory := fun _ =>
      .ok [⟨some "[Hello]", [("id", .number 2)]⟩, ⟨none, [("id", .number 1)]⟩]
    deleteScrapingRecord := fun id => .ok (if id = .finite false 12 then 1 else 0)
    jsonParse := fun text =>
      if text = "[Hello]" then .ok (some [cheerioRecord helloElement])
      else .error { message := "Unexpected token in JSON" } }

/-! ## Basic facts about computations -/

theorem Js.bind_apply {α β : Type} (m : Js α) (f : α → Js β) (s : St) :
    (m >>= f) s =
      match m s with
      | (s1, .ok a) => f a s1
      | (s1, .error e) => (s1, .error e) := rfl

theorem Js.pure_apply {α : Type} (a : α) (s : St) : (pure a : Js α) s = (s, .ok a) := rfl

theorem cheerioEach_eq_map (elements : List CheerioElement) :
    cheerioEach elements = elements.map cheerioRecord := by
  unfold cheerioEach
  suffices h : ∀ acc : List ElementRecord,
      elements.foldl (fun results element => results ++ [cheerioRecord element]) acc
        = acc ++ elements.map cheerioRecord by simpa using h []
  induction elements with
  | nil => intro acc; simp
  | cons x xs ih => intro acc; simp [ih]

theorem domEach_eq_map (elements : List DomNode) :
    domEach elements = elements.map domRecord := by
  unfold domEach
  suffices h : ∀ acc : List ElementRecord,
      elements.foldl (fun results element => results ++ [domRecord element]) acc
        = acc ++ elements.map domRecord by simpa using h []
  induction elements with
  | nil => intro acc; simp
  | cons x xs ih => intro acc; simp [ih]

theorem HttpResponse.ok_eq_true_iff (r : HttpResponse) :
    r.ok = true ↔ 200 ≤ r.status ∧ r.status ≤ 299 := by
  simp [HttpResponse.ok]

theorem jsTrim_empty : jsTrim "" = "" := by
  simp [jsTrim]

theorem orString_some_jsTrim (s : String) : orString (some (jsTrim s)) "" = jsTrim s := by
  unfold orString
  split <;> simp_all

theorem orString_getD (x : Option String) : orString x "" = x.getD "" := by
  cases x with
  | none => rfl
  | some s =>
    unfold orString
    by_cases h : s = "" <;> simp [h]

/-! ## The static path on a page it could read -/

/-- Running the static path on a readable page: the log and the returned value. -/
theorem scrapeWithCheerio_of_matches (env : Env) (url selector : JsValue)
    (elements : List CheerioElement) (h : StaticPageMatches env url selector elements) :
    ∃ html : String,
      ((ScrapingService.scrapeWithCheerio env url selector).run).1.log =
        [Event.invoke "scrapeWithCheerio" [url, selector],
         Event.fetch url [("User-Agent", userAgent)], Event.responseText,
         Event.cheerioLoad html, Event.cheerioSelect selector] ∧
      ((ScrapingService.scrapeWithCheerio env url selector).run).2 =
        .ok (if elements.length = 0 then ScrapeResult.failure noElementsMessage
             else ScrapeResult.ok (elements.map cheerioRecord)) := by
  obtain ⟨response, html, dollar, hfetch, hlo, hhi, htext, hload, hsel⟩ := h
  have hok : response.ok = true := (HttpResponse.ok_eq_true_iff response).2 ⟨hlo, hhi⟩
  refine ⟨html, ?_, ?_⟩
  · by_cases hlen : elements = [] <;>
      simp [ScrapingService.scrapeWithCheerio, Js.run, Js.tryCatch, Js.call, Js.bind_apply,
        Js.pure_apply, St.init, hfetch, hok, htext, hload, hsel, hlen]
  · by_cases hlen : elements = [] <;>
      simp [ScrapingService.scrapeWithCheerio, Js.run, Js.tryCatch, Js.call, Js.bind_apply,
        Js.pure_apply, St.init, hfetch, hok, htext, hload, hsel, hlen, cheerioEach_eq_map]

/-! ## The rendering path on a page it could render -/

/-- Running the rendering path on a rendered page: the log and the returned value. -/
theorem scrapeWithPuppeteer_of_matches (env : Env) (url selector selectorType : JsValue)
    (nodes : List DomNode) (h : RenderedPageMatches env url selector selectorType nodes) :
    ((ScrapingService.scrapeWithPuppeteer env url selector selectorType).run).1.log =
        [Event.invoke "scrapeWithPuppeteer" [url, selector, selectorType],
         Event.puppeteerLaunch true launchArgs, Event.newPage, Event.setUserAgent userAgent,
         Event.setViewport 1280 720, Event.goto url "networkidle2" 30000,
         Event.waitForTimeout 2000,
         Event.pageEvaluate ((selectorType.withDefault (.string "css")).strictEqString "xpath")
           selector,
         Event.browserClose] ∧
      ((ScrapingService.scrapeWithPuppeteer env url selector selectorType).run).2 =
        .ok (if nodes.length = 0 then ScrapeResult.failure noElementsMessage
             else ScrapeResult.ok (nodes.map domRecord)) := by
  obtain ⟨browser, page, hlaunch, hpage, hua, hvp, hgoto, hwait, hquery, hclose⟩ := h
  by_cases hx : (selectorType.withDefault (.string "css")).strictEqString "xpath" = true
  · rw [if_pos hx] at hquery
    by_cases hlen : nodes = [] <;>
      simp [ScrapingService.scrapeWithPuppeteer, Js.run, Js.tryCatchFinally, Js.tryCatch, Js.call,
        Js.bind_apply, Js.pure_apply, Js.setBrowser, Js.getBrowser, St.init, puppeteerLaunchPage,
        puppeteerTryBlock,
        puppeteerNavigate, puppeteerSettle, puppeteerExtract, puppeteerEvaluate, puppeteerFinally,
        catchAsFailure,
        pageFunctionXPath, pageFunctionCss, Except.map, bind, Except.bind, pure, Except.pure,
        domEach_eq_map, hlaunch, hpage, hua, hvp, hgoto, hwait, hquery, hclose, hx, hlen]
  · rw [if_neg hx] at hquery
    by_cases hlen : nodes = [] <;>
      simp [ScrapingService.scrapeWithPuppeteer, Js.run, Js.tryCatchFinally, Js.tryCatch, Js.call,
        Js.bind_apply, Js.pure_apply, Js.setBrowser, Js.getBrowser, St.init, puppeteerLaunchPage,
        puppeteerTryBlock,
        puppeteerNavigate, puppeteerSettle, puppeteerExtract, puppeteerEvaluate, puppeteerFinally,
        catchAsFailure,
        pageFunctionXPath, pageFunctionCss, Except.map, bind, Except.bind, pure, Except.pure,
        domEach_eq_map, hlaunch, hpage, hua, hvp, hgoto, hwait, hquery, hclose, hx, hlen]

/-! ## The attribute object built in the page -/

theorem lookup_cons_ite (k a b : String) (rest : List (String × String)) :
    List.lookup k ((a, b) :: rest) = if k = a then some b else List.lookup k rest := by
  by_cases hk : k = a
  · subst hk
    simp
  · have hb : (k == a) = false := by simpa using hk
    simp [List.lookup_cons, hb, hk]

theorem JsObject.get_define (obj : JsObject) (name value k : String) :
    (JsObject.define obj name value).get k = if k = name then some value else obj.get k := by
  induction obj with
  | nil => simp [JsObject.define, JsObject.get, lookup_cons_ite]
  | cons p rest ih =>
    obtain ⟨a, b⟩ := p
    unfold JsObject.get at ih
    by_cases ha : a = name
    · subst ha
      by_cases hk : k = a <;> simp [JsObject.define, JsObject.get, lookup_cons_ite, hk]
    · by_cases hka : k = a
      · have hk : ¬ k = name := fun h => ha (hka ▸ h)
        simp [JsObject.define, JsObject.get, lookup_cons_ite, ha, hk, hka]
      · simp [JsObject.define, JsObject.get, lookup_cons_ite, ha, hka, ih]

theorem JsObject.get_set (obj : JsObject) (name value k : String) :
    (JsObject.set obj name value).get k =
      if name = "__proto__" then obj.get k
      else if k = name then some value else obj.get k := by
  unfold JsObject.set
  by_cases hp : name = "__proto__"
  · simp [hp]
  · simp only [hp, if_false]
    exact JsObject.get_define obj name value k

theorem foldl_set_get (attributes : List (String × String)) (acc : JsObject) (k : String) :
    (attributes.foldl (fun acc attr => JsObject.set acc attr.1 attr.2) acc).get k =
      if k = "__proto__" then acc.get k
      else (attributes.reverse.lookup k).or (acc.get k) := by
  induction attributes generalizing acc with
  | nil => simp
  | cons x xs ih =>
    obtain ⟨a, b⟩ := x
    simp only [List.foldl_cons, List.reverse_cons]
    rw [ih, JsObject.get_set, List.lookup_append, lookup_cons_ite]
    by_cases hp : k = "__proto__"
    · by_cases ha : a = "__proto__"
      · simp [hp, ha]
      · have hka : ¬ "__proto__" = a := fun h => ha h.symm
        simp [hp, ha, hka]
    · by_cases ha : a = "__proto__"
      · have hka : ¬ k = a := fun h => hp (h.trans ha)
        cases h : List.lookup k xs.reverse <;> simp [hp, ha, hka]
      · by_cases hk : k = a
        · cases h : List.lookup k xs.reverse <;> simp [hp, ha, hk]
        · cases h : List.lookup k xs.reverse <;> simp [hp, ha, hk]

/-- Reading the attribute object by name gives the value of the attribute of that name
(of the last one, should a name occur twice), except for the name `__proto__`, under which
the object holds nothing. -/
theorem attributesToObject_get (attributes : List (String × String)) (k : String) :
    (attributesToObject attributes).get k =
      if k = "__proto__" then none else attributes.reverse.lookup k := by
  unfold attributesToObject
  rw [foldl_set_get]
  by_cases hp : k = "__proto__" <;> simp [JsObject.get, hp]

/-! ## Trimming -/

theorem head_dropWhile_not (p : Char → Bool) (l : List Char) (c : Char)
    (h : (l.dropWhile p).head? = some c) : p c = false := by
  induction l with
  | nil => simp at h
  | cons x xs ih =>
    by_cases hx : p x = true
    · rw [List.dropWhile_cons_of_pos hx] at h
      exact ih h
    · rw [List.dropWhile_cons_of_neg hx] at h
      simp only [List.head?_cons, Option.some.injEq] at h
      subst h
      simpa using hx

theorem isJsWhiteSpace_iff (c : Char) :
    isJsWhiteSpace c = true ↔ c.toNat ∈ whiteSpaceCodePoints := by
  unfold isJsWhiteSpace whiteSpaceCodePoints
  simp only [Bool.or_eq_true, Bool.and_eq_true, decide_eq_true_eq, List.mem_cons,
    List.mem_singleton, List.not_mem_nil, or_false]
  omega

theorem isJsWhiteSpace_false_iff (c : Char) :
    isJsWhiteSpace c = false ↔ c.toNat ∉ whiteSpaceCodePoints := by
  rw [← isJsWhiteSpace_iff]
  simp

/-- The method `trim` removes a run of white space at each end and leaves a text that neither
starts nor ends with white space. -/
theorem jsTrim_trimOf (s : String) : TrimOf s (jsTrim s) := by
  refine ⟨s.toList.takeWhile isJsWhiteSpace,
    ((s.toList.dropWhile isJsWhiteSpace).reverse.takeWhile isJsWhiteSpace).reverse, ?_, ?_, ?_,
    ?_, ?_⟩
  · have h1 := List.takeWhile_append_dropWhile isJsWhiteSpace s.toList
    have h2 := List.takeWhile_append_dropWhile isJsWhiteSpace
      (s.toList.dropWhile isJsWhiteSpace).reverse
    have h3 : s.toList.dropWhile isJsWhiteSpace =
        ((s.toList.dropWhile isJsWhiteSpace).reverse.dropWhile isJsWhiteSpace).reverse ++
          ((s.toList.dropWhile isJsWhiteSpace).reverse.takeWhile isJsWhiteSpace).reverse := by
      rw [← List.reverse_append, h2, List.reverse_reverse]
    show s.toList = _ ++ (jsTrim s).data ++ _
    unfold jsTrim
    rw [List.append_assoc, ← h3, h1]
  · intro c hc
    exact (isJsWhiteSpace_iff c).1 (List.mem_takeWhile_imp hc)
  · intro c hc
    exact (isJsWhiteSpace_iff c).1 (List.mem_takeWhile_imp (List.mem_reverse.1 hc))
  · intro c hc
    have hc2 : (((s.toList.dropWhile isJsWhiteSpace).reverse.dropWhile
        isJsWhiteSpace).reverse).head? = some c := hc
    have hd : (s.toList.dropWhile isJsWhiteSpace).head? = some c := by
      have h2 := List.takeWhile_append_dropWhile isJsWhiteSpace
        (s.toList.dropWhile isJsWhiteSpace).reverse
      have h3 : s.toList.dropWhile isJsWhiteSpace =
          ((s.toList.dropWhile isJsWhiteSpace).reverse.dropWhile isJsWhiteSpace).reverse ++
            ((s.toList.dropWhile isJsWhiteSpace).reverse.takeWhile isJsWhiteSpace).reverse := by
        rw [← List.reverse_append, h2, List.reverse_reverse]
      rw [h3, List.head?_append, hc2]
      rfl
    exact (isJsWhiteSpace_false_iff c).1 (head_dropWhile_not _ _ _ hd)
  · intro c hc
    have hc2 : (((s.toList.dropWhile isJsWhiteSpace).reverse.dropWhile
        isJsWhiteSpace).reverse).getLast? = some c := hc
    rw [List.getLast?_reverse] at hc2
    exact (isJsWhiteSpace_false_iff c).1 (head_dropWhile_not _ _ _ hc2)

/-! ## Claims about the two extraction paths -/

/-- C3: when the response obtained by `scrapeWithCheerio` has a status outside the 2xx range,
the result is the failure value whose error is `HTTP <status>: <statusText>`, with `content`
null; the log holds the call and the single fetch only, so the response body is never read,
parsed or queried and no element record is produced. -/
theorem scrapeWithCheerio_non2xx_is_failure (env : Env) (url selector : JsValue)
    (response : HttpResponse)
    (hfetch : env.fetch url [("User-Agent", userAgent)] = .ok response)
    (hstatus : response.status < 200 ∨ 299 < response.status) :
    ((ScrapingService.scrapeWithCheerio env url selector).run).2 =
        .ok ⟨false, none, none,
          some ("HTTP " ++ toString response.status ++ ": " ++ response.statusText)⟩ ∧
      ((ScrapingService.scrapeWithCheerio env url selector).run).1.log =
        [Event.invoke "scrapeWithCheerio" [url, selector],
         Event.fetch url [("User-Agent", userAgent)]] := by
  have hok : response.ok = false := by
    unfold HttpResponse.ok
    rcases hstatus with h | h <;> simp <;> omega
  constructor <;>
    simp [ScrapingService.scrapeWithCheerio, Js.run, Js.tryCatch, Js.call, Js.throw,
      Js.bind_apply, Js.pure_apply, catchAsFailure, ScrapeResult.failure, St.init, hfetch, hok]

/-- Witness for C3: the example environment answers `http://example.test/gone` with 404. -/
theorem scrapeWithCheerio_non2xx_is_failure_witness :
    exampleEnv.fetch (.string "http://example.test/gone") [("User-Agent", userAgent)] =
        .ok ⟨404, "Not Found", .ok ""⟩ ∧
      ((404 : Nat) < 200 ∨ 299 < (404 : Nat)) ∧
      ((ScrapingService.scrapeWithCheerio exampleEnv (.string "http://example.test/gone")
          (.string "h1")).run).2 = .ok ⟨false, none, none, some "HTTP 404: Not Found"⟩ ∧
      ((ScrapingService.scrapeWithCheerio exampleEnv (.string "http://example.test/gone")
          (.string "h1")).run).1.log =
        [Event.invoke "scrapeWithCheerio" [.string "http://example.test/gone", .string "h1"],
         Event.fetch (.string "http://example.test/gone") [("User-Agent", userAgent)]] :=
  ⟨rfl, Or.inr (by decide),
    scrapeWithCheerio_non2xx_is_failure exampleEnv (.string "http://example.test/gone")
      (.string "h1") ⟨404, "Not Found", .ok ""⟩ rfl (Or.inr (by decide))⟩

theorem example_static_h1 :
    StaticPageMatches exampleEnv (.string "http://example.test/page") (.string "h1")
      [helloElement] :=
  ⟨⟨200, "OK", .ok "<h1>Hello</h1>"⟩, "<h1>Hello</h1>", exampleDollar,
    rfl, by decide, by decide, rfl, rfl, rfl⟩

theorem example_static_missing :
    StaticPageMatches exampleEnv (.string "http://example.test/page") (.string ".missing") [] :=
  ⟨⟨200, "OK", .ok "<h1>Hello</h1>"⟩, "<h1>Hello</h1>", exampleDollar,
    rfl, by decide, by decide, rfl, rfl, rfl⟩

theorem example_rendered_h1 :
    RenderedPageMatches exampleEnv (.string "http://example.test/page") (.string "h1")
      (.string "css") [helloNode] :=
  ⟨exampleBrowser, examplePage, rfl, rfl, rfl, rfl, rfl, rfl, rfl, rfl⟩

theorem example_rendered_missing_css :
    RenderedPageMatches exampleEnv (.string "http://example.test/page") (.string ".missing")
      (.string "css") [] :=
  ⟨exampleBrowser, examplePage, rfl, rfl, rfl, rfl, rfl, rfl, rfl, rfl⟩

theorem example_rendered_missing_xpath :
    RenderedPageMatches exampleEnv (.string "http://example.test/page") (.string "//p")
      (.string "xpath") [] :=
  ⟨exampleBrowser, examplePage, rfl, rfl, rfl, rfl, rfl, rfl, rfl, rfl⟩

/-- C4: on a page that was fetched (static path) or rendered (rendering path, for a CSS and
for an XPath selector alike) and on which the selector matches no node, both methods return
exactly the failure value with `content` null and the error
`No elements found with the provided selector`. -/
theorem zero_matches_is_failure (env : Env) (url selector selectorType : JsValue) :
    (StaticPageMatches env url selector [] →
      ((ScrapingService.scrapeWithCheerio env url selector).run).2 =
        .ok ⟨false, none, none, some "No elements found with the provided selector"⟩) ∧
    (RenderedPageMatches env url selector selectorType [] →
      ((ScrapingService.scrapeWithPuppeteer env url selector selectorType).run).2 =
        .ok ⟨false, none, none, some "No elements found with the provided selector"⟩) := by
  constructor
  · intro h
    obtain ⟨_, _, hres⟩ := scrapeWithCheerio_of_matches env url selector [] h
    simpa [ScrapeResult.failure, noElementsMessage] using hres
  · intro h
    have hres := (scrapeWithPuppeteer_of_matches env url selector selectorType [] h).2
    simpa [ScrapeResult.failure, noElementsMessage] using hres

/-- Witness for C4: the selector `.missing` on the page whose body is `<h1>Hello</h1>`, on
the static path and on the rendering path, and an XPath selector without a match. -/
theorem zero_matches_is_failure_witness :
    StaticPageMatches exampleEnv (.string "http://example.test/page") (.string ".missing") [] ∧
    RenderedPageMatches exampleEnv (.string "http://example.test/page") (.string ".missing")
      (.string "css") [] ∧
    RenderedPageMatches exampleEnv (.string "http://example.test/page") (.string "//p")
      (.string "xpath") [] ∧
    ((ScrapingService.scrapeWithCheerio exampleEnv (.string "http://example.test/page")
        (.string ".missing")).run).2 =
      .ok ⟨false, none, none, some "No elements found with the provided selector"⟩ ∧
    ((ScrapingService.scrapeWithPuppeteer exampleEnv (.string "http://example.test/page")
        (.string ".missing") (.string "css")).run).2 =
      .ok ⟨false, none, none, some "No elements found with the provided selector"⟩ ∧
    ((ScrapingService.scrapeWithPuppeteer exampleEnv (.string "http://example.test/page")
        (.string "//p") (.string "xpath")).run).2 =
      .ok ⟨false, none, none, some "No elements found with the provided selector"⟩ :=
  ⟨example_static_missing, example_rendered_missing_css, example_rendered_missing_xpath,
    (zero_matches_is_failure exampleEnv _ _ (.string "css")).1 example_static_missing,
    (zero_matches_is_failure exampleEnv _ _ (.string "css")).2 example_rendered_missing_css,
    (zero_matches_is_failure exampleEnv _ _ (.string "xpath")).2 example_rendered_missing_xpath⟩

theorem scrapeWithPuppeteer_of_rendered (env : Env) (url selector selectorType : JsValue)
    (nodes : List DomNode) (closing : Except JsError Unit)
    (h : RenderedThenClosed env url selector selectorType nodes closing) :
    ((ScrapingService.scrapeWithPuppeteer env url selector selectorType).run).2 =
      (match closing with
       | .ok _ =>
         .ok (if nodes.length = 0 then ScrapeResult.failure noElementsMessage
              else ScrapeResult.ok (nodes.map domRecord))
       | .error e => .error e) := by
  obtain ⟨browser, page, hlaunch, hpage, hua, hvp, hgoto, hwait, hquery, hclose⟩ := h
  by_cases hx : (selectorType.withDefault (.string "css")).strictEqString "xpath" = true
  · rw [if_pos hx] at hquery
    rcases closing with e | u <;> by_cases hlen : nodes = [] <;>
      simp [ScrapingService.scrapeWithPuppeteer, Js.run, Js.tryCatchFinally, Js.tryCatch, Js.call,
        Js.bind_apply, Js.pure_apply, Js.setBrowser, Js.getBrowser, St.init, puppeteerLaunchPage,
        puppeteerTryBlock,
        puppeteerNavigate, puppeteerSettle, puppeteerExtract, puppeteerEvaluate, puppeteerFinally,
        catchAsFailure,
        pageFunctionXPath, pageFunctionCss, Except.map, bind, Except.bind, pure, Except.pure,
        domEach_eq_map, hlaunch, hpage, hua, hvp, hgoto, hwait, hquery, hclose, hx, hlen]
  · rw [if_neg hx] at hquery
    rcases closing with e | u <;> by_cases hlen : nodes = [] <;>
      simp [ScrapingService.scrapeWithPuppeteer, Js.run, Js.tryCatchFinally, Js.tryCatch, Js.call,
        Js.bind_apply, Js.pure_apply, Js.setBrowser, Js.getBrowser, St.init, puppeteerLaunchPage,
        puppeteerTryBlock,
        puppeteerNavigate, puppeteerSettle, puppeteerExtract, puppeteerEvaluate, puppeteerFinally,
        catchAsFailure,
        pageFunctionXPath, pageFunctionCss, Except.map, bind, Except.bind, pure, Except.pure,
        domEach_eq_map, hlaunch, hpage, hua, hvp, hgoto, hwait, hquery, hclose, hx, hlen]

theorem domRecord_text (node : DomNode) :
    (domRecord node).text = jsTrim (node.textContent.getD "") := by
  cases htc : node.textContent with
  | none => simp [domRecord, htc, orString, jsTrim_empty]
  | some tc => simp [domRecord, htc, orString_some_jsTrim]

theorem example_static_padded :
    StaticPageMatches paddedEnv (.string "http://example.test/padded") (.string "h1")
      [paddedElement] :=
  ⟨⟨200, "OK", .ok "<h1 class=title>\n  <b>Hello</b> world \t</h1>"⟩,
    "<h1 class=title>\n  <b>Hello</b> world \t</h1>", paddedDollar,
    rfl, by decide, by decide, rfl, rfl, rfl⟩

theorem example_rendered_proto :
    RenderedThenClosed protoEnv (.string "http://example.test/page") (.string "div")
      (.string "css") [protoNode] (.ok ()) :=
  ⟨⟨.ok protoPage, .ok ()⟩, protoPage, rfl, rfl, rfl, rfl, rfl, rfl, rfl, rfl⟩

/-- C5: on a page fetched with a 2xx status that holds exactly one element matching the
selector, `scrapeWithCheerio` returns success with `count` 1 and a single record whose `text`
is the text content of that element without its leading and trailing white space. -/
theorem single_match_gives_trimmed_text (env : Env) (url selector : JsValue)
    (element : CheerioElement) (h : StaticPageMatches env url selector [element]) :
    ∃ record : ElementRecord,
      ((ScrapingService.scrapeWithCheerio env url selector).run).2 =
        .ok ⟨true, some [record], some 1, none⟩ ∧
      TrimOf element.text record.text := by
  obtain ⟨_, _, hres⟩ := scrapeWithCheerio_of_matches env url selector [element] h
  exact ⟨cheerioRecord element, by simpa [ScrapeResult.ok] using hres, jsTrim_trimOf _⟩

/-- Witness for C5: a heading whose text is `Hello world` between a line break, blanks and a
tab yields one record with text `Hello world`; the end-to-end scenario of the specification,
selector `h1` on the page whose body is `<h1>Hello</h1>`, yields one record with text `Hello`
and count 1. -/
theorem single_match_gives_trimmed_text_witness :
    StaticPageMatches paddedEnv (.string "http://example.test/padded") (.string "h1")
      [paddedElement] ∧
    (∃ record : ElementRecord,
      ((ScrapingService.scrapeWithCheerio paddedEnv (.string "http://example.test/padded")
          (.string "h1")).run).2 = .ok ⟨true, some [record], some 1, none⟩ ∧
      TrimOf "\n  Hello world \t" record.text) ∧
    ((ScrapingService.scrapeWithCheerio paddedEnv (.string "http://example.test/padded")
        (.string "h1")).run).2 =
      .ok ⟨true, some [⟨"Hello world", some "<b>Hello</b> world", none, [("class", "title")]⟩],
        some 1, none⟩ ∧
    ((ScrapingService.scrapeWithCheerio exampleEnv (.string "http://example.test/page")
        (.string "h1")).run).2 =
      .ok ⟨true, some [⟨"Hello", some "Hello", none, []⟩], some 1, none⟩ :=
  ⟨example_static_padded,
    single_match_gives_trimmed_text paddedEnv _ _ paddedElement example_static_padded,
    by rfl, by rfl⟩

/-- C6: when the selector matches `n ≥ 1` nodes, the static path returns success with exactly
`n` records in match order and `count = n`; the record of the i-th element carries its text
without leading and trailing white space, its inner HTML and its attribute map, and no
`tagName`. The rendering path does the same when `browser.close()` returns, its records
carrying the tag name too, with two exceptions: an attribute named `__proto__` is missing
from the record, every other attribute being there under its name; and when
`browser.close()` throws there is no result, the call rejects with that error. A property
the node lacks counts as the empty string or the empty map. -/
theorem records_follow_matched_nodes (env : Env) (url selector selectorType : JsValue) :
    (∀ elements : List CheerioElement, 1 ≤ elements.length →
      StaticPageMatches env url selector elements →
      ∃ records : List ElementRecord,
        ((ScrapingService.scrapeWithCheerio env url selector).run).2 =
          .ok ⟨true, some records, some elements.length, none⟩ ∧
        records.length = elements.length ∧
        ∀ (i : Nat) (hi : i < elements.length) (hr : i < records.length),
          TrimOf elements[i].text records[i].text ∧
          records[i].html = elements[i].html ∧
          records[i].attributes = elements[i].attribs.getD [] ∧
          records[i].tagName = none) ∧
    (∀ (nodes : List DomNode) (closing : Except JsError Unit), 1 ≤ nodes.length →
      RenderedThenClosed env url selector selectorType nodes closing →
      ∃ records : List ElementRecord,
        ((ScrapingService.scrapeWithPuppeteer env url selector selectorType).run).2 =
          (match closing with
           | .ok _ => .ok ⟨true, some records, some nodes.length, none⟩
           | .error e => .error e) ∧
        records.length = nodes.length ∧
        ∀ (i : Nat) (hi : i < nodes.length) (hr : i < records.length),
          TrimOf (nodes[i].textContent.getD "") records[i].text ∧
          records[i].html = some (nodes[i].innerHTML.getD "") ∧
          records[i].tagName = some (nodes[i].tagName.getD "") ∧
          (∀ name : String, name ≠ "__proto__" →
            records[i].attributes.get name =
              (nodes[i].attributes.getD []).reverse.lookup name) ∧
          records[i].attributes.get "__proto__" = none) := by
  constructor
  · intro elements hn h
    obtain ⟨_, _, hres⟩ := scrapeWithCheerio_of_matches env url selector elements h
    have hne : ¬ elements.length = 0 := by omega
    rw [if_neg hne] at hres
    refine ⟨elements.map cheerioRecord, by simpa [ScrapeResult.ok] using hres, by simp, ?_⟩
    intro i hi hr
    simp only [List.getElem_map]
    exact ⟨jsTrim_trimOf _, rfl, rfl, rfl⟩
  · intro nodes closing hn h
    have hres := scrapeWithPuppeteer_of_rendered env url selector selectorType nodes closing h
    have hne : ¬ nodes.length = 0 := by omega
    rw [if_neg hne] at hres
    refine ⟨nodes.map domRecord, ?_, by simp, ?_⟩
    · rw [hres]
      cases closing <;> simp [ScrapeResult.ok]
    intro i hi hr
    simp only [List.getElem_map]
    refine ⟨?_, ?_, ?_, ?_, ?_⟩
    · rw [domRecord_text]
      exact jsTrim_trimOf _
    · simp [domRecord, orString_getD]
    · simp [domRecord, orString_getD]
    · intro name hname
      simp [domRecord, attributesToObject_get, hname]
    · simp [domRecord, attributesToObject_get]

/-- Witness for C6: the padded heading on the static path; on the rendering path a `div` with
the attributes `id` and `__proto__`, whose record has lost the second. -/
theorem records_follow_matched_nodes_witness :
    (∃ records : List ElementRecord,
      ((ScrapingService.scrapeWithCheerio paddedEnv (.string "http://example.test/padded")
          (.string "h1")).run).2 = .ok ⟨true, some records, some 1, none⟩ ∧
      records.length = 1) ∧
    (∃ records : List ElementRecord,
      ((ScrapingService.scrapeWithPuppeteer protoEnv (.string "http://example.test/page")
          (.string "div") (.string "css")).run).2 = .ok ⟨true, some records, some 1, none⟩ ∧
      records.length = 1) ∧
    ((ScrapingService.scrapeWithPuppeteer protoEnv (.string "http://example.test/page")
        (.string "div") (.string "css")).run).2 =
      .ok ⟨true, some [⟨"Hi", some "Hi", some "DIV", [("id", "a")]⟩], some 1, none⟩ := by
  obtain ⟨r1, h1, l1, -⟩ := (records_follow_matched_nodes paddedEnv _ _ (.string "css")).1
    [paddedElement] (by decide) example_static_padded
  obtain ⟨r2, h2, l2, -⟩ := (records_follow_matched_nodes protoEnv _ _ (.string "css")).2
    [protoNode] (.ok ()) (by decide) example_rendered_proto
  exact ⟨⟨r1, h1, l1⟩, ⟨r2, h2, l2⟩, by rfl⟩

/-! ## What a computation may append to the log -/

theorem Js.emits_pure {α : Type} (P : Event → Prop) (a : α) : Js.Emits P (Pure.pure a : Js α) :=
  fun s => ⟨[], by simp [Js.pure_apply], by simp⟩

theorem Js.emits_throw {α : Type} (P : Event → Prop) (e : JsError) :
    Js.Emits P (Js.throw e : Js α) :=
  fun s => ⟨[], by simp [Js.throw], by simp⟩

theorem Js.emits_call {α : Type} (P : Event → Prop) (ev : Event) (r : Except JsError α)
    (h : P ev) : Js.Emits P (Js.call ev r) :=
  fun s => ⟨[ev], by simp [Js.call], by simpa using h⟩

theorem Js.emits_setBrowser (P : Event → Prop) (b : Option Browser) :
    Js.Emits P (Js.setBrowser b) :=
  fun s => ⟨[], by simp [Js.setBrowser], by simp⟩

theorem Js.emits_getBrowser (P : Event → Prop) : Js.Emits P Js.getBrowser :=
  fun s => ⟨[], by simp [Js.getBrowser], by simp⟩

theorem Js.emits_bind {α β : Type} {P : Event → Prop} {m : Js α} {f : α → Js β}
    (hm : Js.Emits P m) (hf : ∀ a, Js.Emits P (f a)) : Js.Emits P (m >>= f) := by
  intro s
  obtain ⟨t1, h1, p1⟩ := hm s
  rw [Js.bind_apply]
  rcases hms : m s with ⟨s1, r⟩
  rw [hms] at h1
  cases r with
  | error e => exact ⟨t1, h1, p1⟩
  | ok a =>
    obtain ⟨t2, h2, p2⟩ := hf a s1
    have h1a : s1.log = s.log ++ t1 := h1
    refine ⟨t1 ++ t2, ?_, ?_⟩
    · rw [h2, h1a, List.append_assoc]
    · intro e he
      rcases List.mem_append.1 he with h | h
      · exact p1 e h
      · exact p2 e h

theorem Js.emits_tryCatch {α : Type} {P : Event → Prop} {body : Js α} {handler : JsError → Js α}
    (hb : Js.Emits P body) (hh : ∀ e, Js.Emits P (handler e)) :
    Js.Emits P (Js.tryCatch body handler) := by
  intro s
  obtain ⟨t1, h1, p1⟩ := hb s
  unfold Js.tryCatch
  rcases hbs : body s with ⟨s1, r⟩
  rw [hbs] at h1
  cases r with
  | ok a => exact ⟨t1, h1, p1⟩
  | error e =>
    obtain ⟨t2, h2, p2⟩ := hh e s1
    have h1a : s1.log = s.log ++ t1 := h1
    refine ⟨t1 ++ t2, ?_, ?_⟩
    · rw [h2, h1a, List.append_assoc]
    · intro ev he
      rcases List.mem_append.1 he with h | h
      · exact p1 ev h
      · exact p2 ev h

theorem Js.emits_tryCatchFinally {α : Type} {P : Event → Prop} {body : Js α}
    {handler : JsError → Js α} {fin : Js Unit}
    (hb : Js.Emits P body) (hh : ∀ e, Js.Emits P (handler e)) (hf : Js.Emits P fin) :
    Js.Emits P (Js.tryCatchFinally body handler fin) := by
  intro s
  obtain ⟨t1, h1, p1⟩ := Js.emits_tryCatch hb hh s
  unfold Js.tryCatchFinally
  rcases hbs : Js.tryCatch body handler s with ⟨s1, r⟩
  rw [hbs] at h1
  obtain ⟨t2, h2, p2⟩ := hf s1
  have hmem : ∀ ev ∈ t1 ++ t2, P ev := by
    intro ev he
    rcases List.mem_append.1 he with h | h
    · exact p1 ev h
    · exact p2 ev h
  have h1a : s1.log = s.log ++ t1 := h1
  rcases hfs : fin s1 with ⟨s2, r2⟩
  rw [hfs] at h2
  have h2a : s2.log = s1.log ++ t2 := h2
  cases r2 with
  | ok u => exact ⟨t1 ++ t2, by simp only [hfs]; rw [h2a, h1a, List.append_assoc], hmem⟩
  | error e => exact ⟨t1 ++ t2, by simp only [hfs]; rw [h2a, h1a, List.append_assoc], hmem⟩

/-- After its entry event, the static path appends extraction events only. -/
theorem scrapeWithCheerio_log (env : Env) (url selector : JsValue) (s : St) :
    ∃ t : List Event,
      (ScrapingService.scrapeWithCheerio env url selector s).1.log =
        s.log ++ Event.invoke "scrapeWithCheerio" [url, selector] :: t ∧
      ∀ e ∈ t, e.isExtraction = true := by
  have hbody : Js.Emits (fun e => e.isExtraction = true)
      (Js.tryCatch
        (do
          let response ← Js.call (Event.fetch url [("User-Agent", userAgent)])
            (env.fetch url [("User-Agent", userAgent)])
          if !response.ok then
            Js.throw { message := "HTTP " ++ toString response.status ++ ": " ++ response.statusText }
          else do
            let html ← Js.call Event.responseText response.text
            let dollar ← Js.call (Event.cheerioLoad html) (env.cheerioLoad html)
            let elements ← Js.call (Event.cheerioSelect selector) (dollar.select selector)
            if elements.length = 0 then
              pure (ScrapeResult.failure noElementsMessage)
            else
              pure (ScrapeResult.ok (cheerioEach elements)))
        catchAsFailure) := by
    refine Js.emits_tryCatch (Js.emits_bind (Js.emits_call _ _ _ rfl) (fun response => ?_))
      (fun e => Js.emits_pure _ _)
    split
    · exact Js.emits_throw _ _
    · refine Js.emits_bind (Js.emits_call _ _ _ rfl) (fun html => ?_)
      refine Js.emits_bind (Js.emits_call _ _ _ rfl) (fun dollar => ?_)
      refine Js.emits_bind (Js.emits_call _ _ _ rfl) (fun elements => ?_)
      split <;> exact Js.emits_pure _ _
  obtain ⟨t, ht, hp⟩ := hbody { s with log := s.log ++ [Event.invoke "scrapeWithCheerio" [url, selector]] }
  refine ⟨t, ?_, hp⟩
  simp only [List.append_assoc, List.singleton_append] at ht
  exact ht

/-! ## Independence from the log already written -/

theorem Js.framed_pure {α : Type} (a : α) : Js.Framed (Pure.pure a : Js α) := by
  intro s
  simp [Js.pure_apply]

theorem Js.framed_throw {α : Type} (e : JsError) : Js.Framed (Js.throw e : Js α) := by
  intro s
  simp [Js.throw]

theorem Js.framed_call {α : Type} (ev : Event) (r : Except JsError α) :
    Js.Framed (Js.call ev r) := by
  intro s
  simp [Js.call]

theorem Js.framed_setBrowser (b : Option Browser) : Js.Framed (Js.setBrowser b) := by
  intro s
  simp [Js.setBrowser]

theorem Js.framed_getBrowser : Js.Framed Js.getBrowser := by
  intro s
  simp [Js.getBrowser]

theorem Js.framed_bind {α β : Type} {m : Js α} {f : α → Js β}
    (hm : Js.Framed m) (hf : ∀ a, Js.Framed (f a)) : Js.Framed (m >>= f) := by
  intro s
  simp only [Js.bind_apply]
  rw [hm s]
  rcases h0 : m ⟨[], s.browser⟩ with ⟨⟨l1, b1⟩, r1⟩
  cases r1 with
  | error e => rfl
  | ok a =>
    simp only
    rw [hf a ⟨s.log ++ l1, b1⟩, hf a ⟨l1, b1⟩]
    simp only [List.append_assoc]

theorem Js.framed_tryCatch {α : Type} {body : Js α} {handler : JsError → Js α}
    (hb : Js.Framed body) (hh : ∀ e, Js.Framed (handler e)) :
    Js.Framed (Js.tryCatch body handler) := by
  intro s
  simp only [Js.tryCatch]
  rw [hb s]
  rcases h0 : body ⟨[], s.browser⟩ with ⟨⟨l1, b1⟩, r1⟩
  cases r1 with
  | ok a => rfl
  | error e =>
    simp only
    rw [hh e ⟨s.log ++ l1, b1⟩, hh e ⟨l1, b1⟩]
    simp only [List.append_assoc]

theorem Js.framed_tryCatchFinally {α : Type} {body : Js α} {handler : JsError → Js α}
    {fin : Js Unit} (hb : Js.Framed body) (hh : ∀ e, Js.Framed (handler e))
    (hf : Js.Framed fin) : Js.Framed (Js.tryCatchFinally body handler fin) := by
  intro s
  simp only [Js.tryCatchFinally]
  rw [Js.framed_tryCatch hb hh s]
  rcases h0 : Js.tryCatch body handler ⟨[], s.browser⟩ with ⟨⟨l1, b1⟩, r1⟩
  simp only
  rw [hf ⟨s.log ++ l1, b1⟩, hf ⟨l1, b1⟩]
  rcases h1 : fin ⟨[], b1⟩ with ⟨⟨l2, b2⟩, r2⟩
  cases r2 <;> simp only [List.append_assoc]

/-- From a state without a browser, a framed computation behaves as from the initial state,
behind the log already written. -/
theorem Js.framed_from_run {α : Type} {m : Js α} (hm : Js.Framed m) (s : St)
    (hs : s.browser = none) :
    (m s).1.log = s.log ++ (m.run).1.log ∧ (m s).1.browser = (m.run).1.browser ∧
      (m s).2 = (m.run).2 := by
  rw [hm s, hs]
  exact ⟨rfl, rfl, rfl⟩

theorem scrapeWithCheerio_framed (env : Env) (url selector : JsValue) :
    Js.Framed (ScrapingService.scrapeWithCheerio env url selector) := by
  unfold ScrapingService.scrapeWithCheerio
  refine Js.framed_bind (Js.framed_call _ _) (fun _ => ?_)
  refine Js.framed_tryCatch (Js.framed_bind (Js.framed_call _ _) (fun response => ?_))
    (fun e => Js.framed_pure _)
  split
  · exact Js.framed_throw _
  · refine Js.framed_bind (Js.framed_call _ _) (fun html => ?_)
    refine Js.framed_bind (Js.framed_call _ _) (fun dollar => ?_)
    refine Js.framed_bind (Js.framed_call _ _) (fun elements => ?_)
    split <;> exact Js.framed_pure _

theorem puppeteerLaunchPage_framed (env : Env) : Js.Framed (puppeteerLaunchPage env) := by
  unfold puppeteerLaunchPage
  refine Js.framed_bind (Js.framed_call _ _) (fun browser => ?_)
  refine Js.framed_bind (Js.framed_setBrowser _) (fun _ => ?_)
  refine Js.framed_bind (Js.framed_call _ _) (fun page => ?_)
  refine Js.framed_bind (Js.framed_call _ _) (fun _ => ?_)
  exact Js.framed_bind (Js.framed_call _ _) (fun _ => Js.framed_pure _)

theorem puppeteerExtract_framed (page : Page) (selector selectorType : JsValue) :
    Js.Framed (puppeteerExtract page selector selectorType) := by
  unfold puppeteerExtract
  refine Js.framed_bind ?_ (fun results => ?_)
  · unfold puppeteerEvaluate
    split <;> exact Js.framed_call _ _
  · cases results with
    | none => exact Js.framed_pure _
    | some rs =>
      simp only
      split <;> exact Js.framed_pure _

theorem puppeteerFinally_framed : Js.Framed puppeteerFinally := by
  unfold puppeteerFinally
  refine Js.framed_bind Js.framed_getBrowser (fun b => ?_)
  cases b with
  | none => exact Js.framed_pure _
  | some browser => exact Js.framed_call _ _

theorem scrapeWithPuppeteer_framed (env : Env) (url selector selectorType : JsValue) :
    Js.Framed (ScrapingService.scrapeWithPuppeteer env url selector selectorType) := by
  unfold ScrapingService.scrapeWithPuppeteer
  refine Js.framed_bind (Js.framed_call _ _) (fun _ => ?_)
  refine Js.framed_bind (Js.framed_setBrowser _) (fun _ => ?_)
  refine Js.framed_tryCatchFinally ?_ (fun e => Js.framed_pure _) puppeteerFinally_framed
  unfold puppeteerTryBlock
  refine Js.framed_bind (puppeteerLaunchPage_framed env) (fun page => ?_)
  refine Js.framed_bind (Js.framed_call _ _) (fun _ => ?_)
  exact Js.framed_bind (Js.framed_call _ _) (fun _ => puppeteerExtract_framed _ _ _)

theorem extract_framed (env : Env) (url selector selectorType usePuppeteer : JsValue) :
    Js.Framed (extract env url selector selectorType usePuppeteer) := by
  unfold extract
  split
  · exact scrapeWithPuppeteer_framed _ _ _ _
  · exact scrapeWithCheerio_framed _ _ _

/-! ## Entry events and extraction events -/

theorem puppeteerFinally_emits : Js.Emits (fun e => e.isExtraction = true) puppeteerFinally := by
  unfold puppeteerFinally
  refine Js.emits_bind (Js.emits_getBrowser _) (fun b => ?_)
  cases b with
  | none => exact Js.emits_pure _ _
  | some browser => exact Js.emits_call _ _ _ rfl

theorem puppeteerTryBlock_emits (env : Env) (url selector selectorType : JsValue) :
    Js.Emits (fun e => e.isBrowserStep = true)
      (puppeteerTryBlock env url selector selectorType) := by
  unfold puppeteerTryBlock puppeteerLaunchPage puppeteerNavigate puppeteerSettle puppeteerExtract
  refine Js.emits_bind ?_ (fun page => ?_)
  · refine Js.emits_bind (Js.emits_call _ _ _ rfl) (fun browser => ?_)
    refine Js.emits_bind (Js.emits_setBrowser _ _) (fun _ => ?_)
    refine Js.emits_bind (Js.emits_call _ _ _ rfl) (fun page => ?_)
    refine Js.emits_bind (Js.emits_call _ _ _ rfl) (fun _ => ?_)
    exact Js.emits_bind (Js.emits_call _ _ _ rfl) (fun _ => Js.emits_pure _ _)
  · refine Js.emits_bind (Js.emits_call _ _ _ rfl) (fun _ => ?_)
    refine Js.emits_bind (Js.emits_call _ _ _ rfl) (fun _ => ?_)
    refine Js.emits_bind ?_ (fun results => ?_)
    · unfold puppeteerEvaluate
      split <;> exact Js.emits_call _ _ _ rfl
    · cases results with
      | none => exact Js.emits_pure _ _
      | some rs =>
        simp only
        split <;> exact Js.emits_pure _ _

theorem Event.isExtraction_of_isBrowserStep (e : Event) (h : e.isBrowserStep = true) :
    e.isExtraction = true := by
  cases e <;> simp_all [Event.isBrowserStep, Event.isExtraction]

theorem Event.not_isClose_of_isBrowserStep (e : Event) (h : e.isBrowserStep = true) :
    e.isClose = false := by
  cases e <;> simp_all [Event.isBrowserStep, Event.isClose]

/-! ## Returned values and the local `browser` -/

theorem Js.returns_pure {α : Type} {Q : α → Prop} (a : α) (h : Q a) :
    Js.Returns Q (Pure.pure a : Js α) := by
  intro s b hb
  simp only [Js.pure_apply, Except.ok.injEq] at hb
  exact hb ▸ h

theorem Js.returns_throw {α : Type} {Q : α → Prop} (e : JsError) :
    Js.Returns Q (Js.throw e : Js α) := by
  intro s b hb
  simp [Js.throw] at hb

theorem Js.returns_bind {α β : Type} {Q : β → Prop} {m : Js α} {f : α → Js β}
    (hf : ∀ a, Js.Returns Q (f a)) : Js.Returns Q (m >>= f) := by
  intro s b hb
  rw [Js.bind_apply] at hb
  rcases hms : m s with ⟨s1, r⟩
  rw [hms] at hb
  cases r with
  | error e => simp at hb
  | ok a => exact hf a s1 b hb

theorem Js.returns_tryCatch {α : Type} {Q : α → Prop} {body : Js α} {handler : JsError → Js α}
    (hb : Js.Returns Q body) (hh : ∀ e, Js.Returns Q (handler e)) :
    Js.Returns Q (Js.tryCatch body handler) := by
  intro s b hr
  unfold Js.tryCatch at hr
  rcases hbs : body s with ⟨s1, r⟩
  rw [hbs] at hr
  cases r with
  | ok a => exact hb s b (by rw [hbs]; exact hr)
  | error e => exact hh e s1 b hr

theorem ScrapeResult.wellShaped_failure (reason : String) :
    (ScrapeResult.failure reason).WellShaped :=
  Or.inl ⟨reason, rfl⟩

theorem ScrapeResult.wellShaped_ok (records : List ElementRecord) (h : ¬ records.length = 0) :
    (ScrapeResult.ok records).WellShaped :=
  Or.inr ⟨records, fun h0 => h (by simp [h0]), rfl⟩

/-- A `try` block whose `catch` clause is `catchAsFailure` never throws. -/
theorem tryCatch_catchAsFailure_ok (body : Js ScrapeResult) (s : St) :
    ∃ r : ScrapeResult, (Js.tryCatch body catchAsFailure s).2 = .ok r := by
  unfold Js.tryCatch
  rcases body s with ⟨s1, r⟩
  cases r with
  | ok a => exact ⟨a, rfl⟩
  | error e => exact ⟨ScrapeResult.failure e.message, rfl⟩

theorem puppeteerExtract_returns (page : Page) (selector selectorType : JsValue) :
    Js.Returns ScrapeResult.WellShaped (puppeteerExtract page selector selectorType) := by
  unfold puppeteerExtract
  refine Js.returns_bind (fun results => ?_)
  cases results with
  | none => exact Js.returns_pure _ (ScrapeResult.wellShaped_failure _)
  | some rs =>
    simp only
    split
    · exact Js.returns_pure _ (ScrapeResult.wellShaped_failure _)
    · exact Js.returns_pure _ (ScrapeResult.wellShaped_ok _ (by assumption))

theorem puppeteerTryCatch_returns (env : Env) (url selector selectorType : JsValue) :
    Js.Returns ScrapeResult.WellShaped
      (Js.tryCatch (puppeteerTryBlock env url selector selectorType) catchAsFailure) := by
  refine Js.returns_tryCatch ?_ (fun e => Js.returns_pure _ (ScrapeResult.wellShaped_failure _))
  unfold puppeteerTryBlock
  refine Js.returns_bind (fun page => ?_)
  refine Js.returns_bind (fun _ => ?_)
  exact Js.returns_bind (fun _ => puppeteerExtract_returns _ _ _)

theorem Js.keepsBrowser_pure {α : Type} (a : α) : Js.KeepsBrowser (Pure.pure a : Js α) :=
  fun _ => rfl

theorem Js.keepsBrowser_throw {α : Type} (e : JsError) : Js.KeepsBrowser (Js.throw e : Js α) :=
  fun _ => rfl

theorem Js.keepsBrowser_call {α : Type} (ev : Event) (r : Except JsError α) :
    Js.KeepsBrowser (Js.call ev r) :=
  fun _ => rfl

theorem Js.keepsBrowser_bind {α β : Type} {m : Js α} {f : α → Js β}
    (hm : Js.KeepsBrowser m) (hf : ∀ a, Js.KeepsBrowser (f a)) : Js.KeepsBrowser (m >>= f) := by
  intro s
  rw [Js.bind_apply]
  have h1 := hm s
  rcases hms : m s with ⟨s1, r⟩
  rw [hms] at h1
  cases r with
  | error e => exact h1
  | ok a => exact (hf a s1).trans h1

/-- After `m`, a continuation that keeps `browser` and a `catchAsFailure` clause leave
`browser` as `m` left it. -/
theorem tryCatch_bind_browser {α : Type} (m : Js α) (f : α → Js ScrapeResult)
    (hf : ∀ a, Js.KeepsBrowser (f a)) (s : St) :
    (Js.tryCatch (m >>= f) catchAsFailure s).1.browser = (m s).1.browser := by
  unfold Js.tryCatch
  rw [Js.bind_apply]
  rcases hms : m s with ⟨s1, r⟩
  cases r with
  | error e => rfl
  | ok a =>
    have h1 := hf a s1
    simp only
    rcases hfs : f a s1 with ⟨s2, r2⟩
    rw [hfs] at h1
    cases r2 with
    | ok b => exact h1
    | error e => exact h1

theorem puppeteerExtract_keeps (page : Page) (selector selectorType : JsValue) :
    Js.KeepsBrowser (puppeteerExtract page selector selectorType) := by
  unfold puppeteerExtract
  refine Js.keepsBrowser_bind ?_ (fun results => ?_)
  · unfold puppeteerEvaluate
    split <;> exact Js.keepsBrowser_call _ _
  · cases results with
    | none => exact Js.keepsBrowser_pure _
    | some rs =>
      simp only
      split <;> exact Js.keepsBrowser_pure _

/-- The launch sequence leaves `browser` assigned exactly when `puppeteer.launch` succeeded. -/
theorem puppeteerLaunchPage_browser (env : Env) (s : St) :
    (puppeteerLaunchPage env s).1.browser =
      (match env.puppeteerLaunch true launchArgs with
       | .ok browser => some browser
       | .error _ => s.browser) := by
  unfold puppeteerLaunchPage
  rw [Js.bind_apply]
  rcases hl : env.puppeteerLaunch true launchArgs with e | browser
  · simp [Js.call, hl]
  · simp only [Js.call, hl]
    have hrest : Js.KeepsBrowser
        (do
          let page ← Js.call Event.newPage browser.newPage
          Js.call (Event.setUserAgent userAgent) (page.setUserAgent userAgent)
          Js.call (Event.setViewport 1280 720) (page.setViewport 1280 720)
          Pure.pure page : Js Page) := by
      refine Js.keepsBrowser_bind (Js.keepsBrowser_call _ _) (fun page => ?_)
      refine Js.keepsBrowser_bind (Js.keepsBrowser_call _ _) (fun _ => ?_)
      exact Js.keepsBrowser_bind (Js.keepsBrowser_call _ _) (fun _ => Js.keepsBrowser_pure _)
    rw [Js.bind_apply]
    exact hrest _

/-- The `try` block with its `catch` clause leaves `browser` assigned exactly when the launch
succeeded. -/
theorem puppeteerTryCatch_browser (env : Env) (url selector selectorType : JsValue) (s : St) :
    (Js.tryCatch (puppeteerTryBlock env url selector selectorType) catchAsFailure s).1.browser =
      (match env.puppeteerLaunch true launchArgs with
       | .ok browser => some browser
       | .error _ => s.browser) := by
  unfold puppeteerTryBlock
  rw [tryCatch_bind_browser, puppeteerLaunchPage_browser]
  intro page
  refine Js.keepsBrowser_bind (Js.keepsBrowser_call _ _) (fun _ => ?_)
  exact Js.keepsBrowser_bind (Js.keepsBrowser_call _ _) (fun _ => puppeteerExtract_keeps _ _ _)

theorem puppeteerFinally_apply (s : St) :
    puppeteerFinally s =
      (match s.browser with
       | some browser => (⟨s.log ++ [Event.browserClose], s.browser⟩, browser.close)
       | none => (s, .ok ())) := by
  unfold puppeteerFinally
  rw [Js.bind_apply]
  cases hb : s.browser with
  | none => simp [Js.getBrowser, hb, Js.pure_apply]
  | some browser => simp [Js.getBrowser, hb, Js.call]

/-- The anatomy of a call of the rendering path from any state: the entry event, browser
steps, then `browser.close()` exactly when the launch succeeded; the call returns a
well-shaped value unless `browser.close()` throws, in which case it throws that error. -/
theorem scrapeWithPuppeteer_anatomy (env : Env) (url selector selectorType : JsValue) (s : St) :
    ∃ (t : List Event) (r : ScrapeResult),
      (∀ e ∈ t, e.isBrowserStep = true) ∧ r.WellShaped ∧
      (match env.puppeteerLaunch true launchArgs with
       | .error _ =>
         (ScrapingService.scrapeWithPuppeteer env url selector selectorType s).1.log =
           s.log ++ Event.invoke "scrapeWithPuppeteer" [url, selector, selectorType] :: t ∧
         (ScrapingService.scrapeWithPuppeteer env url selector selectorType s).2 = .ok r
       | .ok browser =>
         (ScrapingService.scrapeWithPuppeteer env url selector selectorType s).1.log =
           s.log ++ Event.invoke "scrapeWithPuppeteer" [url, selector, selectorType] ::
             (t ++ [Event.browserClose]) ∧
         (ScrapingService.scrapeWithPuppeteer env url selector selectorType s).2 =
           (match browser.close with
            | .ok _ => .ok r
            | .error e => .error e)) := by
  have hrun : ScrapingService.scrapeWithPuppeteer env url selector selectorType s =
      Js.tryCatchFinally
        (puppeteerTryBlock env url selector (selectorType.withDefault (.string "css")))
        catchAsFailure puppeteerFinally
        ⟨s.log ++ [Event.invoke "scrapeWithPuppeteer" [url, selector, selectorType]], none⟩ := rfl
  rw [hrun]
  have hemits : Js.Emits (fun e => e.isBrowserStep = true)
      (Js.tryCatch
        (puppeteerTryBlock env url selector (selectorType.withDefault (.string "css")))
        catchAsFailure) :=
    Js.emits_tryCatch (puppeteerTryBlock_emits _ _ _ _) (fun e => Js.emits_pure _ _)
  obtain ⟨t, ht, hp⟩ := hemits
    ⟨s.log ++ [Event.invoke "scrapeWithPuppeteer" [url, selector, selectorType]], none⟩
  obtain ⟨r, hr⟩ := tryCatch_catchAsFailure_ok
    (puppeteerTryBlock env url selector (selectorType.withDefault (.string "css")))
    ⟨s.log ++ [Event.invoke "scrapeWithPuppeteer" [url, selector, selectorType]], none⟩
  have hshape := puppeteerTryCatch_returns env url selector
    (selectorType.withDefault (.string "css")) _ r hr
  have hbrowser := puppeteerTryCatch_browser env url selector
    (selectorType.withDefault (.string "css"))
    ⟨s.log ++ [Event.invoke "scrapeWithPuppeteer" [url, selector, selectorType]], none⟩
  refine ⟨t, r, hp, hshape, ?_⟩
  unfold Js.tryCatchFinally
  rcases htc : Js.tryCatch
      (puppeteerTryBlock env url selector (selectorType.withDefault (.string "css")))
      catchAsFailure
      ⟨s.log ++ [Event.invoke "scrapeWithPuppeteer" [url, selector, selectorType]], none⟩
    with ⟨s1, r1⟩
  rw [htc] at ht hr hbrowser
  have hlog : s1.log =
      s.log ++ Event.invoke "scrapeWithPuppeteer" [url, selector, selectorType] :: t := by
    have h := ht
    simp only [List.append_assoc, List.singleton_append] at h
    exact h
  have hr1 : r1 = .ok r := hr
  have hb1 : s1.browser =
      (match env.puppeteerLaunch true launchArgs with
       | .ok browser => some browser
       | .error _ => none) := hbrowser
  subst hr1
  simp only [puppeteerFinally_apply]
  rcases hl : env.puppeteerLaunch true launchArgs with e | browser
  · rw [hl] at hb1
    simp only [hb1]
    exact ⟨hlog, trivial⟩
  · rw [hl] at hb1
    simp only [hb1]
    rcases hc : browser.close with e | u
    · refine ⟨?_, rfl⟩
      simp [hlog]
    · refine ⟨?_, rfl⟩
      simp [hlog]

/-! ## Whether the extraction methods can throw -/

/-- The static path never throws: from any state it returns a well-shaped value. -/
theorem scrapeWithCheerio_returns_value (env : Env) (url selector : JsValue) (s : St) :
    ∃ r : ScrapeResult,
      (ScrapingService.scrapeWithCheerio env url selector s).2 = .ok r ∧ r.WellShaped := by
  have hrun : ∀ body : Js ScrapeResult,
      ((do
          Js.call (Event.invoke "scrapeWithCheerio" [url, selector]) (.ok ())
          Js.tryCatch body catchAsFailure : Js ScrapeResult) s) =
        Js.tryCatch body catchAsFailure
          ⟨s.log ++ [Event.invoke "scrapeWithCheerio" [url, selector]], s.browser⟩ :=
    fun _ => rfl
  unfold ScrapingService.scrapeWithCheerio
  rw [hrun]
  obtain ⟨r, hr⟩ := tryCatch_catchAsFailure_ok _ _
  refine ⟨r, hr, ?_⟩
  refine Js.returns_tryCatch ?_ (fun e => Js.returns_pure _ (ScrapeResult.wellShaped_failure _))
    _ r hr
  refine Js.returns_bind (fun response => ?_)
  split
  · exact Js.returns_throw _
  · refine Js.returns_bind (fun html => ?_)
    refine Js.returns_bind (fun dollar => ?_)
    refine Js.returns_bind (fun elements => ?_)
    split
    · exact Js.returns_pure _ (ScrapeResult.wellShaped_failure _)
    · refine Js.returns_pure _ (ScrapeResult.wellShaped_ok _ ?_)
      rw [cheerioEach_eq_map, List.length_map]
      assumption

/-- The rendering path throws exactly the error of `browser.close()`, when that call throws. -/
theorem scrapeWithPuppeteer_throws_of_close (env : Env) (url selector selectorType : JsValue)
    (s : St) (browser : Browser) (e : JsError)
    (hlaunch : env.puppeteerLaunch true launchArgs = .ok browser)
    (hclose : browser.close = .error e) :
    (ScrapingService.scrapeWithPuppeteer env url selector selectorType s).2 = .error e := by
  obtain ⟨t, r, _, _, h⟩ := scrapeWithPuppeteer_anatomy env url selector selectorType s
  rw [hlaunch] at h
  simp only [hclose] at h
  exact h.2

/-- The rendering path returns a well-shaped value whenever `browser.close()` does not throw. -/
theorem scrapeWithPuppeteer_returns_of_close (env : Env) (url selector selectorType : JsValue)
    (s : St)
    (hclose : ∀ browser, env.puppeteerLaunch true launchArgs = .ok browser →
      browser.close = .ok ()) :
    ∃ r : ScrapeResult,
      (ScrapingService.scrapeWithPuppeteer env url selector selectorType s).2 = .ok r ∧
      r.WellShaped := by
  obtain ⟨t, r, _, hshape, h⟩ := scrapeWithPuppeteer_anatomy env url selector selectorType s
  rcases hl : env.puppeteerLaunch true launchArgs with e | browser
  · rw [hl] at h
    exact ⟨r, h.2, hshape⟩
  · rw [hl] at h
    simp only [hclose browser hl] at h
    exact ⟨r, h.2, hshape⟩

/-- C1, at the input where the code departs from it: the page renders and the selector
matches, but `browser.close()` throws in the `finally` clause; `scrapeWithPuppeteer` then
rejects with that error instead of returning a failure value. -/
theorem scrapeWithPuppeteer_rejects_when_close_throws :
    ((ScrapingService.scrapeWithPuppeteer closeThrowsEnv (.string "http://example.test/page")
        (.string "h1") (.string "css")).run).2 =
      .error { message := "Protocol error: Connection closed." } :=
  scrapeWithPuppeteer_throws_of_close closeThrowsEnv _ _ _ St.init brokenCloseBrowser _ rfl rfl

/-! ## Release of the browser -/

theorem countP_isClose_of_browserSteps (t : List Event)
    (h : ∀ e ∈ t, e.isBrowserStep = true) : t.countP Event.isClose = 0 := by
  rw [List.countP_eq_zero]
  intro e he
  simp [Event.not_isClose_of_isBrowserStep e (h e he)]

/-- C7, as the code has it: `browser.close()` is invoked exactly once when
`puppeteer.launch` succeeded, whatever happens afterwards, and not at all when the launch
failed (there is no browser to release); when invoked it is the last effect of the call, so
the release precedes the return. -/
theorem browser_closed_once_iff_launched (env : Env) (url selector selectorType : JsValue) :
    ((ScrapingService.scrapeWithPuppeteer env url selector selectorType).run).1.log.countP
        Event.isClose =
      (match env.puppeteerLaunch true launchArgs with
       | .ok _ => 1
       | .error _ => 0) ∧
    (match env.puppeteerLaunch true launchArgs with
     | .ok _ =>
       ((ScrapingService.scrapeWithPuppeteer env url selector selectorType).run).1.log.getLast? =
         some Event.browserClose
     | .error _ => True) := by
  obtain ⟨t, r, hsteps, _, h⟩ := scrapeWithPuppeteer_anatomy env url selector selectorType St.init
  have hzero := countP_isClose_of_browserSteps t hsteps
  rcases hl : env.puppeteerLaunch true launchArgs with e | browser
  · rw [hl] at h
    simp only [and_true]
    rw [Js.run, h.1]
    simp [St.init, List.countP_cons, Event.isClose, hzero]
  · rw [hl] at h
    simp only
    rw [Js.run, h.1]
    constructor
    · simp [St.init, List.countP_cons, List.countP_append, Event.isClose, hzero]
    · have hcons : Event.invoke "scrapeWithPuppeteer" [url, selector, selectorType] ::
          (t ++ [Event.browserClose]) =
          (Event.invoke "scrapeWithPuppeteer" [url, selector, selectorType] :: t) ++
            [Event.browserClose] := rfl
      simp only [St.init, List.nil_append]
      rw [hcons, List.getLast?_concat]

/-- C7 fails as stated on the launch-failure branch: when `puppeteer.launch` throws, the call
returns a failure value without any call of `browser.close()`. -/
theorem no_close_when_launch_fails :
    ((ScrapingService.scrapeWithPuppeteer launchFailsEnv (.string "http://example.test/page")
        (.string "h1") (.string "css")).run).1.log.countP Event.isClose = 0 ∧
    ((ScrapingService.scrapeWithPuppeteer launchFailsEnv (.string "http://example.test/page")
        (.string "h1") (.string "css")).run).2 =
      .ok (ScrapeResult.failure "Failed to launch the browser process") := by
  constructor <;> rfl

/-! ## The state machine of the rendering path -/

theorem Machine.close_phase (st : St) (pending : Except JsError ScrapeResult) :
    (Machine.close st pending).phase = .Closed := rfl

theorem Machine.close_delivered (st : St) (pending : Except JsError ScrapeResult) :
    (Machine.close st pending).delivered.isSome = true := rfl

/-- No transition leaves `Closed`. -/
theorem Machine.step_closed (env : Env) (url selector selectorType : JsValue) (m : Machine)
    (h : m.phase = .Closed) : Machine.step env url selector selectorType m = none := by
  unfold Machine.step
  rw [h]

/-- Every transition is one the specification allows: to the next phase, or from a phase in
which an operation failed directly to `Closed`. -/
theorem Machine.step_allowed (env : Env) (url selector selectorType : JsValue)
    (m m1 : Machine) (h : Machine.step env url selector selectorType m = some m1) :
    Phase.allowed m.phase m1.phase = true := by
  unfold Machine.step at h
  cases hp : m.phase <;> rw [hp] at h <;> simp only at h
  · injection h with h
    subst h
    rfl
  · rcases hl : puppeteerLaunchPage env m.st with ⟨s1, r⟩
    rw [hl] at h
    cases r <;> simp only at h <;> injection h with h <;> subst h <;> rfl
  · cases hpage : m.page with
    | none => rw [hpage] at h; simp at h
    | some page =>
      rw [hpage] at h
      simp only at h
      rcases hl : puppeteerNavigate page url m.st with ⟨s1, r⟩
      rw [hl] at h
      cases r <;> simp only at h <;> injection h with h <;> subst h <;> rfl
  · cases hpage : m.page with
    | none => rw [hpage] at h; simp at h
    | some page =>
      rw [hpage] at h
      simp only at h
      rcases hl : puppeteerSettle page m.st with ⟨s1, r⟩
      rw [hl] at h
      cases r <;> simp only at h <;> injection h with h <;> subst h <;> rfl
  · cases hpage : m.page with
    | none => rw [hpage] at h; simp at h
    | some page =>
      rw [hpage] at h
      simp only at h
      injection h with h
      subst h
      rfl
  · simp at h

/-- A transition delivers a result exactly when it enters `Closed`. -/
theorem Machine.step_delivered (env : Env) (url selector selectorType : JsValue)
    (m m1 : Machine) (h : Machine.step env url selector selectorType m = some m1) :
    m1.delivered.isSome = true ↔ m1.phase = .Closed := by
  unfold Machine.step at h
  cases hp : m.phase <;> rw [hp] at h <;> simp only at h
  · injection h with h
    subst h
    simp
  · rcases hl : puppeteerLaunchPage env m.st with ⟨s1, r⟩
    rw [hl] at h
    cases r <;> simp only at h <;> injection h with h <;> subst h <;>
      simp [Machine.close_phase, Machine.close_delivered]
  · cases hpage : m.page with
    | none => rw [hpage] at h; simp at h
    | some page =>
      rw [hpage] at h
      simp only at h
      rcases hl : puppeteerNavigate page url m.st with ⟨s1, r⟩
      rw [hl] at h
      cases r <;> simp only at h <;> injection h with h <;> subst h <;>
        simp [Machine.close_phase, Machine.close_delivered]
  · cases hpage : m.page with
    | none => rw [hpage] at h; simp at h
    | some page =>
      rw [hpage] at h
      simp only at h
      rcases hl : puppeteerSettle page m.st with ⟨s1, r⟩
      rw [hl] at h
      cases r <;> simp only at h <;> injection h with h <;> subst h <;>
        simp [Machine.close_phase, Machine.close_delivered]
  · cases hpage : m.page with
    | none => rw [hpage] at h; simp at h
    | some page =>
      rw [hpage] at h
      simp only at h
      injection h with h
      subst h
      simp [Machine.close_phase, Machine.close_delivered]
  · simp at h

/-- Leaving the `try` block at `(s1, pending)` and closing gives what the method gives. -/
theorem Machine.close_eq (body : Js ScrapeResult) (s0 s1 : St)
    (pending : Except JsError ScrapeResult) (h : body s0 = (s1, pending)) :
    Machine.close s1 pending =
      ⟨.Closed, (Js.tryCatchFinally body catchAsFailure puppeteerFinally s0).1, none,
        some (Js.tryCatchFinally body catchAsFailure puppeteerFinally s0).2⟩ := by
  unfold Machine.close Js.tryCatchFinally Js.tryCatch
  rw [h]

/-- The machine refines the method: five transitions from the start reach `Closed` with the
state and the result of `scrapeWithPuppeteer`. -/
theorem Machine.run_eq_scrapeWithPuppeteer (env : Env) (url selector selectorType : JsValue) :
    Machine.run env url selector selectorType 5 Machine.start =
      ⟨.Closed, ((ScrapingService.scrapeWithPuppeteer env url selector selectorType).run).1, none,
        some ((ScrapingService.scrapeWithPuppeteer env url selector selectorType).run).2⟩ := by
  have hrun : (ScrapingService.scrapeWithPuppeteer env url selector selectorType).run =
      Js.tryCatchFinally
        (puppeteerTryBlock env url selector (selectorType.withDefault (.string "css")))
        catchAsFailure puppeteerFinally
        ⟨[Event.invoke "scrapeWithPuppeteer" [url, selector, selectorType]], none⟩ := rfl
  rw [hrun]
  have hstart : Machine.step env url selector selectorType Machine.start =
      some ⟨.Launching, ⟨[Event.invoke "scrapeWithPuppeteer" [url, selector, selectorType]], none⟩,
        none, none⟩ := rfl
  simp only [Machine.run, hstart]
  rcases h1 : puppeteerLaunchPage env
      ⟨[Event.invoke "scrapeWithPuppeteer" [url, selector, selectorType]], none⟩ with ⟨s1, r1⟩
  cases r1 with
  | error e =>
    have hbody : puppeteerTryBlock env url selector (selectorType.withDefault (.string "css"))
        ⟨[Event.invoke "scrapeWithPuppeteer" [url, selector, selectorType]], none⟩ =
        (s1, .error e) := by
      simp [puppeteerTryBlock, Js.bind_apply, h1]
    simp [Machine.step, h1, Machine.close_eq _ _ _ _ hbody, Machine.run]
  | ok page =>
    rcases h2 : puppeteerNavigate page url s1 with ⟨s2, r2⟩
    cases r2 with
    | error e =>
      have hbody : puppeteerTryBlock env url selector (selectorType.withDefault (.string "css"))
          ⟨[Event.invoke "scrapeWithPuppeteer" [url, selector, selectorType]], none⟩ =
          (s2, .error e) := by
        simp [puppeteerTryBlock, Js.bind_apply, h1, h2]
      simp [Machine.step, h1, h2, Machine.close_eq _ _ _ _ hbody, Machine.run]
    | ok _ =>
      rcases h3 : puppeteerSettle page s2 with ⟨s3, r3⟩
      cases r3 with
      | error e =>
        have hbody : puppeteerTryBlock env url selector (selectorType.withDefault (.string "css"))
            ⟨[Event.invoke "scrapeWithPuppeteer" [url, selector, selectorType]], none⟩ =
            (s3, .error e) := by
          simp [puppeteerTryBlock, Js.bind_apply, h1, h2, h3]
        simp [Machine.step, h1, h2, h3, Machine.close_eq _ _ _ _ hbody, Machine.run]
      | ok _ =>
        rcases h4 : puppeteerExtract page selector (selectorType.withDefault (.string "css")) s3
          with ⟨s4, r4⟩
        have hbody : puppeteerTryBlock env url selector (selectorType.withDefault (.string "css"))
            ⟨[Event.invoke "scrapeWithPuppeteer" [url, selector, selectorType]], none⟩ =
            (s4, r4) := by
          simp [puppeteerTryBlock, Js.bind_apply, h1, h2, h3, h4]
        simp [Machine.step, h1, h2, h3, h4, Machine.close_eq _ _ _ _ hbody, Machine.run]

theorem Machine.phases_head (env : Env) (url selector selectorType : JsValue) (fuel : Nat)
    (m : Machine) :
    (Machine.phases env url selector selectorType fuel m).head? = some m.phase := by
  cases fuel with
  | zero => rfl
  | succ n =>
    unfold Machine.phases
    cases Machine.step env url selector selectorType m <;> rfl

/-- The phases a run visits follow the allowed transitions. -/
theorem Machine.phases_chain (env : Env) (url selector selectorType : JsValue) (fuel : Nat)
    (m : Machine) :
    List.Chain' (fun a b => Phase.allowed a b = true)
      (Machine.phases env url selector selectorType fuel m) := by
  induction fuel generalizing m with
  | zero => simp [Machine.phases]
  | succ n ih =>
    unfold Machine.phases
    cases hstep : Machine.step env url selector selectorType m with
    | none => simp
    | some m1 =>
      simp only
      rw [List.chain'_cons']
      refine ⟨?_, ih m1⟩
      intro y hy
      rw [Machine.phases_head] at hy
      cases hy
      exact Machine.step_allowed env url selector selectorType m m1 hstep

/-- The last phase a run visits is the phase it ends in. -/
theorem Machine.phases_getLast (env : Env) (url selector selectorType : JsValue) (fuel : Nat)
    (m : Machine) :
    (Machine.phases env url selector selectorType fuel m).getLast? =
      some (Machine.run env url selector selectorType fuel m).phase := by
  induction fuel generalizing m with
  | zero => rfl
  | succ n ih =>
    unfold Machine.phases Machine.run
    cases hstep : Machine.step env url selector selectorType m with
    | none => rfl
    | some m1 =>
      simp only
      rw [List.getLast?_cons, ih m1]
      rfl

/-- Every run starts in `Idle`, follows allowed transitions only, and ends in `Closed`. -/
theorem Machine.run_follows_path (env : Env) (url selector selectorType : JsValue) :
    (Machine.phases env url selector selectorType 5 Machine.start).head? = some Phase.Idle ∧
    List.Chain' (fun a b => Phase.allowed a b = true)
      (Machine.phases env url selector selectorType 5 Machine.start) ∧
    (Machine.phases env url selector selectorType 5 Machine.start).getLast? =
      some Phase.Closed := by
  refine ⟨Machine.phases_head _ _ _ _ _ _, Machine.phases_chain _ _ _ _ _ _, ?_⟩
  rw [Machine.phases_getLast, Machine.run_eq_scrapeWithPuppeteer]

/-- C8, at the input where the code departs from it: the navigation fails in
`NavigatingReady`, the machine jumps directly to `Closed`, and there `browser.close()`
throws; the run ends in `Closed` but delivers a rejection, not a failure value. -/
theorem failed_run_rejects_when_close_throws :
    Machine.phases closeThrowsEnv (.string "http://example.test/unreachable") (.string "h1")
        (.string "css") 5 Machine.start =
      [Phase.Idle, Phase.Launching, Phase.NavigatingReady, Phase.Closed] ∧
    (Machine.run closeThrowsEnv (.string "http://example.test/unreachable") (.string "h1")
        (.string "css") 5 Machine.start).delivered =
      some (.error { message := "Protocol error: Connection closed." }) := by
  constructor <;> rfl

/-! ## The handler -/

theorem extract_log (env : Env) (url selector selectorType usePuppeteer : JsValue) (s : St) :
    ∃ t : List Event,
      (extract env url selector selectorType usePuppeteer s).1.log =
        s.log ++ chosenInvoke url selector selectorType usePuppeteer :: t ∧
      ∀ e ∈ t, e.isExtraction = true := by
  unfold extract chosenInvoke
  split
  · obtain ⟨t, r, hsteps, _, h⟩ := scrapeWithPuppeteer_anatomy env url selector selectorType s
    rcases hl : env.puppeteerLaunch true launchArgs with e | browser
    · rw [hl] at h
      exact ⟨t, h.1, fun e he => Event.isExtraction_of_isBrowserStep e (hsteps e he)⟩
    · rw [hl] at h
      refine ⟨t ++ [Event.browserClose], h.1, ?_⟩
      intro e he
      rcases List.mem_append.1 he with h1 | h1
      · exact Event.isExtraction_of_isBrowserStep e (hsteps e h1)
      · simp only [List.mem_singleton] at h1
        subst h1
        rfl
  · exact scrapeWithCheerio_log env url selector s

/-- The chosen extraction method returns well-shaped values only. -/
theorem extract_wellShaped (env : Env) (url selector selectorType usePuppeteer : JsValue)
    (s : St) (r : ScrapeResult)
    (h : (extract env url selector selectorType usePuppeteer s).2 = .ok r) : r.WellShaped := by
  unfold extract at h
  split at h
  · obtain ⟨t, r1, _, hshape, h1⟩ := scrapeWithPuppeteer_anatomy env url selector selectorType s
    rcases hl : env.puppeteerLaunch true launchArgs with e | browser
    · rw [hl] at h1
      rw [h1.2] at h
      injection h with h
      exact h ▸ hshape
    · rw [hl] at h1
      rw [h1.2] at h
      cases hc : browser.close with
      | error e => rw [hc] at h; simp at h
      | ok u =>
        rw [hc] at h
        injection h with h
        exact h ▸ hshape
  · obtain ⟨r1, hr1, hshape⟩ := scrapeWithCheerio_returns_value env url selector s
    rw [hr1] at h
    injection h with h
    exact h ▸ hshape

/-- Lines 248 to 274 in terms of the extraction: a throw of the extraction passes through;
otherwise the record is handed to the database, a database error is logged and swallowed,
and the result is sent with status 200. -/
theorem scrapeStoreRespond_apply (env : Env) (url selector selectorType usePuppeteer : JsValue)
    (s : St) :
    scrapeStoreRespond env url selector selectorType usePuppeteer s =
      (match extract env url selector selectorType usePuppeteer s with
       | (s1, .error e) => (s1, .error e)
       | (s1, .ok r) =>
         (⟨s1.log ++
            (Event.insertScrapingRecord (makeDbRecord env url selector selectorType r) ::
              ((match env.insertScrapingRecord (makeDbRecord env url selector selectorType r) with
                | .ok _ => []
                | .error dbError => [Event.consoleError "Database error:" dbError.message]) ++
               [Event.respond 200 (.result r)])), s1.browser⟩, .ok ())) := by
  unfold scrapeStoreRespond
  rw [Js.bind_apply]
  rcases extract env url selector selectorType usePuppeteer s with ⟨s1, r1⟩
  cases r1 with
  | error e => rfl
  | ok r =>
    simp only [Js.bind_apply, Js.tryCatch, Js.call, respond]
    cases env.insertScrapingRecord (makeDbRecord env url selector selectorType r) with
    | error dbError => simp
    | ok u => simp

/-- A validated request passes the three checks, logging the validation calls, and reaches
lines 248 to 274. -/
theorem postScrapeTry_of_validated (env : Env) (fields : List (String × JsValue))
    (hv : Validated env fields) (s : St) :
    postScrapeTry env (some fields) s =
      scrapeStoreRespond env (getField fields "url") (getField fields "selector")
        ((getField fields "selectorType").withDefault (.string "css"))
        ((getField fields "usePuppeteer").withDefault (.bool false))
        ⟨s.log ++ validationEvents (getField fields "url") (getField fields "selector")
            ((getField fields "selectorType").withDefault (.string "css")), s.browser⟩ := by
  obtain ⟨hurl, hsel, hvalid, hcss⟩ := hv
  by_cases hc : ((getField fields "selectorType").withDefault (.string "css")).strictEqString
      "css" = true
  · obtain ⟨dollar, elements, hload, hselect⟩ := hcss hc
    simp [postScrapeTry, destructureBody, Js.bind_apply, Js.pure_apply, hurl, hsel,
      ScrapingService.isValidUrl,
      Js.call, hvalid, cssSelectorRejected, hc, ScrapingService.isValidCssSelector, Js.tryCatch,
      hload, hselect, validationEvents]
  · simp [postScrapeTry, destructureBody, Js.bind_apply, Js.pure_apply, hurl, hsel,
      ScrapingService.isValidUrl,
      Js.call, hvalid, cssSelectorRejected, hc, validationEvents]

theorem Event.not_isInvoke_of_isExtraction (e : Event) (h : e.isExtraction = true) :
    e.isInvoke = false := by
  cases e <;> simp_all [Event.isInvoke, Event.isExtraction]

theorem Event.not_isRespond_of_isExtraction (e : Event) (h : e.isExtraction = true) :
    e.isRespond = false := by
  cases e <;> simp_all [Event.isRespond, Event.isExtraction]

theorem filter_isInvoke_validationEvents (url selector selectorType : JsValue) :
    (validationEvents url selector selectorType).filter Event.isInvoke = [] := by
  unfold validationEvents
  split <;> rfl

theorem responses_validationEvents (url selector selectorType : JsValue) :
    responses (validationEvents url selector selectorType) = [] := by
  unfold validationEvents responses
  split <;> rfl

theorem chosenInvoke_isInvoke (url selector selectorType usePuppeteer : JsValue) :
    (chosenInvoke url selector selectorType usePuppeteer).isInvoke = true := by
  unfold chosenInvoke
  split <;> rfl

theorem chosenInvoke_isRespond (url selector selectorType usePuppeteer : JsValue) :
    (chosenInvoke url selector selectorType usePuppeteer).isRespond = false := by
  unfold chosenInvoke
  split <;> rfl

/-- The log of the handler on a validated request: the validation calls, the entry of the
chosen extraction method, its extraction events, then the storing and answering events. -/
theorem postScrape_validated_anatomy (env : Env) (fields : List (String × JsValue))
    (hv : Validated env fields) :
    ∃ (t u : List Event),
      ((postScrape env (some fields)).run).1.log =
        validationEvents (getField fields "url") (getField fields "selector")
            ((getField fields "selectorType").withDefault (.string "css")) ++
          chosenInvoke (getField fields "url") (getField fields "selector")
            ((getField fields "selectorType").withDefault (.string "css"))
            ((getField fields "usePuppeteer").withDefault (.bool false)) :: (t ++ u) ∧
      (∀ e ∈ t, e.isExtraction = true) ∧
      u.filter Event.isInvoke = [] ∧
      responses u =
        [match ((extract env (getField fields "url") (getField fields "selector")
            ((getField fields "selectorType").withDefault (.string "css"))
            ((getField fields "usePuppeteer").withDefault (.bool false))).run).2 with
         | .ok r => Event.respond 200 (.result r)
         | .error _ =>
           Event.respond 500 (.message false "Internal server error during scraping")] := by
  obtain ⟨t, ht, hext⟩ := extract_log env (getField fields "url") (getField fields "selector")
    ((getField fields "selectorType").withDefault (.string "css"))
    ((getField fields "usePuppeteer").withDefault (.bool false))
    ⟨validationEvents (getField fields "url") (getField fields "selector")
      ((getField fields "selectorType").withDefault (.string "css")), none⟩
  obtain ⟨_, _, hout⟩ := Js.framed_from_run
    (extract_framed env (getField fields "url") (getField fields "selector")
      ((getField fields "selectorType").withDefault (.string "css"))
      ((getField fields "usePuppeteer").withDefault (.bool false)))
    ⟨validationEvents (getField fields "url") (getField fields "selector")
      ((getField fields "selectorType").withDefault (.string "css")), none⟩ rfl
  rw [← hout]
  have hrun : (postScrape env (some fields)).run =
      Js.tryCatch (postScrapeTry env (some fields))
        (fun error => do
          Js.call (Event.consoleError "Scraping error:" error.message) (.ok ())
          respond 500 (.message false "Internal server error during scraping")) St.init := rfl
  rw [hrun]
  unfold Js.tryCatch
  rw [postScrapeTry_of_validated env fields hv, scrapeStoreRespond_apply]
  simp only [St.init, List.nil_append]
  rcases hex : extract env (getField fields "url") (getField fields "selector")
      ((getField fields "selectorType").withDefault (.string "css"))
      ((getField fields "usePuppeteer").withDefault (.bool false))
      ⟨validationEvents (getField fields "url") (getField fields "selector")
        ((getField fields "selectorType").withDefault (.string "css")), none⟩ with ⟨s1, r1⟩
  rw [hex] at ht
  have hlog : s1.log = _ := ht
  cases r1 with
  | error e =>
    refine ⟨t, [Event.consoleError "Scraping error:" e.message,
      Event.respond 500 (.message false "Internal server error during scraping")], ?_, hext,
      rfl, rfl⟩
    simp [Js.bind_apply, Js.call, respond, hlog]
  | ok r =>
    cases hdb : env.insertScrapingRecord
        (makeDbRecord env (getField fields "url") (getField fields "selector")
          ((getField fields "selectorType").withDefault (.string "css")) r) with
    | ok u =>
      refine ⟨t, [Event.insertScrapingRecord
          (makeDbRecord env (getField fields "url") (getField fields "selector")
            ((getField fields "selectorType").withDefault (.string "css")) r),
        Event.respond 200 (.result r)], ?_, hext, rfl, rfl⟩
      simp [hlog, hdb]
    | error dbError =>
      refine ⟨t, [Event.insertScrapingRecord
          (makeDbRecord env (getField fields "url") (getField fields "selector")
            ((getField fields "selectorType").withDefault (.string "css")) r),
        Event.consoleError "Database error:" dbError.message,
        Event.respond 200 (.result r)], ?_, hext, rfl, rfl⟩
      simp [hlog, hdb]

theorem filter_isInvoke_of_extraction (t : List Event) (h : ∀ e ∈ t, e.isExtraction = true) :
    t.filter Event.isInvoke = [] := by
  rw [List.filter_eq_nil_iff]
  intro e he
  simp [Event.not_isInvoke_of_isExtraction e (h e he)]

theorem responses_of_extraction (t : List Event) (h : ∀ e ∈ t, e.isExtraction = true) :
    responses t = [] := by
  unfold responses
  rw [List.filter_eq_nil_iff]
  intro e he
  simp [Event.not_isRespond_of_isExtraction e (h e he)]

theorem example_validated_hello : Validated exampleEnv helloRequest :=
  ⟨rfl, rfl, rfl, fun _ => ⟨emptyDollar, [], rfl, rfl⟩⟩

theorem example_validated_missing : Validated exampleEnv missingRequest :=
  ⟨rfl, rfl, rfl, fun _ => ⟨emptyDollar, [], rfl, rfl⟩⟩

theorem example_validated_stringFlag : Validated exampleEnv stringFlagRequest :=
  ⟨rfl, rfl, rfl, fun _ => ⟨emptyDollar, [], rfl, rfl⟩⟩

/-- C2, as the code has it: on every validated request the handler enters exactly one
extraction method, exactly once: `scrapeWithPuppeteer(url, selector, selectorType)` when
`usePuppeteer` is truthy or `selectorType === 'xpath'`, and `scrapeWithCheerio(url, selector)`
in every other case. -/
theorem handler_invokes_chosen_method_once (env : Env) (fields : List (String × JsValue))
    (hv : Validated env fields) :
    ((postScrape env (some fields)).run).1.log.filter Event.isInvoke =
      [if ((getField fields "usePuppeteer").withDefault (.bool false)).truthy ||
          ((getField fields "selectorType").withDefault (.string "css")).strictEqString "xpath"
        then
          Event.invoke "scrapeWithPuppeteer"
            [getField fields "url", getField fields "selector",
             (getField fields "selectorType").withDefault (.string "css")]
        else
          Event.invoke "scrapeWithCheerio" [getField fields "url", getField fields "selector"]] := by
  obtain ⟨t, u, hlog, ht, hu, _⟩ := postScrape_validated_anatomy env fields hv
  rw [hlog, List.filter_append, filter_isInvoke_validationEvents, List.nil_append,
    List.filter_cons, chosenInvoke_isInvoke, if_pos rfl, List.filter_append,
    filter_isInvoke_of_extraction t ht, hu]
  rfl

/-- Witness for C2: the example request is validated and enters `scrapeWithCheerio` once. -/
theorem handler_invokes_chosen_method_once_witness :
    Validated exampleEnv helloRequest ∧
    ((postScrape exampleEnv (some helloRequest)).run).1.log.filter Event.isInvoke =
      [Event.invoke "scrapeWithCheerio" [.string "http://example.test/page", .string "h1"]] :=
  ⟨example_validated_hello,
    handler_invokes_chosen_method_once exampleEnv helloRequest example_validated_hello⟩

/-- C2 fails as stated when `usePuppeteer` is a truthy value other than `true`: with the
string `"false"` and `selectorType` `css` the handler enters `scrapeWithPuppeteer`, although
`usePuppeteer` is not `true` and `selectorType` is not `xpath`. -/
theorem string_flag_enters_puppeteer :
    Validated exampleEnv stringFlagRequest ∧
    getField stringFlagRequest "usePuppeteer" ≠ .bool true ∧
    (getField stringFlagRequest "selectorType").withDefault (.string "css") ≠ .string "xpath" ∧
    ((postScrape exampleEnv (some stringFlagRequest)).run).1.log.filter Event.isInvoke =
      [Event.invoke "scrapeWithPuppeteer"
        [.string "http://example.test/page", .string "h1", .string "css"]] :=
  ⟨example_validated_stringFlag, by decide, by decide, rfl⟩

/-- C9, as the code has it: when the extractor returns a failure value, the handler answers
once, with status 200 and that failure value as the body: `success` false, `content` null
and the reason string as `error`. -/
theorem failure_is_answered_with_status_200 (env : Env) (fields : List (String × JsValue))
    (r : ScrapeResult) (hv : Validated env fields)
    (hr : ((extract env (getField fields "url") (getField fields "selector")
        ((getField fields "selectorType").withDefault (.string "css"))
        ((getField fields "usePuppeteer").withDefault (.bool false))).run).2 = .ok r)
    (hfail : r.success = false) :
    responses ((postScrape env (some fields)).run).1.log = [Event.respond 200 (.result r)] ∧
    ∃ reason : String, r = ⟨false, none, none, some reason⟩ := by
  obtain ⟨t, u, hlog, ht, _, hu⟩ := postScrape_validated_anatomy env fields hv
  constructor
  · rw [hr] at hu
    rw [hlog]
    unfold responses at hu ⊢
    rw [List.filter_append, List.filter_cons, chosenInvoke_isRespond, List.filter_append, hu]
    have h1 := responses_validationEvents (getField fields "url") (getField fields "selector")
      ((getField fields "selectorType").withDefault (.string "css"))
    have h2 := responses_of_extraction t ht
    unfold responses at h1 h2
    rw [h1, h2]
    rfl
  · rcases extract_wellShaped env _ _ _ _ St.init r hr with ⟨reason, h⟩ | ⟨records, _, h⟩
    · exact ⟨reason, h⟩
    · rw [h] at hfail
      simp [ScrapeResult.ok] at hfail

/-- Witness for C9: the selector `.missing` on the example page. -/
theorem failure_is_answered_with_status_200_witness :
    Validated exampleEnv missingRequest ∧
    ((extract exampleEnv (getField missingRequest "url") (getField missingRequest "selector")
        ((getField missingRequest "selectorType").withDefault (.string "css"))
        ((getField missingRequest "usePuppeteer").withDefault (.bool false))).run).2 =
      .ok (ScrapeResult.failure noElementsMessage) ∧
    (ScrapeResult.failure noElementsMessage).success = false ∧
    responses ((postScrape exampleEnv (some missingRequest)).run).1.log =
      [Event.respond 200 (.result (ScrapeResult.failure noElementsMessage))] ∧
    ∃ reason : String, ScrapeResult.failure noElementsMessage = ⟨false, none, none, some reason⟩ :=
  ⟨example_validated_missing, rfl, rfl,
    failure_is_answered_with_status_200 exampleEnv missingRequest
      (ScrapeResult.failure noElementsMessage) example_validated_missing rfl rfl⟩

/-- C9 fails as stated: an unreachable page makes the extractor return a failure value, and
the handler answers with status 200, which is in the 2xx range. -/
theorem unreachable_page_answered_with_200 :
    ((extract exampleEnv (.string "http://example.test/down") (.string "h1") (.string "css")
        (.bool false)).run).2 = .ok ⟨false, none, none, some "fetch failed"⟩ ∧
    responses ((postScrape exampleEnv
        (some [("url", .string "http://example.test/down"), ("selector", .string "h1")])).run).1.log =
      [Event.respond 200 (.result ⟨false, none, none, some "fetch failed"⟩)] ∧
    200 ≤ 200 ∧ 200 ≤ 299 :=
  ⟨rfl, rfl, by decide, by decide⟩

/-! ## One response, and no exception out of the handler -/

theorem responses_append_silent (l t : List Event) (h : ∀ e ∈ t, e.isRespond = false) :
    responses (l ++ t) = responses l := by
  unfold responses
  rw [List.filter_append]
  have ht : t.filter Event.isRespond = [] := by
    rw [List.filter_eq_nil_iff]
    intro e he
    simp [h e he]
  rw [ht, List.append_nil]

theorem Js.answersOnce_respond (status : Nat) (body : ResponseBody) :
    Js.AnswersOnce (respond status body) := by
  intro s
  refine ⟨status, body, ?_⟩
  simp [respond, Js.call, responses, List.filter_append, Event.isRespond]

theorem Js.answersOnce_throw (e : JsError) : Js.AnswersOnce (Js.throw e) := by
  intro s
  rfl

theorem Js.answersOnce_bind {α : Type} {m : Js α} {f : α → Js Unit}
    (hm : Js.Emits (fun e => e.isRespond = false) m) (hf : ∀ a, Js.AnswersOnce (f a)) :
    Js.AnswersOnce (m >>= f) := by
  intro s
  obtain ⟨t, ht, hp⟩ := hm s
  have hresp : responses (m s).1.log = responses s.log := by
    rw [ht]
    exact responses_append_silent s.log t hp
  rw [Js.bind_apply]
  rcases hms : m s with ⟨s1, r⟩
  rw [hms] at hresp
  cases r with
  | error e => exact hresp
  | ok a =>
    have h := hf a s1
    have hresp1 : responses s1.log = responses s.log := hresp
    rw [hresp1] at h
    exact h

theorem extract_silent (env : Env) (url selector selectorType usePuppeteer : JsValue) :
    Js.Emits (fun e => e.isRespond = false)
      (extract env url selector selectorType usePuppeteer) := by
  intro s
  obtain ⟨t, ht, hp⟩ := extract_log env url selector selectorType usePuppeteer s
  refine ⟨chosenInvoke url selector selectorType usePuppeteer :: t, ht, ?_⟩
  intro e he
  rcases List.mem_cons.1 he with h | h
  · rw [h]
    exact chosenInvoke_isRespond _ _ _ _
  · exact Event.not_isRespond_of_isExtraction e (hp e h)

theorem isValidCssSelector_silent (env : Env) (selector : JsValue) :
    Js.Emits (fun e => e.isRespond = false) (ScrapingService.isValidCssSelector env selector) := by
  unfold ScrapingService.isValidCssSelector
  refine Js.emits_tryCatch ?_ (fun e => Js.emits_pure _ _)
  refine Js.emits_bind (Js.emits_call _ _ _ rfl) (fun dollar => ?_)
  exact Js.emits_bind (Js.emits_call _ _ _ rfl) (fun _ => Js.emits_pure _ _)

theorem cssSelectorRejected_silent (env : Env) (selector selectorType : JsValue) :
    Js.Emits (fun e => e.isRespond = false) (cssSelectorRejected env selector selectorType) := by
  unfold cssSelectorRejected
  split
  · exact Js.emits_bind (isValidCssSelector_silent env selector) (fun _ => Js.emits_pure _ _)
  · exact Js.emits_pure _ _

theorem scrapeStoreRespond_answersOnce (env : Env)
    (url selector selectorType usePuppeteer : JsValue) :
    Js.AnswersOnce (scrapeStoreRespond env url selector selectorType usePuppeteer) := by
  unfold scrapeStoreRespond
  refine Js.answersOnce_bind (extract_silent _ _ _ _ _) (fun result => ?_)
  refine Js.answersOnce_bind ?_ (fun _ => Js.answersOnce_respond _ _)
  exact Js.emits_tryCatch (Js.emits_call _ _ _ rfl) (fun e => Js.emits_call _ _ _ rfl)

/-- The `try` block of the handler sends exactly one response when it completes and none
when it throws. -/
theorem postScrapeTry_answersOnce (env : Env) (body : Option (List (String × JsValue))) :
    Js.AnswersOnce (postScrapeTry env body) := by
  unfold postScrapeTry
  refine Js.answersOnce_bind ?_ (fun fields => ?_)
  · unfold destructureBody
    cases body with
    | none => exact Js.emits_throw _ _
    | some fields => exact Js.emits_pure _ _
  · simp only
    split
    · exact Js.answersOnce_respond _ _
    · refine Js.answersOnce_bind ?_ (fun validUrl => ?_)
      · exact Js.emits_call _ _ _ rfl
      · split
        · exact Js.answersOnce_respond _ _
        · refine Js.answersOnce_bind (cssSelectorRejected_silent _ _ _) (fun invalidCss => ?_)
          split
          · exact Js.answersOnce_respond _ _
          · exact scrapeStoreRespond_answersOnce _ _ _ _ _

/-- C10, as the code has it: for every request body, an absent body and non-string fields
included, the handler never propagates an exception and sends exactly one response; when an
exception escapes the `try` block to the outer `catch` (an absent body, `validator.isURL`
throwing, `scrapeWithPuppeteer` rejecting) that response is status 500 with the fixed body,
which holds no part of the exception; otherwise it is the response the `try` block sent. -/
theorem handler_answers_once_and_never_throws (env : Env)
    (body : Option (List (String × JsValue))) :
    ((postScrape env body).run).2 = .ok () ∧
    (responses ((postScrape env body).run).1.log).length = 1 ∧
    (match ((postScrapeTry env body).run).2 with
     | .error _ =>
       responses ((postScrape env body).run).1.log =
         [Event.respond 500 (.message false "Internal server error during scraping")]
     | .ok _ =>
       responses ((postScrape env body).run).1.log =
         responses ((postScrapeTry env body).run).1.log) := by
  have h := postScrapeTry_answersOnce env body St.init
  have hrun : (postScrape env body).run =
      (match postScrapeTry env body St.init with
       | (s1, .ok a) => (s1, .ok a)
       | (s1, .error e) =>
         (⟨s1.log ++ [Event.consoleError "Scraping error:" e.message,
            Event.respond 500 (.message false "Internal server error during scraping")],
           s1.browser⟩, .ok ())) := by
    unfold postScrape Js.run Js.tryCatch
    rcases postScrapeTry env body St.init with ⟨s1, r⟩
    cases r with
    | ok a => rfl
    | error e => simp [Js.bind_apply, Js.call, respond]
  rw [hrun]
  unfold Js.run
  rcases hps : postScrapeTry env body St.init with ⟨s1, r⟩
  rw [hps] at h
  cases r with
  | ok a =>
    obtain ⟨status, b, hb⟩ := h
    refine ⟨rfl, ?_, rfl⟩
    have hb1 : responses s1.log = [Event.respond status b] := by
      simpa [St.init, responses] using hb
    simp only [hb1, List.length_singleton]
  | error e =>
    have hb1 : responses s1.log = [] := by
      simpa [St.init, responses] using h
    have hall : responses (s1.log ++ [Event.consoleError "Scraping error:" e.message,
        Event.respond 500 (.message false "Internal server error during scraping")]) =
        [Event.respond 500 (.message false "Internal server error during scraping")] := by
      unfold responses at hb1 ⊢
      rw [List.filter_append, hb1]
      rfl
    refine ⟨rfl, ?_, ?_⟩
    · simp only [hall, List.length_singleton]
    · exact hall

/-- C10 fails as stated for an exception raised by the database call inside the handler:
`insertScrapingRecord` throws, the error is logged and swallowed, and the single response is
the extraction result with status 200, not status 500. -/
theorem database_error_answered_with_200 :
    dbFailsEnv.insertScrapingRecord
        (makeDbRecord dbFailsEnv (.string "http://example.test/page") (.string "h1")
          (.string "css") (ScrapeResult.ok [cheerioRecord helloElement])) =
      .error { message := "SQLITE_BUSY" } ∧
    Event.consoleError "Database error:" "SQLITE_BUSY" ∈
      ((postScrape dbFailsEnv (some helloRequest)).run).1.log ∧
    responses ((postScrape dbFailsEnv (some helloRequest)).run).1.log =
      [Event.respond 200
        (.result ⟨true, some [⟨"Hello", some "Hello", none, []⟩], some 1, none⟩)] := by
  refine ⟨rfl, ?_, ?_⟩
  · decide
  · decide

/-! ## The static path, case by case -/

/-- What `scrapeWithCheerio` returns, from any state, as a function of what `fetch` and
cheerio answer. -/
theorem scrapeWithCheerio_outcome (env : Env) (url selector : JsValue) (s : St) :
    (ScrapingService.scrapeWithCheerio env url selector s).2 =
      .ok (match env.fetch url [("User-Agent", userAgent)] with
        | .error e => ScrapeResult.failure e.message
        | .ok response =>
          if response.ok then
            match response.text with
            | .error e => ScrapeResult.failure e.message
            | .ok html =>
              match env.cheerioLoad html with
              | .error e => ScrapeResult.failure e.message
              | .ok dollar =>
                match dollar.select selector with
                | .error e => ScrapeResult.failure e.message
                | .ok elements =>
                  if elements.length = 0 then ScrapeResult.failure noElementsMessage
                  else ScrapeResult.ok (elements.map cheerioRecord)
          else
            ScrapeResult.failure
              ("HTTP " ++ toString response.status ++ ": " ++ response.statusText)) := by
  rcases hf : env.fetch url [("User-Agent", userAgent)] with e | response
  · simp [ScrapingService.scrapeWithCheerio, Js.tryCatch, Js.call, Js.bind_apply, Js.pure_apply,
      catchAsFailure, hf]
  by_cases hok : response.ok = true
  swap
  · simp [ScrapingService.scrapeWithCheerio, Js.tryCatch, Js.call, Js.throw, Js.bind_apply,
      Js.pure_apply, catchAsFailure, hf, hok]
  rcases ht : response.text with e | html
  · simp [ScrapingService.scrapeWithCheerio, Js.tryCatch, Js.call, Js.bind_apply, Js.pure_apply,
      catchAsFailure, hf, hok, ht]
  rcases hl : env.cheerioLoad html with e | dollar
  · simp [ScrapingService.scrapeWithCheerio, Js.tryCatch, Js.call, Js.bind_apply, Js.pure_apply,
      catchAsFailure, hf, hok, ht, hl]
  rcases hs : dollar.select selector with e | elements
  · simp [ScrapingService.scrapeWithCheerio, Js.tryCatch, Js.call, Js.bind_apply, Js.pure_apply,
      catchAsFailure, hf, hok, ht, hl, hs]
  by_cases hlen : elements = [] <;>
    simp [ScrapingService.scrapeWithCheerio, Js.tryCatch, Js.call, Js.bind_apply, Js.pure_apply,
      catchAsFailure, hf, hok, ht, hl, hs, hlen, cheerioEach_eq_map]

/-- The network requests in the log of `scrapeWithCheerio`, from the initial state. -/
theorem scrapeWithCheerio_fetches (env : Env) (url selector : JsValue) :
    ((ScrapingService.scrapeWithCheerio env url selector).run).1.log.filter Event.isFetch =
      [Event.fetch url [("User-Agent", userAgent)]] := by
  rcases hf : env.fetch url [("User-Agent", userAgent)] with e | response
  · simp [ScrapingService.scrapeWithCheerio, Js.run, St.init, Js.tryCatch, Js.call,
      Js.bind_apply, Js.pure_apply, catchAsFailure, hf, Event.isFetch]
  by_cases hok : response.ok = true
  swap
  · simp [ScrapingService.scrapeWithCheerio, Js.run, St.init, Js.tryCatch, Js.call, Js.throw,
      Js.bind_apply, Js.pure_apply, catchAsFailure, hf, hok, Event.isFetch]
  rcases ht : response.text with e | html
  · simp [ScrapingService.scrapeWithCheerio, Js.run, St.init, Js.tryCatch, Js.call,
      Js.bind_apply, Js.pure_apply, catchAsFailure, hf, hok, ht, Event.isFetch]
  rcases hl : env.cheerioLoad html with e | dollar
  · simp [ScrapingService.scrapeWithCheerio, Js.run, St.init, Js.tryCatch, Js.call,
      Js.bind_apply, Js.pure_apply, catchAsFailure, hf, hok, ht, hl, Event.isFetch]
  rcases hs : dollar.select selector with e | elements
  · simp [ScrapingService.scrapeWithCheerio, Js.run, St.init, Js.tryCatch, Js.call,
      Js.bind_apply, Js.pure_apply, catchAsFailure, hf, hok, ht, hl, hs, Event.isFetch]
  by_cases hlen : elements = [] <;>
    simp [ScrapingService.scrapeWithCheerio, Js.run, St.init, Js.tryCatch, Js.call,
      Js.bind_apply, Js.pure_apply, catchAsFailure, hf, hok, ht, hl, hs, hlen, Event.isFetch]

/-- C18: every call of `scrapeWithCheerio`, whatever `fetch` and cheerio answer, logs exactly
one network request: the `fetch` of the given url with the `User-Agent` header. On no branch
is there a second request or a retry. -/
theorem scrapeWithCheerio_fetches_exactly_once (env : Env) (url selector : JsValue) :
    ((ScrapingService.scrapeWithCheerio env url selector).run).1.log.filter Event.isFetch =
        [Event.fetch url [("User-Agent", userAgent)]] ∧
      ((ScrapingService.scrapeWithCheerio env url selector).run).1.log.countP Event.isFetch = 1 := by
  have h := scrapeWithCheerio_fetches env url selector
  refine ⟨h, ?_⟩
  rw [List.countP_eq_length_filter, h]
  rfl

/-! ## The legacy `scrapeContent` -/

theorem scrapeContent_never_empty (env : LegacyEnv) (url selector : JsValue) :
    Js.Returns (fun content => content ≠ some "") (scrapeContent env url selector) := by
  unfold scrapeContent
  refine Js.returns_tryCatch ?_ (fun error => ?_)
  · refine Js.returns_bind (fun htmlData => ?_)
    refine Js.returns_bind (fun dollar => ?_)
    refine Js.returns_bind (fun elements => ?_)
    refine Js.returns_pure _ ?_
    by_cases h : jsTrim (selectionText elements) = ""
    · simp [h]
    · simp [h]
  · exact Js.returns_bind (fun _ => Js.returns_throw _)

/-- C20: `scrapeContent` resolves with the texts of the matched elements, joined in match
order and without leading and trailing white space, when that text is not empty, and with
`null` when it is empty; when `axios.get`, `cheerio.load` or the selection throws, it throws
that same error, unchanged; it never resolves with the empty string. -/
theorem scrapeContent_result (env : LegacyEnv) (url selector : JsValue) :
    (∀ e : JsError, env.axiosGet url [("User-Agent", userAgent)] = .error e →
      ((scrapeContent env url selector).run).2 = .error e) ∧
    (∀ (htmlData : String) (e : JsError),
      env.axiosGet url [("User-Agent", userAgent)] = .ok htmlData →
      env.cheerioLoad htmlData = .error e →
      ((scrapeContent env url selector).run).2 = .error e) ∧
    (∀ (htmlData : String) (dollar : CheerioAPI) (e : JsError),
      env.axiosGet url [("User-Agent", userAgent)] = .ok htmlData →
      env.cheerioLoad htmlData = .ok dollar →
      dollar.select selector = .error e →
      ((scrapeContent env url selector).run).2 = .error e) ∧
    (∀ (htmlData : String) (dollar : CheerioAPI) (elements : List CheerioElement),
      env.axiosGet url [("User-Agent", userAgent)] = .ok htmlData →
      env.cheerioLoad htmlData = .ok dollar →
      dollar.select selector = .ok elements →
      ∃ text : String,
        TrimOf (String.join (elements.map (fun element => element.text))) text ∧
        ((scrapeContent env url selector).run).2 =
          .ok (if text = "" then none else some text)) ∧
    ((scrapeContent env url selector).run).2 ≠ .ok (some "") := by
  refine ⟨fun e hg => ?_, fun htmlData e hg hl => ?_, fun htmlData dollar e hg hl hs => ?_,
    fun htmlData dollar elements hg hl hs => ?_, ?_⟩
  · simp [scrapeContent, Js.run, Js.tryCatch, Js.call, Js.throw, Js.bind_apply, Js.pure_apply, hg]
  · simp [scrapeContent, Js.run, Js.tryCatch, Js.call, Js.throw, Js.bind_apply, Js.pure_apply,
      hg, hl]
  · simp [scrapeContent, Js.run, Js.tryCatch, Js.call, Js.throw, Js.bind_apply, Js.pure_apply,
      hg, hl, hs]
  · refine ⟨jsTrim (String.join (elements.map (fun element => element.text))),
      jsTrim_trimOf _, ?_⟩
    by_cases ht : jsTrim (String.join (elements.map (fun element => element.text))) = ""
    · simp [scrapeContent, Js.run, Js.tryCatch, Js.call, Js.throw, Js.bind_apply, Js.pure_apply,
        selectionText, hg, hl, hs, ht]
    · simp [scrapeContent, Js.run, Js.tryCatch, Js.call, Js.throw, Js.bind_apply, Js.pure_apply,
        selectionText, hg, hl, hs, ht]
  · intro h
    exact scrapeContent_never_empty env url selector St.init (some "") h rfl

/-- Witness for C20: two paragraphs with the texts `  Hello ` and `world` followed by a line
break resolve with `Hello world`; an element that holds white space only resolves with
`null`, and so does a selector without a match. -/
theorem scrapeContent_result_witness :
    (∃ text : String,
      TrimOf "  Hello world \n" text ∧
      ((scrapeContent legacyPaddedEnv (.string "http://example.test/padded")
        (.string "p")).run).2 = .ok (if text = "" then none else some text)) ∧
    ((scrapeContent legacyPaddedEnv (.string "http://example.test/padded")
      (.string "p")).run).2 = .ok (some "Hello world") ∧
    ((scrapeContent legacyPaddedEnv (.string "http://example.test/padded")
      (.string ".blank")).run).2 = .ok none ∧
    ((scrapeContent legacyPaddedEnv (.string "http://example.test/padded")
      (.string "h2")).run).2 = .ok none :=
  ⟨(scrapeContent_result legacyPaddedEnv (.string "http://example.test/padded")
      (.string "p")).2.2.2.1 _ legacyPaddedDollar _ rfl rfl rfl,
    by rfl, by rfl, by rfl⟩

/-! ## Determinism -/

/-- What `scrapeWithPuppeteer` returns, from any state, when the session renders the page:
a function of what the DOM query answers. -/
theorem scrapeWithPuppeteer_outcome_of_session (env : Env) (url selector selectorType : JsValue)
    (page : Page) (h : SessionRenders env url page) (s : St) :
    (ScrapingService.scrapeWithPuppeteer env url selector selectorType s).2 =
      .ok (match
          (if (selectorType.withDefault (.string "css")).strictEqString "xpath" then
            page.documentEvaluate selector
          else page.querySelectorAll selector) with
        | .error e => ScrapeResult.failure e.message
        | .ok nodes =>
          if nodes.length = 0 then ScrapeResult.failure noElementsMessage
          else ScrapeResult.ok (nodes.map domRecord)) := by
  obtain ⟨browser, hlaunch, hpage, hua, hvp, hgoto, hwait, hclose⟩ := h
  by_cases hx : (selectorType.withDefault (.string "css")).strictEqString "xpath" = true
  · rw [if_pos hx]
    rcases hq : page.documentEvaluate selector with e | nodes
    · simp [ScrapingService.scrapeWithPuppeteer, Js.tryCatchFinally, Js.tryCatch, Js.call,
        Js.bind_apply, Js.pure_apply, Js.setBrowser, Js.getBrowser, puppeteerLaunchPage,
        puppeteerTryBlock, puppeteerNavigate, puppeteerSettle, puppeteerExtract,
        puppeteerEvaluate, puppeteerFinally, catchAsFailure, pageFunctionXPath, Except.map, bind,
        Except.bind, hlaunch, hpage, hua, hvp, hgoto, hwait, hq, hclose, hx]
    · by_cases hlen : nodes = [] <;>
        simp [ScrapingService.scrapeWithPuppeteer, Js.tryCatchFinally, Js.tryCatch, Js.call,
          Js.bind_apply, Js.pure_apply, Js.setBrowser, Js.getBrowser, puppeteerLaunchPage,
          puppeteerTryBlock, puppeteerNavigate, puppeteerSettle, puppeteerExtract,
          puppeteerEvaluate, puppeteerFinally, catchAsFailure, pageFunctionXPath, Except.map,
          bind, Except.bind, pure, Except.pure, domEach_eq_map, hlaunch, hpage, hua, hvp, hgoto,
          hwait, hq, hclose, hx, hlen]
  · rw [if_neg hx]
    rcases hq : page.querySelectorAll selector with e | nodes
    · simp [ScrapingService.scrapeWithPuppeteer, Js.tryCatchFinally, Js.tryCatch, Js.call,
        Js.bind_apply, Js.pure_apply, Js.setBrowser, Js.getBrowser, puppeteerLaunchPage,
        puppeteerTryBlock, puppeteerNavigate, puppeteerSettle, puppeteerExtract,
        puppeteerEvaluate, puppeteerFinally, catchAsFailure, pageFunctionCss, Except.map, bind,
        Except.bind, hlaunch, hpage, hua, hvp, hgoto, hwait, hq, hclose, hx]
    · by_cases hlen : nodes = [] <;>
        simp [ScrapingService.scrapeWithPuppeteer, Js.tryCatchFinally, Js.tryCatch, Js.call,
          Js.bind_apply, Js.pure_apply, Js.setBrowser, Js.getBrowser, puppeteerLaunchPage,
          puppeteerTryBlock, puppeteerNavigate, puppeteerSettle, puppeteerExtract,
          puppeteerEvaluate, puppeteerFinally, catchAsFailure, pageFunctionCss, Except.map,
          bind, Except.bind, pure, Except.pure, domEach_eq_map, hlaunch, hpage, hua, hvp, hgoto,
          hwait, hq, hclose, hx, hlen]

theorem scrapeWithPuppeteer_outcome_of_opened (env : Env) (url selector selectorType : JsValue)
    (browser : Browser) (page : Page) (h : SessionOpens env url browser page) (s : St) :
    (ScrapingService.scrapeWithPuppeteer env url selector selectorType s).2 =
      (match browser.close with
       | .error e => .error e
       | .ok _ =>
        .ok (match
          (if (selectorType.withDefault (.string "css")).strictEqString "xpath" then
            page.documentEvaluate selector
          else page.querySelectorAll selector) with
        | .error e => ScrapeResult.failure e.message
        | .ok nodes =>
          if nodes.length = 0 then ScrapeResult.failure noElementsMessage
          else ScrapeResult.ok (nodes.map domRecord))) := by
  obtain ⟨hlaunch, hpage, hua, hvp, hgoto, hwait⟩ := h
  rcases hclose : browser.close with ce | cu
  · simp only []
    exact scrapeWithPuppeteer_throws_of_close env url selector selectorType s browser ce hlaunch
      hclose
  · simp only []
    exact scrapeWithPuppeteer_outcome_of_session env url selector selectorType page
      ⟨browser, hlaunch, hpage, hua, hvp, hgoto, hwait, hclose⟩ s

/-- C17: two calls of `scrapeWithCheerio` with the same selector that fetch the same page
content (a 2xx response with the same body, parsed alike), made in any two environments and
from any two states, return one and the same result, and that result is read off the page:
the failure value when the selector matches nothing, otherwise success with one record per
matched element, the count, the trimmed texts and the attribute maps. Two calls of
`scrapeWithPuppeteer` with the same `selectorType` whose sessions render pages that answer
the selector alike are likewise governed by one result read off the page: each call returns
it, unless its own `browser.close()` throws, in which case that call rejects. -/
theorem extraction_is_deterministic (env1 env2 : Env) (url selector selectorType : JsValue)
    (s1 s2 : St) :
    (∀ (response1 response2 : HttpResponse) (html : String),
      env1.fetch url [("User-Agent", userAgent)] = .ok response1 →
      env2.fetch url [("User-Agent", userAgent)] = .ok response2 →
      response1.ok = true → response2.ok = true →
      response1.text = .ok html → response2.text = .ok html →
      env1.cheerioLoad html = env2.cheerioLoad html →
      ∃ r : ScrapeResult,
        (ScrapingService.scrapeWithCheerio env1 url selector s1).2 = .ok r ∧
        (ScrapingService.scrapeWithCheerio env2 url selector s2).2 = .ok r ∧
        ∀ (dollar : CheerioAPI) (elements : List CheerioElement),
          env1.cheerioLoad html = .ok dollar → dollar.select selector = .ok elements →
          (elements = [] →
            r = ⟨false, none, none, some "No elements found with the provided selector"⟩) ∧
          (elements ≠ [] →
            ∃ records : List ElementRecord,
              r = ⟨true, some records, some elements.length, none⟩ ∧
              records.length = elements.length ∧
              ∀ (i : Nat) (hi : i < elements.length) (hr : i < records.length),
                TrimOf elements[i].text records[i].text ∧
                records[i].attributes = elements[i].attribs.getD [])) ∧
    (∀ (browser1 browser2 : Browser) (page1 page2 : Page),
      SessionOpens env1 url browser1 page1 → SessionOpens env2 url browser2 page2 →
      SameRenderedPage page1 page2 selector →
      ∃ r : ScrapeResult,
        (ScrapingService.scrapeWithPuppeteer env1 url selector selectorType s1).2 =
          (match browser1.close with
           | .error e => .error e
           | .ok _ => .ok r) ∧
        (ScrapingService.scrapeWithPuppeteer env2 url selector selectorType s2).2 =
          (match browser2.close with
           | .error e => .error e
           | .ok _ => .ok r) ∧
        ∀ nodes : List DomNode,
          (if (selectorType.withDefault (.string "css")).strictEqString "xpath" then
              page1.documentEvaluate selector
            else page1.querySelectorAll selector) = .ok nodes →
          (nodes = [] →
            r = ⟨false, none, none, some "No elements found with the provided selector"⟩) ∧
          (nodes ≠ [] →
            ∃ records : List ElementRecord,
              r = ⟨true, some records, some nodes.length, none⟩ ∧
              records.length = nodes.length ∧
              ∀ (i : Nat) (hi : i < nodes.length) (hr : i < records.length),
                TrimOf (nodes[i].textContent.getD "") records[i].text ∧
                ∀ name : String, name ≠ "__proto__" →
                  records[i].attributes.get name =
                    (nodes[i].attributes.getD []).reverse.lookup name)) := by
  constructor
  · intro response1 response2 html hf1 hf2 hok1 hok2 ht1 ht2 hload
    have h1 := scrapeWithCheerio_outcome env1 url selector s1
    have h2 := scrapeWithCheerio_outcome env2 url selector s2
    simp only [hf1, hok1, ht1, if_true] at h1
    simp only [hf2, hok2, ht2, ← hload, if_true] at h2
    refine ⟨_, h1, h2, ?_⟩
    intro dollar elements hd he
    simp only [hd, he]
    constructor
    · intro hnil
      simp [hnil, ScrapeResult.failure, noElementsMessage]
    · intro hne
      have hlen : ¬ elements.length = 0 := by
        intro h0
        exact hne (List.length_eq_zero.1 h0)
      refine ⟨elements.map cheerioRecord, by simp [hlen, ScrapeResult.ok], by simp, ?_⟩
      intro i hi hr
      simp only [List.getElem_map]
      exact ⟨jsTrim_trimOf _, rfl⟩
  · intro browser1 browser2 page1 page2 h1 h2 hsame
    have o1 := scrapeWithPuppeteer_outcome_of_opened env1 url selector selectorType browser1 page1
      h1 s1
    have o2 := scrapeWithPuppeteer_outcome_of_opened env2 url selector selectorType browser2 page2
      h2 s2
    rw [← hsame.1, ← hsame.2] at o2
    refine ⟨_, o1, o2, ?_⟩
    intro nodes hq
    simp only [hq]
    constructor
    · intro hnil
      simp [hnil, ScrapeResult.failure, noElementsMessage]
    · intro hne
      have hlen : ¬ nodes.length = 0 := by
        intro h0
        exact hne (List.length_eq_zero.1 h0)
      refine ⟨nodes.map domRecord, by simp [hlen, ScrapeResult.ok], by simp, ?_⟩
      intro i hi hr
      simp only [List.getElem_map]
      refine ⟨?_, fun name hname => ?_⟩
      · rw [domRecord_text]
        exact jsTrim_trimOf _
      · simp [domRecord, attributesToObject_get, hname]

/-- Witness for C17: the example page, fetched in two environments that differ in their
database, the second call made after a first one; and rendered in two environments of which
the second has a browser whose `close` throws, so that the second call rejects. -/
theorem extraction_is_deterministic_witness :
    (∃ r : ScrapeResult,
      (ScrapingService.scrapeWithCheerio exampleEnv (.string "http://example.test/page")
        (.string "h1") St.init).2 = .ok r ∧
      (ScrapingService.scrapeWithCheerio dbFailsEnv (.string "http://example.test/page")
        (.string "h1") ⟨[Event.browserClose], some exampleBrowser⟩).2 = .ok r) ∧
    (ScrapingService.scrapeWithCheerio dbFailsEnv (.string "http://example.test/page")
        (.string "h1") ⟨[Event.browserClose], some exampleBrowser⟩).2 =
      .ok ⟨true, some [⟨"Hello", some "Hello", none, []⟩], some 1, none⟩ ∧
    (∃ r : ScrapeResult,
      (ScrapingService.scrapeWithPuppeteer exampleEnv (.string "http://example.test/page")
        (.string "h1") (.string "css") St.init).2 = .ok r ∧
      (ScrapingService.scrapeWithPuppeteer closeThrowsEnv (.string "http://example.test/page")
        (.string "h1") (.string "css") ⟨[Event.browserClose], some exampleBrowser⟩).2 =
        .error { message := "Protocol error: Connection closed." }) ∧
    (ScrapingService.scrapeWithPuppeteer exampleEnv (.string "http://example.test/page")
        (.string "h1") (.string "css") St.init).2 =
      .ok ⟨true, some [⟨"Hello", some "Hello", some "H1", []⟩], some 1, none⟩ := by
  obtain ⟨r, h1, h2, -⟩ := (extraction_is_deterministic exampleEnv dbFailsEnv
    (.string "http://example.test/page") (.string "h1") (.string "css") St.init
    ⟨[Event.browserClose], some exampleBrowser⟩).1
    ⟨200, "OK", .ok "<h1>Hello</h1>"⟩ ⟨200, "OK", .ok "<h1>Hello</h1>"⟩ "<h1>Hello</h1>"
    rfl rfl rfl rfl rfl rfl rfl
  obtain ⟨q, g1, g2, -⟩ := (extraction_is_deterministic exampleEnv closeThrowsEnv
    (.string "http://example.test/page") (.string "h1") (.string "css") St.init
    ⟨[Event.browserClose], some exampleBrowser⟩).2
    exampleBrowser brokenCloseBrowser examplePage examplePage
    ⟨rfl, rfl, rfl, rfl, rfl, rfl⟩ ⟨rfl, rfl, rfl, rfl, rfl, rfl⟩ ⟨rfl, rfl⟩
  exact ⟨⟨r, h1, h2⟩, by rfl, ⟨q, g1, g2⟩, by rfl⟩

/-! ## Requests the handler rejects -/

/-- An absent body: the destructuring throws and the outer `catch` answers 500. -/
theorem postScrape_absent_body (env : Env) :
    ((postScrape env none).run).1.log =
      [Event.consoleError "Scraping error:"
        "Cannot destructure property url of req.body as it is undefined.",
       Event.respond 500 (.message false "Internal server error during scraping")] := by
  simp [postScrape, postScrapeTry, destructureBody, Js.run, St.init, Js.tryCatch, Js.throw,
    Js.call, respond, Js.bind_apply]

/-- A falsy `url` or `selector`: the only effect is the 400 response. -/
theorem postScrape_missing_fields (env : Env) (fields : List (String × JsValue))
    (h : (getField fields "url").truthy = false ∨ (getField fields "selector").truthy = false) :
    ((postScrape env (some fields)).run).1.log =
      [Event.respond 400 (.message false "URL and selector are required")] := by
  simp [postScrape, postScrapeTry, destructureBody, Js.run, St.init, Js.tryCatch, Js.call,
    respond, Js.bind_apply, Js.pure_apply, h]

/-- A `url` that `validator.isURL` answers `false` for: the validator call, then the 400. -/
theorem postScrape_invalid_url (env : Env) (fields : List (String × JsValue))
    (hurl : (getField fields "url").truthy = true)
    (hsel : (getField fields "selector").truthy = true)
    (hv : env.validatorIsURL (getField fields "url") ["http", "https"] true = .ok false) :
    ((postScrape env (some fields)).run).1.log =
      [Event.validatorIsURL (getField fields "url"),
       Event.respond 400 (.message false "Invalid URL format")] := by
  simp [postScrape, postScrapeTry, destructureBody, Js.run, St.init, Js.tryCatch, Js.call,
    respond, Js.bind_apply, Js.pure_apply, ScrapingService.isValidUrl, hurl, hsel, hv]

/-- A `url` on which `validator.isURL` throws: the validator call, then the 500 of the outer
`catch`. -/
theorem postScrape_validator_throws (env : Env) (fields : List (String × JsValue))
    (e : JsError)
    (hurl : (getField fields "url").truthy = true)
    (hsel : (getField fields "selector").truthy = true)
    (hv : env.validatorIsURL (getField fields "url") ["http", "https"] true = .error e) :
    ((postScrape env (some fields)).run).1.log =
      [Event.validatorIsURL (getField fields "url"),
       Event.consoleError "Scraping error:" e.message,
       Event.respond 500 (.message false "Internal server error during scraping")] := by
  simp [postScrape, postScrapeTry, destructureBody, Js.run, St.init, Js.tryCatch, Js.call,
    respond, Js.bind_apply, Js.pure_apply, ScrapingService.isValidUrl, hurl, hsel, hv]

/-- A CSS selector that cheerio refuses: the validator call, the trial parse, then the 400. -/
theorem postScrape_invalid_css (env : Env) (fields : List (String × JsValue))
    (hurl : (getField fields "url").truthy = true)
    (hsel : (getField fields "selector").truthy = true)
    (hv : env.validatorIsURL (getField fields "url") ["http", "https"] true = .ok true)
    (hcss : ((getField fields "selectorType").withDefault (.string "css")).strictEqString "css"
      = true)
    (hbad : ¬ ∃ (dollar : CheerioAPI) (elements : List CheerioElement),
      env.cheerioLoad "<div></div>" = .ok dollar ∧
      dollar.select (getField fields "selector") = .ok elements) :
    ∃ trial : List Event,
      ((postScrape env (some fields)).run).1.log =
        Event.validatorIsURL (getField fields "url") ::
          (trial ++ [Event.respond 400 (.message false "Invalid CSS selector format")]) ∧
      (trial = [Event.cheerioLoad "<div></div>"] ∨
       trial = [Event.cheerioLoad "<div></div>",
                Event.cheerioSelect (getField fields "selector")]) := by
  rcases hl : env.cheerioLoad "<div></div>" with e | dollar
  · refine ⟨[Event.cheerioLoad "<div></div>"], ?_, Or.inl rfl⟩
    simp [postScrape, postScrapeTry, destructureBody, Js.run, St.init, Js.tryCatch, Js.call,
      respond, Js.bind_apply, Js.pure_apply, ScrapingService.isValidUrl,
      ScrapingService.isValidCssSelector, cssSelectorRejected, hurl, hsel, hv, hcss, hl]
  · rcases hs : dollar.select (getField fields "selector") with e | elements
    · refine ⟨[Event.cheerioLoad "<div></div>",
        Event.cheerioSelect (getField fields "selector")], ?_, Or.inr rfl⟩
      simp [postScrape, postScrapeTry, destructureBody, Js.run, St.init, Js.tryCatch, Js.call,
        respond, Js.bind_apply, Js.pure_apply, ScrapingService.isValidUrl,
        ScrapingService.isValidCssSelector, cssSelectorRejected, hurl, hsel, hv, hcss, hl, hs]
    · exact absurd ⟨dollar, elements, hl, hs⟩ hbad

/-- A request with a body is validated, or it fails one of the three checks. -/
theorem validated_or_rejected (env : Env) (fields : List (String × JsValue)) :
    Validated env fields ∨
    ((getField fields "url").truthy = false ∨ (getField fields "selector").truthy = false) ∨
    ((getField fields "url").truthy = true ∧ (getField fields "selector").truthy = true ∧
      (env.validatorIsURL (getField fields "url") ["http", "https"] true = .ok false ∨
       (∃ e, env.validatorIsURL (getField fields "url") ["http", "https"] true = .error e) ∨
       (env.validatorIsURL (getField fields "url") ["http", "https"] true = .ok true ∧
        ((getField fields "selectorType").withDefault (.string "css")).strictEqString "css"
          = true ∧
        ¬ ∃ (dollar : CheerioAPI) (elements : List CheerioElement),
          env.cheerioLoad "<div></div>" = .ok dollar ∧
          dollar.select (getField fields "selector") = .ok elements))) := by
  by_cases hurl : (getField fields "url").truthy = true
  swap
  · exact Or.inr (Or.inl (Or.inl (by simpa using hurl)))
  by_cases hsel : (getField fields "selector").truthy = true
  swap
  · exact Or.inr (Or.inl (Or.inr (by simpa using hsel)))
  rcases hv : env.validatorIsURL (getField fields "url") ["http", "https"] true with e | b
  · exact Or.inr (Or.inr ⟨hurl, hsel, Or.inr (Or.inl ⟨e, rfl⟩)⟩)
  cases b with
  | false => exact Or.inr (Or.inr ⟨hurl, hsel, Or.inl rfl⟩)
  | true =>
    by_cases hcss : ((getField fields "selectorType").withDefault (.string "css")).strictEqString
        "css" = true
    · by_cases hgood : ∃ (dollar : CheerioAPI) (elements : List CheerioElement),
          env.cheerioLoad "<div></div>" = .ok dollar ∧
          dollar.select (getField fields "selector") = .ok elements
      · exact Or.inl ⟨hurl, hsel, hv, fun _ => hgood⟩
      · exact Or.inr (Or.inr ⟨hurl, hsel, Or.inr (Or.inr ⟨rfl, hcss, hgood⟩)⟩)
    · exact Or.inl ⟨hurl, hsel, hv, fun h => absurd h hcss⟩

/-- C11: when the request has a parsed body whose `url` or `selector` is missing or falsy,
the handler of `api/routes/scraping.js` and the legacy handler of `scrapeRoutes.js` both
answer with status 400 and the message that URL and selector are required, and that response
is their only effect: no extraction method is entered, nothing is fetched, nothing is
stored. -/
theorem missing_fields_are_rejected_with_400 (env : Env) (legacyEnv : LegacyEnv)
    (fields : List (String × JsValue))
    (h : (getField fields "url").truthy = false ∨ (getField fields "selector").truthy = false) :
    ((postScrape env (some fields)).run).1.log =
        [Event.respond 400 (.message false "URL and selector are required")] ∧
      ((postScrape env (some fields)).run).2 = .ok () ∧
      ((legacyPostScrape legacyEnv (some fields)).run).1.log =
        [Event.respond 400 (.errorOnly "URL and selector are required.")] ∧
      ((legacyPostScrape legacyEnv (some fields)).run).2 = .ok () := by
  refine ⟨postScrape_missing_fields env fields h, ?_, ?_, ?_⟩
  · simp [postScrape, postScrapeTry, destructureBody, Js.run, St.init, Js.tryCatch, Js.call,
      respond, Js.bind_apply, Js.pure_apply, h]
  · simp [legacyPostScrape, destructureBody, Js.run, St.init, Js.call, respond, Js.bind_apply,
      Js.pure_apply, h]
  · simp [legacyPostScrape, destructureBody, Js.run, St.init, Js.call, respond, Js.bind_apply,
      Js.pure_apply, h]

/-- Witness for C11: a body with a selector but an empty `url`. -/
theorem missing_fields_are_rejected_with_400_witness :
    ((getField emptyUrlRequest "url").truthy = false ∨
      (getField emptyUrlRequest "selector").truthy = false) ∧
    ((postScrape exampleEnv (some emptyUrlRequest)).run).1.log =
        [Event.respond 400 (.message false "URL and selector are required")] ∧
      ((postScrape exampleEnv (some emptyUrlRequest)).run).2 = .ok () ∧
      ((legacyPostScrape legacyExampleEnv (some emptyUrlRequest)).run).1.log =
        [Event.respond 400 (.errorOnly "URL and selector are required.")] ∧
      ((legacyPostScrape legacyExampleEnv (some emptyUrlRequest)).run).2 = .ok () :=
  ⟨Or.inl rfl,
    missing_fields_are_rejected_with_400 exampleEnv legacyExampleEnv emptyUrlRequest
      (Or.inl rfl)⟩

/-- A request without a parsed body has neither `url` nor `selector`, yet it is not answered
with 400: the handler of `api/routes/scraping.js` answers 500 from its `catch`, and the legacy
handler, whose destructuring stands before the `try`, throws without sending anything. -/
theorem absent_body_is_not_answered_with_400 :
    ((postScrape exampleEnv none).run).1.log =
        [Event.consoleError "Scraping error:"
          "Cannot destructure property url of req.body as it is undefined.",
         Event.respond 500 (.message false "Internal server error during scraping")] ∧
      ((legacyPostScrape legacyExampleEnv none).run).1.log = [] ∧
      ((legacyPostScrape legacyExampleEnv none).run).2 =
        .error { message := "Cannot destructure property url of req.body as it is undefined." } :=
  ⟨by rfl, by rfl, by rfl⟩

/-! ## URL validation -/

theorem rejected_request_log (fields : List (String × JsValue)) (env : Env)
    (h : ¬ Validated env fields) :
    ∀ e ∈ ((postScrape env (some fields)).run).1.log,
      e.isInvoke = false ∧ e.isStore = false ∧ e.isFetch = false := by
  rcases validated_or_rejected env fields with hv | hmiss | ⟨hurl, hsel, hf | ⟨e, he⟩ | ⟨ht, hcss, hbad⟩⟩
  · exact absurd hv h
  · rw [postScrape_missing_fields env fields hmiss]
    intro e he
    simp only [List.mem_singleton] at he
    subst he
    exact ⟨rfl, rfl, rfl⟩
  · rw [postScrape_invalid_url env fields hurl hsel hf]
    intro e he
    simp only [List.mem_cons, List.mem_singleton, List.not_mem_nil, or_false] at he
    rcases he with he | he <;> subst he <;> exact ⟨rfl, rfl, rfl⟩
  · rw [postScrape_validator_throws env fields e hurl hsel he]
    intro e he
    simp only [List.mem_cons, List.mem_singleton, List.not_mem_nil, or_false] at he
    rcases he with he | he | he <;> subst he <;> exact ⟨rfl, rfl, rfl⟩
  · obtain ⟨trial, hlog, htrial⟩ := postScrape_invalid_css env fields hurl hsel ht hcss hbad
    rw [hlog]
    intro e he
    rcases htrial with htrial | htrial <;> subst htrial <;>
      simp only [List.mem_cons, List.mem_append, List.mem_singleton, List.not_mem_nil,
        or_false] at he
    · rcases he with he | he | he <;> subst he <;> exact ⟨rfl, rfl, rfl⟩
    · rcases he with he | (he | he) | he <;> subst he <;> exact ⟨rfl, rfl, rfl⟩

/-- C12, as the code has it: past the required-fields check, a `url` for which
`validator.isURL` answers `false` is rejected with status 400 and `Invalid URL format`, and
a `url` on which it throws (a value that is not a string) is answered with status 500 by the
outer `catch`; in both cases the validator call and the response are the only effects, so
nothing is fetched, no browser is launched and nothing is stored. Conversely an extraction
method is entered only when the body holds a truthy `url` for which `validator.isURL`
answered `true` and a truthy `selector`. -/
theorem invalid_url_is_rejected_before_extraction (env : Env)
    (body : Option (List (String × JsValue))) :
    (∀ fields : List (String × JsValue), body = some fields →
      (getField fields "url").truthy = true → (getField fields "selector").truthy = true →
      env.validatorIsURL (getField fields "url") ["http", "https"] true = .ok false →
      ((postScrape env body).run).1.log =
        [Event.validatorIsURL (getField fields "url"),
         Event.respond 400 (.message false "Invalid URL format")]) ∧
    (∀ (fields : List (String × JsValue)) (e : JsError), body = some fields →
      (getField fields "url").truthy = true → (getField fields "selector").truthy = true →
      env.validatorIsURL (getField fields "url") ["http", "https"] true = .error e →
      ((postScrape env body).run).1.log =
        [Event.validatorIsURL (getField fields "url"),
         Event.consoleError "Scraping error:" e.message,
         Event.respond 500 (.message false "Internal server error during scraping")]) ∧
    ((∃ ev ∈ ((postScrape env body).run).1.log, ev.isInvoke = true) →
      ∃ fields : List (String × JsValue), body = some fields ∧
        (getField fields "url").truthy = true ∧ (getField fields "selector").truthy = true ∧
        env.validatorIsURL (getField fields "url") ["http", "https"] true = .ok true) := by
  refine ⟨?_, ?_, ?_⟩
  · intro fields hb hurl hsel hv
    subst hb
    exact postScrape_invalid_url env fields hurl hsel hv
  · intro fields e hb hurl hsel hv
    subst hb
    exact postScrape_validator_throws env fields e hurl hsel hv
  · rintro ⟨ev, hmem, hinv⟩
    cases body with
    | none =>
      rw [postScrape_absent_body] at hmem
      simp only [List.mem_cons, List.mem_singleton, List.not_mem_nil, or_false] at hmem
      rcases hmem with h | h <;> subst h <;> simp [Event.isInvoke] at hinv
    | some fields =>
      by_cases hval : Validated env fields
      · exact ⟨fields, rfl, hval.1, hval.2.1, hval.2.2.1⟩
      · have := (rejected_request_log fields env hval ev hmem).1
        rw [this] at hinv
        exact absurd hinv (by decide)

/-- Witness for C12: an `ftp` address is answered with 400 and `Invalid URL format`. -/
theorem invalid_url_is_rejected_before_extraction_witness :
    (getField [("url", JsValue.string "ftp://example.test/page"),
      ("selector", JsValue.string "h1")] "url").truthy = true ∧
    (getField [("url", JsValue.string "ftp://example.test/page"),
      ("selector", JsValue.string "h1")] "selector").truthy = true ∧
    exampleEnv.validatorIsURL (.string "ftp://example.test/page") ["http", "https"] true =
      .ok false ∧
    ((postScrape exampleEnv (some [("url", JsValue.string "ftp://example.test/page"),
        ("selector", JsValue.string "h1")])).run).1.log =
      [Event.validatorIsURL (.string "ftp://example.test/page"),
       Event.respond 400 (.message false "Invalid URL format")] :=
  ⟨rfl, rfl, rfl,
    (invalid_url_is_rejected_before_extraction exampleEnv
      (some [("url", JsValue.string "ftp://example.test/page"),
        ("selector", JsValue.string "h1")])).1 _ rfl rfl rfl rfl⟩

/-- C12 fails as stated: a number sent as `url` makes `validator.isURL` throw, and the answer
is status 500, not 400 with `Invalid URL format`; and an empty `url`, which is no valid URL
either, is answered by the earlier check with `URL and selector are required`. -/
theorem number_url_answered_with_500 :
    ((postScrape exampleEnv (some numberUrlRequest)).run).1.log =
      [Event.validatorIsURL (.number 42),
       Event.consoleError "Scraping error:" "Expected a string",
       Event.respond 500 (.message false "Internal server error during scraping")] ∧
    ((postScrape exampleEnv (some emptyUrlRequest)).run).1.log =
      [Event.respond 400 (.message false "URL and selector are required")] := by
  constructor <;> rfl

/-! ## Defaults of the optional fields -/

theorem getField_append_singleton (fields : List (String × JsValue)) (key name : String)
    (value : JsValue) :
    getField (fields ++ [(key, value)]) name =
      if name = key then value else getField fields name := by
  unfold getField
  rw [List.reverse_append, List.reverse_singleton, List.singleton_append]
  by_cases hk : name = key
  · subst hk
    simp
  · have hb : (name == key) = false := by simpa using hk
    simp [List.lookup_cons, hb, hk]

/-- The handler reads the body through the four destructured values only. -/
theorem postScrape_congr (env : Env) (fields1 fields2 : List (String × JsValue))
    (hurl : getField fields1 "url" = getField fields2 "url")
    (hsel : getField fields1 "selector" = getField fields2 "selector")
    (hty : (getField fields1 "selectorType").withDefault (.string "css") =
      (getField fields2 "selectorType").withDefault (.string "css"))
    (hup : (getField fields1 "usePuppeteer").withDefault (.bool false) =
      (getField fields2 "usePuppeteer").withDefault (.bool false)) :
    postScrape env (some fields1) = postScrape env (some fields2) := by
  have htry : postScrapeTry env (some fields1) = postScrapeTry env (some fields2) := by
    funext s
    simp only [postScrapeTry, destructureBody, Js.bind_apply, Js.pure_apply, hurl, hsel, hty, hup]
  unfold postScrape
  rw [htry]

/-- C13: a body without `selectorType` is handled exactly as the same body with
`selectorType` `css`, and a body without `usePuppeteer` exactly as the same body with
`usePuppeteer` `false`: the two handler computations are equal, so validation, the path
chosen, the record stored and the response are the same. -/
theorem omitted_fields_take_defaults (env : Env) (fields : List (String × JsValue)) :
    (getField fields "selectorType" = .undefined →
      postScrape env (some (fields ++ [("selectorType", .string "css")])) =
        postScrape env (some fields)) ∧
    (getField fields "usePuppeteer" = .undefined →
      postScrape env (some (fields ++ [("usePuppeteer", .bool false)])) =
        postScrape env (some fields)) := by
  constructor
  · intro h
    apply postScrape_congr
    · rw [getField_append_singleton]
      simp
    · rw [getField_append_singleton]
      simp
    · rw [getField_append_singleton, h]
      simp [JsValue.withDefault]
    · rw [getField_append_singleton]
      simp
  · intro h
    apply postScrape_congr
    · rw [getField_append_singleton]
      simp
    · rw [getField_append_singleton]
      simp
    · rw [getField_append_singleton]
      simp
    · rw [getField_append_singleton, h]
      simp [JsValue.withDefault]

/-- Witness for C13: the example request without its two optional fields. -/
theorem omitted_fields_take_defaults_witness :
    getField shortRequest "selectorType" = .undefined ∧
    getField shortRequest "usePuppeteer" = .undefined ∧
    postScrape exampleEnv (some (shortRequest ++ [("selectorType", .string "css")])) =
      postScrape exampleEnv (some shortRequest) ∧
    postScrape exampleEnv (some (shortRequest ++ [("usePuppeteer", .bool false)])) =
      postScrape exampleEnv (some shortRequest) :=
  ⟨rfl, rfl, (omitted_fields_take_defaults exampleEnv shortRequest).1 rfl,
    (omitted_fields_take_defaults exampleEnv shortRequest).2 rfl⟩

/-! ## What is stored and what is answered -/

/-- The whole log of the handler on a validated request. -/
theorem postScrape_validated_log (env : Env) (fields : List (String × JsValue))
    (hv : Validated env fields) :
    ∃ t : List Event,
      (∀ e ∈ t, e.isExtraction = true) ∧
      ((postScrape env (some fields)).run).1.log =
        validationEvents (getField fields "url") (getField fields "selector")
            ((getField fields "selectorType").withDefault (.string "css")) ++
          chosenInvoke (getField fields "url") (getField fields "selector")
            ((getField fields "selectorType").withDefault (.string "css"))
            ((getField fields "usePuppeteer").withDefault (.bool false)) ::
          (t ++ storeAndAnswerEvents env (getField fields "url") (getField fields "selector")
            ((getField fields "selectorType").withDefault (.string "css"))
            ((extract env (getField fields "url") (getField fields "selector")
              ((getField fields "selectorType").withDefault (.string "css"))
              ((getField fields "usePuppeteer").withDefault (.bool false))).run).2) := by
  obtain ⟨t, ht, hext⟩ := extract_log env (getField fields "url") (getField fields "selector")
    ((getField fields "selectorType").withDefault (.string "css"))
    ((getField fields "usePuppeteer").withDefault (.bool false))
    ⟨validationEvents (getField fields "url") (getField fields "selector")
      ((getField fields "selectorType").withDefault (.string "css")), none⟩
  obtain ⟨_, _, hout⟩ := Js.framed_from_run
    (extract_framed env (getField fields "url") (getField fields "selector")
      ((getField fields "selectorType").withDefault (.string "css"))
      ((getField fields "usePuppeteer").withDefault (.bool false)))
    ⟨validationEvents (getField fields "url") (getField fields "selector")
      ((getField fields "selectorType").withDefault (.string "css")), none⟩ rfl
  rw [← hout]
  have hrun : (postScrape env (some fields)).run =
      Js.tryCatch (postScrapeTry env (some fields))
        (fun error => do
          Js.call (Event.consoleError "Scraping error:" error.message) (.ok ())
          respond 500 (.message false "Internal server error during scraping")) St.init := rfl
  rw [hrun]
  unfold Js.tryCatch
  rw [postScrapeTry_of_validated env fields hv, scrapeStoreRespond_apply]
  simp only [St.init, List.nil_append]
  rcases hex : extract env (getField fields "url") (getField fields "selector")
      ((getField fields "selectorType").withDefault (.string "css"))
      ((getField fields "usePuppeteer").withDefault (.bool false))
      ⟨validationEvents (getField fields "url") (getField fields "selector")
        ((getField fields "selectorType").withDefault (.string "css")), none⟩ with ⟨s1, r1⟩
  rw [hex] at ht
  have hlog : s1.log = _ := ht
  refine ⟨t, hext, ?_⟩
  cases r1 with
  | error e => simp [Js.bind_apply, Js.call, respond, hlog, storeAndAnswerEvents]
  | ok r => simp [hlog, storeAndAnswerEvents]

theorem insertedRecords_append (l1 l2 : List Event) :
    insertedRecords (l1 ++ l2) = insertedRecords l1 ++ insertedRecords l2 := by
  unfold insertedRecords
  rw [List.filterMap_append]

theorem insertedRecords_of_extraction (t : List Event) (h : ∀ e ∈ t, e.isExtraction = true) :
    insertedRecords t = [] := by
  unfold insertedRecords
  rw [List.filterMap_eq_nil_iff]
  intro e he
  have := h e he
  cases e <;> simp_all [Event.isExtraction]

theorem insertedRecords_validationEvents (url selector selectorType : JsValue) :
    insertedRecords (validationEvents url selector selectorType) = [] := by
  unfold validationEvents insertedRecords
  split <;> rfl

theorem insertedRecords_chosenInvoke (url selector selectorType usePuppeteer : JsValue) :
    insertedRecords [chosenInvoke url selector selectorType usePuppeteer] = [] := by
  unfold chosenInvoke insertedRecords
  split <;> rfl

theorem insertedRecords_storeAndAnswerEvents (env : Env) (url selector selectorType : JsValue)
    (outcome : Except JsError ScrapeResult) :
    insertedRecords (storeAndAnswerEvents env url selector selectorType outcome) =
      (match outcome with
       | .ok r => [makeDbRecord env url selector selectorType r]
       | .error _ => []) := by
  cases outcome with
  | error e => rfl
  | ok r =>
    rcases hdb : env.insertScrapingRecord (makeDbRecord env url selector selectorType r)
      with e | u <;> simp [storeAndAnswerEvents, insertedRecords, hdb]

theorem responses_storeAndAnswerEvents (env : Env) (url selector selectorType : JsValue)
    (outcome : Except JsError ScrapeResult) :
    responses (storeAndAnswerEvents env url selector selectorType outcome) =
      [match outcome with
       | .ok r => Event.respond 200 (.result r)
       | .error _ =>
         Event.respond 500 (.message false "Internal server error during scraping")] := by
  cases outcome with
  | error e => rfl
  | ok r =>
    rcases hdb : env.insertScrapingRecord (makeDbRecord env url selector selectorType r)
      with e | u <;> simp [storeAndAnswerEvents, responses, Event.isRespond, hdb]

/-- On a validated request the records handed to the database and the responses sent are
determined by what the extraction returned. -/
theorem postScrape_validated_effects (env : Env) (fields : List (String × JsValue))
    (hv : Validated env fields) :
    insertedRecords ((postScrape env (some fields)).run).1.log =
      (match ((extract env (getField fields "url") (getField fields "selector")
          ((getField fields "selectorType").withDefault (.string "css"))
          ((getField fields "usePuppeteer").withDefault (.bool false))).run).2 with
       | .ok r =>
         [makeDbRecord env (getField fields "url") (getField fields "selector")
           ((getField fields "selectorType").withDefault (.string "css")) r]
       | .error _ => []) ∧
    responses ((postScrape env (some fields)).run).1.log =
      [match ((extract env (getField fields "url") (getField fields "selector")
          ((getField fields "selectorType").withDefault (.string "css"))
          ((getField fields "usePuppeteer").withDefault (.bool false))).run).2 with
       | .ok r => Event.respond 200 (.result r)
       | .error _ =>
         Event.respond 500 (.message false "Internal server error during scraping")] := by
  obtain ⟨t, ht, hlog⟩ := postScrape_validated_log env fields hv
  rw [hlog]
  constructor
  · rw [insertedRecords_append, insertedRecords_validationEvents, List.nil_append,
      ← List.singleton_append, insertedRecords_append, insertedRecords_chosenInvoke,
      List.nil_append, insertedRecords_append, insertedRecords_of_extraction t ht,
      List.nil_append, insertedRecords_storeAndAnswerEvents]
  · have h1 := responses_validationEvents (getField fields "url") (getField fields "selector")
      ((getField fields "selectorType").withDefault (.string "css"))
    have h2 := responses_of_extraction t ht
    have h3 := responses_storeAndAnswerEvents env (getField fields "url")
      (getField fields "selector") ((getField fields "selectorType").withDefault (.string "css"))
      ((extract env (getField fields "url") (getField fields "selector")
        ((getField fields "selectorType").withDefault (.string "css"))
        ((getField fields "usePuppeteer").withDefault (.bool false))).run).2
    unfold responses at h1 h2 h3 ⊢
    rw [List.filter_append, List.filter_cons, chosenInvoke_isRespond, List.filter_append,
      h1, h2, h3]
    rfl

theorem example_validated_down : Validated exampleEnv downRequest :=
  ⟨rfl, rfl, rfl, fun _ => ⟨emptyDollar, [], rfl, rfl⟩⟩

theorem example_validated_rendered : Validated exampleEnv renderedRequest :=
  ⟨rfl, rfl, rfl, fun _ => ⟨emptyDollar, [], rfl, rfl⟩⟩

/-- C14, as the code has it: whenever the extraction method returns a result, success or
failure, exactly one record is handed to `database.insertScrapingRecord`; its `url`,
`selector` and `selectorType` are the request values (the default `css` for an omitted
`selectorType`); on success `status` is `success` and `content` the JSON text of the
elements; on failure `status` is `failed`, `content` is null and `errorMessage` is the
failure reason, or null when the reason is the empty string. -/
theorem one_record_is_stored_per_result (env : Env) (fields : List (String × JsValue))
    (r : ScrapeResult) (hv : Validated env fields)
    (hr : ((extract env (getField fields "url") (getField fields "selector")
        ((getField fields "selectorType").withDefault (.string "css"))
        ((getField fields "usePuppeteer").withDefault (.bool false))).run).2 = .ok r) :
    ∃ record : DbRecord,
      insertedRecords ((postScrape env (some fields)).run).1.log = [record] ∧
      record.url = getField fields "url" ∧
      record.selector = getField fields "selector" ∧
      record.selectorType = (getField fields "selectorType").withDefault (.string "css") ∧
      (r.success = true →
        record.status = "success" ∧ record.content = some (env.jsonStringify r.content)) ∧
      (r.success = false →
        record.status = "failed" ∧ record.content = none ∧
        ∃ reason : String, r.error = some reason ∧
          record.errorMessage = if reason = "" then none else some reason) := by
  have h := (postScrape_validated_effects env fields hv).1
  rw [hr] at h
  refine ⟨_, h, rfl, rfl, rfl, ?_, ?_⟩
  · intro hs
    simp [makeDbRecord, hs]
  · intro hs
    rcases extract_wellShaped env _ _ _ _ St.init r hr with ⟨reason, hreason⟩ | ⟨records, _, hok⟩
    · subst hreason
      refine ⟨by simp [makeDbRecord, ScrapeResult.failure],
        by simp [makeDbRecord, ScrapeResult.failure], reason, rfl, ?_⟩
      simp [makeDbRecord, ScrapeResult.failure]
    · rw [hok] at hs
      simp [ScrapeResult.ok] at hs

/-- Witness for C14: an address that cannot be reached gives a failure with the message of
the network error and one record with status `failed`. -/
theorem one_record_is_stored_per_result_witness :
    Validated exampleEnv downRequest ∧
    ((extract exampleEnv (getField downRequest "url") (getField downRequest "selector")
        ((getField downRequest "selectorType").withDefault (.string "css"))
        ((getField downRequest "usePuppeteer").withDefault (.bool false))).run).2 =
      .ok (ScrapeResult.failure "fetch failed") ∧
    (∃ record : DbRecord,
      insertedRecords ((postScrape exampleEnv (some downRequest)).run).1.log = [record] ∧
      record.url = getField downRequest "url" ∧
      record.selector = getField downRequest "selector" ∧
      record.selectorType = (getField downRequest "selectorType").withDefault (.string "css") ∧
      ((ScrapeResult.failure "fetch failed").success = true →
        record.status = "success" ∧
        record.content =
          some (exampleEnv.jsonStringify (ScrapeResult.failure "fetch failed").content)) ∧
      ((ScrapeResult.failure "fetch failed").success = false →
        record.status = "failed" ∧ record.content = none ∧
        ∃ reason : String, (ScrapeResult.failure "fetch failed").error = some reason ∧
          record.errorMessage = if reason = "" then none else some reason)) ∧
    insertedRecords ((postScrape exampleEnv (some downRequest)).run).1.log =
      [⟨.string "http://example.test/down", .string "h1", .string "css", none, "failed",
        some "fetch failed"⟩] :=
  ⟨example_validated_down, rfl,
    one_record_is_stored_per_result exampleEnv downRequest (ScrapeResult.failure "fetch failed")
      example_validated_down rfl,
    rfl⟩

/-- C14 fails as stated in two places. A failure whose reason is the empty string is stored
with `errorMessage` null, not with the reason. And a call that reaches `scrapeWithPuppeteer`
whose `browser.close()` throws hands no record to the database at all. -/
theorem empty_reason_stored_as_null :
    ((extract emptyReasonEnv (.string "http://example.test/page") (.string "h1")
        (.string "css") (.bool false)).run).2 = .ok ⟨false, none, none, some ""⟩ ∧
    insertedRecords ((postScrape emptyReasonEnv (some helloRequest)).run).1.log =
      [⟨.string "http://example.test/page", .string "h1", .string "css", none, "failed",
        none⟩] ∧
    Event.invoke "scrapeWithPuppeteer"
        [.string "http://example.test/page", .string "h1", .string "css"] ∈
      ((postScrape closeThrowsEnv (some renderedRequest)).run).1.log ∧
    insertedRecords ((postScrape closeThrowsEnv (some renderedRequest)).run).1.log = [] := by
  refine ⟨rfl, rfl, ?_, rfl⟩
  decide

/-! ## The response does not depend on the database -/

/-- C15: on a request that reaches the extractor, the responses sent are the same whatever
`database.insertScrapingRecord` does, succeed or throw; when the extraction returned `r`, the
single response is `r` itself with status 200. -/
theorem response_ignores_database_outcome (env : Env) (fields : List (String × JsValue))
    (db : DbRecord → Except JsError Unit) (hv : Validated env fields) :
    responses ((postScrape { env with insertScrapingRecord := db } (some fields)).run).1.log =
        responses ((postScrape env (some fields)).run).1.log ∧
      (∀ r : ScrapeResult,
        ((extract env (getField fields "url") (getField fields "selector")
          ((getField fields "selectorType").withDefault (.string "css"))
          ((getField fields "usePuppeteer").withDefault (.bool false))).run).2 = .ok r →
        responses ((postScrape { env with insertScrapingRecord := db } (some fields)).run).1.log =
          [Event.respond 200 (.result r)]) := by
  have hv2 : Validated { env with insertScrapingRecord := db } fields := hv
  have h1 := (postScrape_validated_effects env fields hv).2
  have h2 := (postScrape_validated_effects { env with insertScrapingRecord := db } fields hv2).2
  have hsame : extract { env with insertScrapingRecord := db } (getField fields "url")
      (getField fields "selector") ((getField fields "selectorType").withDefault (.string "css"))
      ((getField fields "usePuppeteer").withDefault (.bool false)) =
      extract env (getField fields "url") (getField fields "selector")
        ((getField fields "selectorType").withDefault (.string "css"))
        ((getField fields "usePuppeteer").withDefault (.bool false)) := rfl
  rw [hsame] at h2
  refine ⟨h2.trans h1.symm, ?_⟩
  intro r hr
  rw [h2, hr]

/-- Witness for C15: the example request, with a database that rejects every insert. -/
theorem response_ignores_database_outcome_witness :
    Validated exampleEnv helloRequest ∧
    responses ((postScrape
        { exampleEnv with insertScrapingRecord := fun _ => .error { message := "SQLITE_BUSY" } }
        (some helloRequest)).run).1.log =
      responses ((postScrape exampleEnv (some helloRequest)).run).1.log ∧
    responses ((postScrape exampleEnv (some helloRequest)).run).1.log =
      [Event.respond 200
        (.result ⟨true, some [⟨"Hello", some "Hello", none, []⟩], some 1, none⟩)] :=
  ⟨example_validated_hello,
    (response_ignores_database_outcome exampleEnv helloRequest
      (fun _ => .error { message := "SQLITE_BUSY" }) example_validated_hello).1,
    rfl⟩

/-! ## The shape of the response bodies -/

/-- A well-shaped result reads as the response shape of the specification. -/
theorem ScrapeResult.shape_of_wellShaped (r : ScrapeResult) (h : r.WellShaped) :
    (r.success = true ↔ ∃ records : List ElementRecord, records ≠ [] ∧ r.content = some records) ∧
    (r.success = true → r.count = r.content.map List.length ∧ r.error = none) ∧
    (r.success = false ↔ r.content = none) ∧
    (r.success = false → (∃ reason : String, r.error = some reason) ∧ r.count = none) := by
  rcases h with ⟨reason, rfl⟩ | ⟨records, hne, rfl⟩
  · simp [ScrapeResult.failure]
  · simp [ScrapeResult.ok, hne]

theorem mem_responses_of_mem (log : List Event) (status : Nat) (b : ResponseBody)
    (h : Event.respond status b ∈ log) : Event.respond status b ∈ responses log := by
  unfold responses
  rw [List.mem_filter]
  exact ⟨h, rfl⟩

/-- C16, as the code has it: a response body of `POST /scrape` is either an extraction
result, sent with status 200, in the shape of the specification (`success` true exactly with
a non-empty `content` list, then `count` is its length and `error` is absent; `success` false
exactly with `content` null, then `error` is a string and `count` is absent), or the object
`{ success: false, error }` of a 400 or 500 answer, which has no `content` key at all. -/
theorem response_bodies_have_two_shapes (env : Env) (body : Option (List (String × JsValue)))
    (status : Nat) (b : ResponseBody)
    (h : Event.respond status b ∈ ((postScrape env body).run).1.log) :
    (∃ r : ScrapeResult, b = .result r ∧ status = 200 ∧
      (r.success = true ↔
        ∃ records : List ElementRecord, records ≠ [] ∧ r.content = some records) ∧
      (r.success = true → r.count = r.content.map List.length ∧ r.error = none) ∧
      (r.success = false ↔ r.content = none) ∧
      (r.success = false → (∃ reason : String, r.error = some reason) ∧ r.count = none)) ∨
    (∃ msg : String, b = .message false msg ∧ (status = 400 ∨ status = 500) ∧
      b.hasContentKey = false) := by
  cases body with
  | none =>
    rw [postScrape_absent_body] at h
    simp only [List.mem_cons, List.mem_singleton, List.not_mem_nil, or_false] at h
    rcases h with h | h
    · cases h
    · injection h with h1 h2
      subst h1 h2
      exact Or.inr ⟨_, rfl, Or.inr rfl, rfl⟩
  | some fields =>
    rcases validated_or_rejected env fields with
      hv | hmiss | ⟨hurl, hsel, hf | ⟨e, he⟩ | ⟨ht, hcss, hbad⟩⟩
    · have hmem := mem_responses_of_mem _ status b h
      rw [(postScrape_validated_effects env fields hv).2] at hmem
      simp only [List.mem_singleton] at hmem
      rcases hex : ((extract env (getField fields "url") (getField fields "selector")
          ((getField fields "selectorType").withDefault (.string "css"))
          ((getField fields "usePuppeteer").withDefault (.bool false))).run).2 with e | r
      · rw [hex] at hmem
        injection hmem with h1 h2
        subst h1 h2
        exact Or.inr ⟨_, rfl, Or.inr rfl, rfl⟩
      · rw [hex] at hmem
        injection hmem with h1 h2
        subst h1 h2
        exact Or.inl ⟨r, rfl, rfl,
          ScrapeResult.shape_of_wellShaped r (extract_wellShaped env _ _ _ _ St.init r hex)⟩
    · rw [postScrape_missing_fields env fields hmiss] at h
      simp only [List.mem_singleton] at h
      injection h with h1 h2
      subst h1 h2
      exact Or.inr ⟨_, rfl, Or.inl rfl, rfl⟩
    · rw [postScrape_invalid_url env fields hurl hsel hf] at h
      simp only [List.mem_cons, List.mem_singleton, List.not_mem_nil, or_false] at h
      rcases h with h | h
      · cases h
      · injection h with h1 h2
        subst h1 h2
        exact Or.inr ⟨_, rfl, Or.inl rfl, rfl⟩
    · rw [postScrape_validator_throws env fields e hurl hsel he] at h
      simp only [List.mem_cons, List.mem_singleton, List.not_mem_nil, or_false] at h
      rcases h with h | h | h
      · cases h
      · cases h
      · injection h with h1 h2
        subst h1 h2
        exact Or.inr ⟨_, rfl, Or.inr rfl, rfl⟩
    · obtain ⟨trial, hlog, htrial⟩ := postScrape_invalid_css env fields hurl hsel ht hcss hbad
      rw [hlog] at h
      rcases htrial with htrial | htrial <;> subst htrial <;>
        simp only [List.mem_cons, List.mem_append, List.mem_singleton, List.not_mem_nil,
          or_false] at h
      · rcases h with h | h | h
        · cases h
        · cases h
        · injection h with h1 h2
          subst h1 h2
          exact Or.inr ⟨_, rfl, Or.inl rfl, rfl⟩
      · rcases h with h | (h | h) | h
        · cases h
        · cases h
        · cases h
        · injection h with h1 h2
          subst h1 h2
          exact Or.inr ⟨_, rfl, Or.inl rfl, rfl⟩

/-- Witness for C16: the response to the example request is the success result with one
record and count 1. -/
theorem response_bodies_have_two_shapes_witness :
    Event.respond 200 (.result ⟨true, some [⟨"Hello", some "Hello", none, []⟩], some 1, none⟩) ∈
      ((postScrape exampleEnv (some helloRequest)).run).1.log ∧
    ((∃ r : ScrapeResult,
      ResponseBody.result ⟨true, some [⟨"Hello", some "Hello", none, []⟩], some 1, none⟩ =
        .result r ∧ 200 = 200 ∧
      (r.success = true ↔
        ∃ records : List ElementRecord, records ≠ [] ∧ r.content = some records) ∧
      (r.success = true → r.count = r.content.map List.length ∧ r.error = none) ∧
      (r.success = false ↔ r.content = none) ∧
      (r.success = false → (∃ reason : String, r.error = some reason) ∧ r.count = none)) ∨
    (∃ msg : String,
      ResponseBody.result ⟨true, some [⟨"Hello", some "Hello", none, []⟩], some 1, none⟩ =
        .message false msg ∧ (200 = 400 ∨ 200 = 500) ∧
      (ResponseBody.result
        ⟨true, some [⟨"Hello", some "Hello", none, []⟩], some 1, none⟩).hasContentKey = false)) :=
  ⟨by decide,
    response_bodies_have_two_shapes exampleEnv (some helloRequest) 200 _ (by decide)⟩

/-- C16 fails as stated for the bodies of rejected requests: an empty body object is answered
with `{ success: false, error }`, in which `success` is false although `content` is not null:
the body has no `content` key. -/
theorem rejection_body_has_no_content :
    ((postScrape exampleEnv (some [])).run).1.log =
      [Event.respond 400 (.message false "URL and selector are required")] ∧
    (ResponseBody.message false "URL and selector are required").hasContentKey = false := by
  constructor <;> rfl

/-! ## Timeouts -/

theorem scrapeWithCheerio_suspensions (env : Env) (url selector : JsValue) :
    Js.Emits
      (fun e => e.isBoundedSuspension = true → e = Event.fetch url [("User-Agent", userAgent)])
      (ScrapingService.scrapeWithCheerio env url selector) := by
  unfold ScrapingService.scrapeWithCheerio
  refine Js.emits_bind (Js.emits_call _ _ _ (by simp [Event.isBoundedSuspension])) (fun _ => ?_)
  refine Js.emits_tryCatch
    (Js.emits_bind (Js.emits_call _ _ _ (by simp [Event.isBoundedSuspension]))
      (fun response => ?_))
    (fun e => Js.emits_pure _ _)
  split
  · exact Js.emits_throw _ _
  · refine Js.emits_bind (Js.emits_call _ _ _ (by simp [Event.isBoundedSuspension]))
      (fun html => ?_)
    refine Js.emits_bind (Js.emits_call _ _ _ (by simp [Event.isBoundedSuspension]))
      (fun dollar => ?_)
    refine Js.emits_bind (Js.emits_call _ _ _ (by simp [Event.isBoundedSuspension]))
      (fun elements => ?_)
    split <;> exact Js.emits_pure _ _

theorem scrapeWithPuppeteer_suspensions (env : Env) (url selector selectorType : JsValue) :
    Js.Emits
      (fun e =>
        (e.isBoundedSuspension = true →
          e = Event.puppeteerLaunch true launchArgs ∨ e = Event.goto url "networkidle2" 30000) ∧
        (∀ ms : Nat, e = Event.waitForTimeout ms → ms = 2000))
      (ScrapingService.scrapeWithPuppeteer env url selector selectorType) := by
  unfold ScrapingService.scrapeWithPuppeteer
  refine Js.emits_bind (Js.emits_call _ _ _ (by simp [Event.isBoundedSuspension])) (fun _ => ?_)
  refine Js.emits_bind (Js.emits_setBrowser _ _) (fun _ => ?_)
  refine Js.emits_tryCatchFinally ?_ (fun e => Js.emits_pure _ _) ?_
  · unfold puppeteerTryBlock puppeteerLaunchPage puppeteerNavigate puppeteerSettle
      puppeteerExtract
    refine Js.emits_bind ?_ (fun page => ?_)
    · refine Js.emits_bind (Js.emits_call _ _ _ (by simp [Event.isBoundedSuspension]))
        (fun browser => ?_)
      refine Js.emits_bind (Js.emits_setBrowser _ _) (fun _ => ?_)
      refine Js.emits_bind (Js.emits_call _ _ _ (by simp [Event.isBoundedSuspension]))
        (fun page => ?_)
      refine Js.emits_bind (Js.emits_call _ _ _ (by simp [Event.isBoundedSuspension]))
        (fun _ => ?_)
      exact Js.emits_bind (Js.emits_call _ _ _ (by simp [Event.isBoundedSuspension]))
        (fun _ => Js.emits_pure _ _)
    · refine Js.emits_bind (Js.emits_call _ _ _ (by simp [Event.isBoundedSuspension]))
        (fun _ => ?_)
      refine Js.emits_bind (Js.emits_call _ _ _ (by simp [Event.isBoundedSuspension]))
        (fun _ => ?_)
      refine Js.emits_bind ?_ (fun results => ?_)
      · unfold puppeteerEvaluate
        split <;> exact Js.emits_call _ _ _ (by simp [Event.isBoundedSuspension])
      · cases results with
        | none => exact Js.emits_pure _ _
        | some rs =>
          simp only
          split <;> exact Js.emits_pure _ _
  · unfold puppeteerFinally
    refine Js.emits_bind (Js.emits_getBrowser _) (fun b => ?_)
    cases b with
    | none => exact Js.emits_pure _ _
    | some browser => exact Js.emits_call _ _ _ (by simp [Event.isBoundedSuspension])

/-- C19, as the code has it: of the suspension points the specification names, only the
page navigation is issued with an explicit timeout, 30000 ms; the `fetch` of the static path
and `puppeteer.launch` are issued without one; the settle delay is the constant 2000 ms. -/
theorem only_navigation_carries_a_timeout (env : Env) (url selector selectorType : JsValue) :
    (∀ e ∈ ((ScrapingService.scrapeWithCheerio env url selector).run).1.log,
      e.isBoundedSuspension = true →
        e = Event.fetch url [("User-Agent", userAgent)] ∧ e.timeoutOption = none) ∧
    (∀ e ∈ ((ScrapingService.scrapeWithPuppeteer env url selector selectorType).run).1.log,
      e.isBoundedSuspension = true →
        (e = Event.puppeteerLaunch true launchArgs ∧ e.timeoutOption = none) ∨
        (e = Event.goto url "networkidle2" 30000 ∧ e.timeoutOption = some 30000)) ∧
    (∀ e ∈ ((ScrapingService.scrapeWithPuppeteer env url selector selectorType).run).1.log,
      ∀ ms : Nat, e = Event.waitForTimeout ms → ms = 2000) := by
  obtain ⟨t1, h1, p1⟩ := scrapeWithCheerio_suspensions env url selector St.init
  obtain ⟨t2, h2, p2⟩ := scrapeWithPuppeteer_suspensions env url selector selectorType St.init
  have e1 : ((ScrapingService.scrapeWithCheerio env url selector).run).1.log = t1 := by
    rw [Js.run, h1]
    rfl
  have e2 : ((ScrapingService.scrapeWithPuppeteer env url selector selectorType).run).1.log
      = t2 := by
    rw [Js.run, h2]
    rfl
  rw [e1, e2]
  refine ⟨?_, ?_, ?_⟩
  · intro e he hb
    have := p1 e he hb
    subst this
    exact ⟨rfl, rfl⟩
  · intro e he hb
    rcases (p2 e he).1 hb with h | h
    · subst h
      exact Or.inl ⟨rfl, rfl⟩
    · subst h
      exact Or.inr ⟨rfl, rfl⟩
  · intro e he ms hms
    exact (p2 e he).2 ms hms

/-- Witness for C19: the navigation of the example call carries the timeout 30000. -/
theorem only_navigation_carries_a_timeout_witness :
    Event.goto (.string "http://example.test/page") "networkidle2" 30000 ∈
      ((ScrapingService.scrapeWithPuppeteer exampleEnv (.string "http://example.test/page")
        (.string "h1") (.string "css")).run).1.log ∧
    (Event.goto (.string "http://example.test/page") "networkidle2" 30000).isBoundedSuspension
      = true ∧
    ((Event.goto (.string "http://example.test/page") "networkidle2" 30000 =
        Event.puppeteerLaunch true launchArgs ∧
      (Event.goto (.string "http://example.test/page") "networkidle2" 30000).timeoutOption
        = none) ∨
     (Event.goto (.string "http://example.test/page") "networkidle2" 30000 =
        Event.goto (.string "http://example.test/page") "networkidle2" 30000 ∧
      (Event.goto (.string "http://example.test/page") "networkidle2" 30000).timeoutOption
        = some 30000)) :=
  ⟨by decide, rfl,
    (only_navigation_carries_a_timeout exampleEnv (.string "http://example.test/page")
      (.string "h1") (.string "css")).2.1 _ (by decide) rfl⟩

/-- C19 fails as stated: the `fetch` of the static path and the browser launch, both among
the suspension points the claim calls bounded, are issued without a timeout. -/
theorem fetch_and_launch_carry_no_timeout :
    Event.fetch (.string "http://example.test/page") [("User-Agent", userAgent)] ∈
      ((ScrapingService.scrapeWithCheerio exampleEnv (.string "http://example.test/page")
        (.string "h1")).run).1.log ∧
    (Event.fetch (.string "http://example.test/page")
      [("User-Agent", userAgent)]).isBoundedSuspension = true ∧
    (Event.fetch (.string "http://example.test/page")
      [("User-Agent", userAgent)]).timeoutOption = none ∧
    Event.puppeteerLaunch true launchArgs ∈
      ((ScrapingService.scrapeWithPuppeteer exampleEnv (.string "http://example.test/page")
        (.string "h1") (.string "css")).run).1.log ∧
    (Event.puppeteerLaunch true launchArgs).isBoundedSuspension = true ∧
    (Event.puppeteerLaunch true launchArgs).timeoutOption = none := by
  refine ⟨?_, rfl, rfl, ?_, rfl, rfl⟩ <;> decide

/-! ## Selector types the handler does not know -/

theorem validated_of_not_css (env : Env) (fields : List (String × JsValue))
    (hurl : (getField fields "url").truthy = true)
    (hsel : (getField fields "selector").truthy = true)
    (hv : env.validatorIsURL (getField fields "url") ["http", "https"] true = .ok true)
    (hcss : ((getField fields "selectorType").withDefault (.string "css")).strictEqString "css"
      = false) :
    Validated env fields := by
  refine ⟨hurl, hsel, hv, ?_⟩
  intro h
  rw [hcss] at h
  exact absurd h (by decide)

theorem withDefault_of_not_css (v : JsValue)
    (hcss : (v.withDefault (.string "css")).strictEqString "css" = false) :
    v.withDefault (.string "css") = v := by
  cases v <;> simp_all [JsValue.withDefault, JsValue.strictEqString]

theorem extract_static (env : Env) (url selector selectorType usePuppeteer : JsValue)
    (hx : selectorType.strictEqString "xpath" = false) (hp : usePuppeteer.truthy = false) :
    extract env url selector selectorType usePuppeteer =
      ScrapingService.scrapeWithCheerio env url selector := by
  simp [extract, hx, hp]

theorem chosenInvoke_static (url selector selectorType usePuppeteer : JsValue)
    (hx : selectorType.strictEqString "xpath" = false) (hp : usePuppeteer.truthy = false) :
    chosenInvoke url selector selectorType usePuppeteer =
      Event.invoke "scrapeWithCheerio" [url, selector] := by
  simp [chosenInvoke, hx, hp]

theorem chosenInvoke_ne_cheerioLoad (url selector selectorType usePuppeteer : JsValue)
    (html : String) :
    chosenInvoke url selector selectorType usePuppeteer ≠ Event.cheerioLoad html := by
  unfold chosenInvoke
  split <;> simp

/-- C21: for a request that passes the required-field and URL checks, the trial parse of the
selector (`cheerio.load('<div></div>')` right after the URL check) happens exactly when
`selectorType` is the string `css`; when `selectorType` is neither `css` nor `xpath` and
`usePuppeteer` is falsy, the handler goes from the URL check straight into
`scrapeWithCheerio(url, selector)`, answers 200 with its result, and stores one record
whose `selectorType` is the value the request sent. -/
theorem unknown_selector_type_is_scraped_as_css (env : Env) (fields : List (String × JsValue))
    (hurl : (getField fields "url").truthy = true)
    (hsel : (getField fields "selector").truthy = true)
    (hv : env.validatorIsURL (getField fields "url") ["http", "https"] true = .ok true) :
    ((∃ rest : List Event, ((postScrape env (some fields)).run).1.log =
        Event.validatorIsURL (getField fields "url") ::
          Event.cheerioLoad "<div></div>" :: rest) ↔
      ((getField fields "selectorType").withDefault (.string "css")).strictEqString "css"
        = true) ∧
    (((getField fields "selectorType").withDefault (.string "css")).strictEqString "css"
        = false →
      ((getField fields "selectorType").withDefault (.string "css")).strictEqString "xpath"
        = false →
      ((getField fields "usePuppeteer").withDefault (.bool false)).truthy = false →
      ∃ (r : ScrapeResult) (t : List Event),
        ((ScrapingService.scrapeWithCheerio env (getField fields "url")
          (getField fields "selector")).run).2 = .ok r ∧
        (∀ e ∈ t, e.isExtraction = true) ∧
        ((postScrape env (some fields)).run).1.log =
          Event.validatorIsURL (getField fields "url") ::
            Event.invoke "scrapeWithCheerio" [getField fields "url", getField fields "selector"] ::
              (t ++ storeAndAnswerEvents env (getField fields "url")
                (getField fields "selector") (getField fields "selectorType") (.ok r)) ∧
        responses ((postScrape env (some fields)).run).1.log =
          [Event.respond 200 (.result r)] ∧
        ∃ record : DbRecord,
          insertedRecords ((postScrape env (some fields)).run).1.log = [record] ∧
          record.selectorType = getField fields "selectorType") := by
  constructor
  · by_cases hcss : ((getField fields "selectorType").withDefault (.string "css")).strictEqString
        "css" = true
    · refine ⟨fun _ => hcss, fun _ => ?_⟩
      by_cases hok : ∃ (dollar : CheerioAPI) (elements : List CheerioElement),
          env.cheerioLoad "<div></div>" = .ok dollar ∧
          dollar.select (getField fields "selector") = .ok elements
      · obtain ⟨t, -, hlog⟩ := postScrape_validated_log env fields ⟨hurl, hsel, hv, fun _ => hok⟩
        rw [hlog]
        simp [validationEvents, hcss]
      · obtain ⟨trial, hlog, htrial⟩ := postScrape_invalid_css env fields hurl hsel hv hcss hok
        rw [hlog]
        rcases htrial with h | h <;> simp [h]
    · have hcss2 : ((getField fields "selectorType").withDefault (.string "css")).strictEqString
          "css" = false := by simpa using hcss
      refine ⟨fun h => ?_, fun h => absurd h hcss⟩
      exfalso
      obtain ⟨rest, hrest⟩ := h
      obtain ⟨t, -, hlog⟩ :=
        postScrape_validated_log env fields (validated_of_not_css env fields hurl hsel hv hcss2)
      rw [hlog] at hrest
      simp only [validationEvents, hcss2, Bool.false_eq_true, if_false, List.cons_append,
        List.nil_append, List.cons.injEq, true_and] at hrest
      exact chosenInvoke_ne_cheerioLoad _ _ _ _ _ hrest.1
  · intro hcss hx hp
    have hval := validated_of_not_css env fields hurl hsel hv hcss
    have hty := withDefault_of_not_css _ hcss
    obtain ⟨r, hr, -⟩ := scrapeWithCheerio_returns_value env (getField fields "url")
      (getField fields "selector") St.init
    obtain ⟨t, ht, hlog⟩ := postScrape_validated_log env fields hval
    have heff := postScrape_validated_effects env fields hval
    rw [extract_static env _ _ _ _ hx hp] at hlog heff
    rw [chosenInvoke_static _ _ _ _ hx hp] at hlog
    have hr2 : ((ScrapingService.scrapeWithCheerio env (getField fields "url")
        (getField fields "selector")).run).2 = .ok r := hr
    rw [hr2] at hlog heff
    rw [hty] at hlog heff
    refine ⟨r, t, hr2, ht, ?_, heff.2, _, heff.1, rfl⟩
    rw [hlog]
    simp [validationEvents, hcss, hty ▸ hcss]

theorem unknown_selector_type_is_scraped_as_css_witness :
    ∃ r : ScrapeResult,
      responses ((postScrape exampleEnv (some regexTypeRequest)).run).1.log =
        [Event.respond 200 (.result r)] ∧
      ∃ record : DbRecord,
        insertedRecords ((postScrape exampleEnv (some regexTypeRequest)).run).1.log = [record] ∧
        record.selectorType = .string "regex" := by
  obtain ⟨r, _, _, _, _, hresp, record, hrec, hty⟩ :=
    (unknown_selector_type_is_scraped_as_css exampleEnv regexTypeRequest
      (by decide) (by decide) (by rfl)).2 (by decide) (by decide) (by decide)
  exact ⟨r, hresp, record, hrec, hty⟩

/-! ## The legacy handler -/

theorem scrapeContent_quiet (env : LegacyEnv) (url selector : JsValue) :
    Js.Emits (fun e => e.isQuiet = true) (scrapeContent env url selector) := by
  unfold scrapeContent
  refine Js.emits_tryCatch ?_ (fun error => ?_)
  · refine Js.emits_bind (Js.emits_call _ _ _ rfl) (fun htmlData => ?_)
    refine Js.emits_bind (Js.emits_call _ _ _ rfl) (fun dollar => ?_)
    refine Js.emits_bind (Js.emits_call _ _ _ rfl) (fun elements => ?_)
    exact Js.emits_pure _ _
  · exact Js.emits_bind (Js.emits_call _ _ _ rfl) (fun _ => Js.emits_throw _ _)

theorem responses_of_quiet (t : List Event) (h : ∀ e ∈ t, e.isQuiet = true) :
    responses t = [] := by
  unfold responses
  rw [List.filter_eq_nil_iff]
  intro e he
  have := h e he
  cases e <;> simp_all [Event.isQuiet, Event.isRespond]

theorem insertedRows_of_quiet (t : List Event) (h : ∀ e ∈ t, e.isQuiet = true) :
    insertedRows t = [] := by
  unfold insertedRows
  rw [List.filterMap_eq_nil_iff]
  intro e he
  have hq := h e he
  cases e <;> first | rfl | simp [Event.isQuiet] at hq

theorem legacyPostScrape_run (env : LegacyEnv) (fields : List (String × JsValue))
    (hurl : (getField fields "url").truthy = true)
    (hsel : (getField fields "selector").truthy = true) :
    (legacyPostScrape env (some fields)).run =
      (match (scrapeContent env (getField fields "url") (getField fields "selector")).run with
       | (s1, .ok none) =>
         respond 404 (.messageOnly "No content found for the given selector or URL.") s1
       | (s1, .ok (some content)) =>
         if content = "" then
           respond 404 (.messageOnly "No content found for the given selector or URL.") s1
         else
           match legacyStore env (getField fields "url") (getField fields "selector") content s1 with
           | (s2, .ok a) => (s2, .ok a)
           | (s2, .error e) => legacyCatch e s2
       | (s1, .error e) => legacyCatch e s1) := by
  simp only [legacyPostScrape, destructureBody, Js.run, Js.bind_apply, Js.pure_apply, hurl, hsel,
    Bool.not_true, Bool.or_self, Bool.false_eq_true, if_false, Js.tryCatch, legacyTry]
  rcases hsc : scrapeContent env (getField fields "url") (getField fields "selector") St.init
    with ⟨s1, outcome⟩
  rcases outcome with e | content
  · rfl
  · cases content with
    | none => simp [respond, Js.call]
    | some content =>
      by_cases hc : content = ""
      · simp [hc, respond, Js.call]
      · simp only [hc, if_false]
        rcases legacyStore env (getField fields "url") (getField fields "selector") content s1
          with ⟨s2, e | a⟩ <;> rfl

theorem legacyPostScrape_log (env : LegacyEnv) (fields : List (String × JsValue))
    (hurl : (getField fields "url").truthy = true)
    (hsel : (getField fields "selector").truthy = true) :
    ∃ t : List Event,
      (∀ e ∈ t, e.isQuiet = true) ∧
      ((legacyPostScrape env (some fields)).run).2 = .ok () ∧
      ((legacyPostScrape env (some fields)).run).1.log = t ++
        (match ((scrapeContent env (getField fields "url") (getField fields "selector")).run).2 with
         | .ok none =>
           [Event.respond 404 (.messageOnly "No content found for the given selector or URL.")]
         | .ok (some content) =>
           Event.dbRun insertSql [getField fields "url", getField fields "selector", .string content] ::
             (match env.dbRun insertSql
                 [getField fields "url", getField fields "selector", .string content] with
              | .ok lastID =>
                [Event.consoleLog ("A row has been inserted with rowid " ++ toString lastID),
                 Event.respond 200 (.saved "Scraping successful and data saved!" content lastID)]
              | .error err =>
                [Event.consoleError "Error inserting data into DB:" err.message,
                 Event.respond 500 (.errorOnly "Failed to save scraped data to database.")])
         | .error e =>
           [Event.consoleError "Scraping error in route handler:" e.message,
            match e.response with
            | some status =>
              Event.respond status
                (.errorOnly ("Failed to fetch URL (" ++ toString status ++ "): " ++ e.message))
            | none =>
              if e.request then
                Event.respond 503 (.errorOnly
                  "No response received from URL. Please check the URL or your network connection.")
              else
                Event.respond 500
                  (.errorOnly ("An unexpected error occurred during scraping: " ++ e.message))]) := by
  obtain ⟨t, ht, hq⟩ := scrapeContent_quiet env (getField fields "url") (getField fields "selector")
    St.init
  have hne := scrapeContent_never_empty env (getField fields "url") (getField fields "selector")
    St.init
  refine ⟨t, hq, ?_⟩
  rw [legacyPostScrape_run env fields hurl hsel]
  unfold Js.run
  rcases hsc : scrapeContent env (getField fields "url") (getField fields "selector") St.init
    with ⟨s1, outcome⟩
  rw [hsc] at ht hne
  have hs1 : s1.log = t := by simpa [St.init] using ht
  rcases outcome with e | content
  · rcases hresp : e.response with _ | status
    · by_cases hreq : e.request = true
      · simp [legacyCatch, respond, Js.call, Js.bind_apply, hresp, hreq, hs1]
      · simp [legacyCatch, respond, Js.call, Js.bind_apply, hresp, hreq, hs1]
    · simp [legacyCatch, respond, Js.call, Js.bind_apply, hresp, hs1]
  · cases content with
    | none => simp [respond, Js.call, hs1]
    | some content =>
      have hc : content ≠ "" := fun h => hne (some content) rfl (by rw [h])
      rcases hdb : env.dbRun insertSql
          [getField fields "url", getField fields "selector", .string content] with err | lastID
      · simp [hc, legacyStore, respond, Js.call, Js.bind_apply, hdb, hs1]
      · simp [hc, legacyStore, respond, Js.call, Js.bind_apply, hdb, hs1]

theorem responses_quiet_append (t u : List Event) (h : ∀ e ∈ t, e.isQuiet = true) :
    responses (t ++ u) = responses u := by
  have := responses_of_quiet t h
  unfold responses at this ⊢
  rw [List.filter_append, this, List.nil_append]

theorem insertedRows_quiet_append (t u : List Event) (h : ∀ e ∈ t, e.isQuiet = true) :
    insertedRows (t ++ u) = insertedRows u := by
  have := insertedRows_of_quiet t h
  unfold insertedRows at this ⊢
  rw [List.filterMap_append, this, List.nil_append]

theorem legacyPostScrape_missing_fields (env : LegacyEnv) (fields : List (String × JsValue))
    (h : ¬ ((getField fields "url").truthy = true ∧ (getField fields "selector").truthy = true)) :
    (legacyPostScrape env (some fields)).run =
      (⟨[Event.respond 400 (.errorOnly "URL and selector are required.")], none⟩, .ok ()) := by
  have hc : (!(getField fields "url").truthy || !(getField fields "selector").truthy) = true := by
    cases h1 : (getField fields "url").truthy <;> cases h2 : (getField fields "selector").truthy <;>
      simp_all
  simp only [legacyPostScrape, destructureBody, Js.run, Js.bind_apply, Js.pure_apply, hc, if_true]
  rfl

theorem legacyPostScrape_effects (env : LegacyEnv) (fields : List (String × JsValue))
    (hurl : (getField fields "url").truthy = true)
    (hsel : (getField fields "selector").truthy = true) :
    ((legacyPostScrape env (some fields)).run).2 = .ok () ∧
    responses ((legacyPostScrape env (some fields)).run).1.log =
      [match ((scrapeContent env (getField fields "url") (getField fields "selector")).run).2 with
        | .ok none =>
          Event.respond 404 (.messageOnly "No content found for the given selector or URL.")
        | .ok (some content) =>
          (match env.dbRun insertSql
              [getField fields "url", getField fields "selector", .string content] with
           | .ok lastID =>
             Event.respond 200 (.saved "Scraping successful and data saved!" content lastID)
           | .error _ =>
             Event.respond 500 (.errorOnly "Failed to save scraped data to database."))
        | .error e =>
          match e.response with
          | some status =>
            Event.respond status
              (.errorOnly ("Failed to fetch URL (" ++ toString status ++ "): " ++ e.message))
          | none =>
            if e.request then
              Event.respond 503 (.errorOnly
                "No response received from URL. Please check the URL or your network connection.")
            else
              Event.respond 500
                (.errorOnly ("An unexpected error occurred during scraping: " ++ e.message))] ∧
    insertedRows ((legacyPostScrape env (some fields)).run).1.log =
      (match ((scrapeContent env (getField fields "url") (getField fields "selector")).run).2 with
       | .ok (some content) =>
         [[getField fields "url", getField fields "selector", .string content]]
       | _ => []) := by
  obtain ⟨t, hq, hret, hlog⟩ := legacyPostScrape_log env fields hurl hsel
  refine ⟨hret, ?_, ?_⟩
  · rw [hlog, responses_quiet_append _ _ hq]
    rcases ((scrapeContent env (getField fields "url") (getField fields "selector")).run).2
      with e | content
    · rcases hresp : e.response with _ | status
      · by_cases hreq : e.request = true <;> simp [responses, Event.isRespond, hreq, hresp]
      · simp [responses, Event.isRespond, hresp]
    · cases content with
      | none => simp [responses, Event.isRespond]
      | some content =>
        rcases hdb : env.dbRun insertSql
          [getField fields "url", getField fields "selector", .string content] with err | lastID <;>
        simp [responses, Event.isRespond, hdb]
  · rw [hlog, insertedRows_quiet_append _ _ hq]
    rcases ((scrapeContent env (getField fields "url") (getField fields "selector")).run).2
      with e | content
    · rcases hresp : e.response with _ | status
      · by_cases hreq : e.request = true <;> simp [insertedRows, Event.insertedRow, hreq, hresp]
      · simp [insertedRows, Event.insertedRow, hresp]
    · cases content with
      | none => simp [insertedRows, Event.insertedRow]
      | some content =>
        rcases hdb : env.dbRun insertSql
          [getField fields "url", getField fields "selector", .string content] with err | lastID <;>
        simp [insertedRows, Event.insertedRow, hdb]

/-- C25: the legacy handler sends exactly one response to every parsed body. When
`scrapeContent` is reached (url and selector truthy): if it resolves with `null` the answer
is 404 and `db.run` is not called; if it resolves with a content, the row
`(url, selector, content)` is handed to `db.run` once and the answer is 200 with that content
and the row id, or 500 when the insert fails; if it throws, nothing is inserted and the
answer carries the upstream status when the error has a response, 503 when it has a request
but no response, and 500 otherwise. -/
theorem legacy_handler_answers_by_outcome (env : LegacyEnv)
    (fields : List (String × JsValue)) :
    (((legacyPostScrape env (some fields)).run).2 = .ok () ∧
     ∃ (status : Nat) (body : ResponseBody),
      responses ((legacyPostScrape env (some fields)).run).1.log =
        [Event.respond status body]) ∧
    ((getField fields "url").truthy = true → (getField fields "selector").truthy = true →
      (((scrapeContent env (getField fields "url") (getField fields "selector")).run).2 = .ok none →
        responses ((legacyPostScrape env (some fields)).run).1.log =
          [Event.respond 404 (.messageOnly "No content found for the given selector or URL.")] ∧
        insertedRows ((legacyPostScrape env (some fields)).run).1.log = []) ∧
      (∀ content : String,
        ((scrapeContent env (getField fields "url") (getField fields "selector")).run).2 =
          .ok (some content) →
        insertedRows ((legacyPostScrape env (some fields)).run).1.log =
          [[getField fields "url", getField fields "selector", .string content]] ∧
        (∀ lastID : Nat,
          env.dbRun insertSql
            [getField fields "url", getField fields "selector", .string content] = .ok lastID →
          responses ((legacyPostScrape env (some fields)).run).1.log =
            [Event.respond 200 (.saved "Scraping successful and data saved!" content lastID)]) ∧
        (∀ err : JsError,
          env.dbRun insertSql
            [getField fields "url", getField fields "selector", .string content] = .error err →
          responses ((legacyPostScrape env (some fields)).run).1.log =
            [Event.respond 500 (.errorOnly "Failed to save scraped data to database.")])) ∧
      (∀ e : JsError,
        ((scrapeContent env (getField fields "url") (getField fields "selector")).run).2 =
          .error e →
        insertedRows ((legacyPostScrape env (some fields)).run).1.log = [] ∧
        (∀ status : Nat, e.response = some status →
          responses ((legacyPostScrape env (some fields)).run).1.log =
            [Event.respond status
              (.errorOnly ("Failed to fetch URL (" ++ toString status ++ "): " ++ e.message))]) ∧
        (e.response = none → e.request = true →
          responses ((legacyPostScrape env (some fields)).run).1.log =
            [Event.respond 503 (.errorOnly
              "No response received from URL. Please check the URL or your network connection.")]) ∧
        (e.response = none → e.request = false →
          responses ((legacyPostScrape env (some fields)).run).1.log =
            [Event.respond 500
              (.errorOnly ("An unexpected error occurred during scraping: " ++ e.message))]))) := by
  constructor
  · by_cases h : (getField fields "url").truthy = true ∧ (getField fields "selector").truthy = true
    · obtain ⟨hret, hresp, -⟩ := legacyPostScrape_effects env fields h.1 h.2
      exact ⟨hret, by
        rw [hresp]
        rcases ((scrapeContent env (getField fields "url") (getField fields "selector")).run).2
          with e | content
        · rcases hr : e.response with _ | status
          · by_cases hreq : e.request = true
            · simp only [hr, hreq, if_true]
              exact ⟨_, _, rfl⟩
            · simp only [hr, hreq, Bool.false_eq_true, if_false]
              exact ⟨_, _, rfl⟩
          · simp only [hr]
            exact ⟨_, _, rfl⟩
        · cases content with
          | none => exact ⟨404, _, rfl⟩
          | some content =>
            rcases hdb : env.dbRun insertSql
              [getField fields "url", getField fields "selector", .string content] with err | lastID
            · simp only [hdb]
              exact ⟨_, _, rfl⟩
            · simp only [hdb]
              exact ⟨_, _, rfl⟩⟩
    · rw [legacyPostScrape_missing_fields env fields h]
      exact ⟨rfl, _, _, rfl⟩
  · intro hurl hsel
    obtain ⟨-, hresp, hrows⟩ := legacyPostScrape_effects env fields hurl hsel
    refine ⟨fun h => ?_, fun content h => ?_, fun e h => ?_⟩
    · simp only [h] at hresp hrows
      exact ⟨hresp, hrows⟩
    · simp only [h] at hresp hrows
      refine ⟨hrows, fun lastID hdb => ?_, fun err hdb => ?_⟩
      · simp only [hdb] at hresp
        exact hresp
      · simp only [hdb] at hresp
        exact hresp
    · simp only [h] at hresp hrows
      refine ⟨hrows, fun status hs => ?_, fun hs hreq => ?_, fun hs hreq => ?_⟩
      · simp only [hs] at hresp
        exact hresp
      · simp only [hs, hreq, if_true] at hresp
        exact hresp
      · simp only [hs, hreq, Bool.false_eq_true, if_false] at hresp
        exact hresp

theorem legacy_handler_answers_by_outcome_witness :
    responses ((legacyPostScrape legacyExampleEnv (some shortRequest)).run).1.log =
        [Event.respond 200 (.saved "Scraping successful and data saved!" "Hello" 1)] ∧
      insertedRows ((legacyPostScrape legacyExampleEnv (some shortRequest)).run).1.log =
        [[.string "http://example.test/page", .string "h1", .string "Hello"]] := by
  have h := ((legacy_handler_answers_by_outcome legacyExampleEnv shortRequest).2
    (by decide) (by decide)).2.1 "Hello" (by rfl)
  exact ⟨h.2.1 1 rfl, h.1⟩

/-! ## The history routes -/

theorem processRow_emits (env : HistoryEnv) (record : HistoryRow) :
    Js.Emits (fun e => e.isParse = true) (processRow env record) := by
  unfold processRow
  rcases record.content with _ | text
  · exact Js.emits_pure _ _
  · by_cases h : text = ""
    · simp only [h, if_true]
      exact Js.emits_pure _ _
    · simp only [h, if_false]
      exact Js.emits_bind (Js.emits_call _ _ _ rfl) (fun _ => Js.emits_pure _ _)

theorem processHistory_emits (env : HistoryEnv) (rows : List HistoryRow) :
    Js.Emits (fun e => e.isParse = true) (processHistory env rows) := by
  induction rows with
  | nil => exact Js.emits_pure _ _
  | cons record rest ih =>
    unfold processHistory
    refine Js.emits_bind (processRow_emits env record) (fun processed => ?_)
    exact Js.emits_bind ih (fun _ => Js.emits_pure _ _)

theorem processRow_framed (env : HistoryEnv) (record : HistoryRow) :
    Js.Framed (processRow env record) := by
  unfold processRow
  rcases record.content with _ | text
  · exact Js.framed_pure _
  · by_cases h : text = ""
    · simp only [h, if_true]
      exact Js.framed_pure _
    · simp only [h, if_false]
      exact Js.framed_bind (Js.framed_call _ _) (fun _ => Js.framed_pure _)

theorem processHistory_framed (env : HistoryEnv) (rows : List HistoryRow) :
    Js.Framed (processHistory env rows) := by
  induction rows with
  | nil => exact Js.framed_pure _
  | cons record rest ih =>
    unfold processHistory
    refine Js.framed_bind (processRow_framed env record) (fun processed => ?_)
    exact Js.framed_bind ih (fun _ => Js.framed_pure _)

theorem getHistory_log (env : HistoryEnv) (limit : JsValue) :
    ∃ t : List Event,
      (∀ e ∈ t, e.isParse = true) ∧
      ((getHistory env limit).run).2 = .ok () ∧
      ((getHistory env limit).run).1.log =
        Event.getScrapingHistory (historyLimit limit) ::
          (t ++ historyAnswerEvents
            (match env.getScrapingHistory (historyLimit limit) with
             | .error e => .error e
             | .ok rows => ((processHistory env rows).run).2)) := by
  rcases hdb : env.getScrapingHistory (historyLimit limit) with e | rows
  · refine ⟨[], by simp, ?_, ?_⟩ <;>
      simp [getHistory, getHistoryTry, Js.run, Js.tryCatch, Js.call, Js.bind_apply, hdb, respond,
        historyAnswerEvents, St.init]
  · obtain ⟨t, ht, hp⟩ := processHistory_emits env rows
      ⟨[Event.getScrapingHistory (historyLimit limit)], none⟩
    obtain ⟨-, -, hval⟩ := Js.framed_from_run (processHistory_framed env rows)
      ⟨[Event.getScrapingHistory (historyLimit limit)], none⟩ rfl
    refine ⟨t, hp, ?_⟩
    simp only [getHistory, getHistoryTry, Js.run, Js.tryCatch, Js.call, Js.bind_apply, hdb,
      St.init, List.nil_append]
    rcases hph : processHistory env rows ⟨[Event.getScrapingHistory (historyLimit limit)], none⟩
      with ⟨s1, outcome⟩
    rw [hph] at ht hval
    have hs1 : s1.log = Event.getScrapingHistory (historyLimit limit) :: t := by
      simpa using ht
    have hval2 : outcome = (processHistory env rows ⟨[], none⟩).2 := hval
    rw [← hval2]
    rcases outcome with e | data
    · simp [respond, Js.call, Js.bind_apply, historyAnswerEvents, hs1]
    · simp [respond, Js.call, Js.bind_apply, historyAnswerEvents, hs1]

theorem historyQueries_of_parse (t : List Event) (h : ∀ e ∈ t, e.isParse = true) :
    historyQueries t = [] := by
  unfold historyQueries
  rw [List.filterMap_eq_nil_iff]
  intro e he
  have hq := h e he
  cases e <;> first | rfl | simp [Event.isParse] at hq

theorem responses_of_parse (t : List Event) (h : ∀ e ∈ t, e.isParse = true) :
    responses t = [] := by
  unfold responses
  rw [List.filter_eq_nil_iff]
  intro e he
  have hq := h e he
  cases e <;> simp_all [Event.isParse, Event.isRespond]

theorem historyQueries_answer (outcome : Except JsError (List ProcessedRow)) :
    historyQueries (historyAnswerEvents outcome) = [] := by
  cases outcome <;> rfl

theorem responses_answer (outcome : Except JsError (List ProcessedRow)) :
    responses (historyAnswerEvents outcome) =
      [match outcome with
        | .ok data => Event.respond 200 (.history true data)
        | .error _ => Event.respond 500 (.message false "Failed to retrieve scraping history")] := by
  cases outcome <;> rfl

theorem roundToDouble_of_lt (n : Nat) (h : n < 2 ^ 53) : roundToDouble n = some n := by
  have hu : doubleUnit 1024 1 n = 1 := by
    show (if n / 1 < 2 ^ 53 then 1 else doubleUnit 1023 (2 * 1) n) = 1
    rw [Nat.div_one, if_pos h]
  have hl : n < doubleLimit := by
    have : (2 : Nat) ^ 53 ≤ doubleLimit := by norm_num [doubleLimit]
    omega
  unfold roundToDouble
  simp only [hu, Nat.div_one, Nat.mul_one, Nat.mod_one]
  simp [hl]

theorem historyLimit_truthy (limit : JsValue) : (historyLimit limit).truthy = true := by
  unfold historyLimit
  by_cases h : (parseInt limit.toText).truthy = true
  · rw [if_pos h]
    exact h
  · rw [if_neg h]
    rfl

/-- C23: `GET /history` calls `database.getScrapingHistory` exactly once, whatever the query
and whatever the database answers, and the limit it passes is `parseInt(limit) || 50`: the
Number `parseInt(limit)` when that is an integer other than zero, negative ones included
(and also when it is an infinity, as for a run of digits too long for a double), and 50 when
`parseInt(limit)` is `NaN` or a zero, as it is for an absent `limit` (`undefined`) and for a
text without a leading number. The limit passed is never `NaN` and never zero. An array
parameter is read through its joined text, and an integer beyond 2^53 as the nearest
double. -/
theorem history_limit_is_parsed_or_fifty (env : HistoryEnv) (limit : JsValue) :
    historyQueries ((getHistory env limit).run).1.log = [historyLimit limit] ∧
    (∀ (negative : Bool) (magnitude : Nat),
      parseInt limit.toText = .finite negative magnitude → magnitude ≠ 0 →
      historyLimit limit = .finite negative magnitude) ∧
    (∀ negative : Bool, parseInt limit.toText = .infinity negative →
      historyLimit limit = .infinity negative) ∧
    (parseInt limit.toText = .nan → historyLimit limit = .finite false 50) ∧
    (∀ negative : Bool, parseInt limit.toText = .finite negative 0 →
      historyLimit limit = .finite false 50) ∧
    historyLimit limit ≠ .nan ∧
    (∀ negative : Bool, historyLimit limit ≠ .finite negative 0) ∧
    historyLimit .undefined = .finite false 50 ∧
    historyLimit (.string "abc") = .finite false 50 ∧
    historyLimit (.string "") = .finite false 50 ∧
    historyLimit (.string "0") = .finite false 50 ∧
    historyLimit (.string "-0") = .finite false 50 ∧
    historyLimit (.string "-5") = .finite true 5 ∧
    historyLimit (.string " 20") = .finite false 20 ∧
    historyLimit (.string "12abc") = .finite false 12 ∧
    historyLimit (.string "0x1A") = .finite false 26 ∧
    historyLimit (.array ["5", "6"]) = .finite false 5 ∧
    historyLimit (.object "\x7b\x7d") = .finite false 50 ∧
    historyLimit (.string "9007199254740993") = .finite false 9007199254740992 := by
  refine ⟨?_, ?_, ?_, ?_, ?_, ?_, ?_, by decide, by decide, by decide, by decide, by decide,
    by decide, by decide, by decide, by decide, by decide, by decide, by decide⟩
  · obtain ⟨t, ht, -, hlog⟩ := getHistory_log env limit
    rw [hlog]
    have h1 := historyQueries_of_parse t ht
    unfold historyQueries at h1 ⊢
    rw [List.filterMap_cons, List.filterMap_append, h1]
    have h2 := historyQueries_answer (match env.getScrapingHistory (historyLimit limit) with
      | .error e => .error e
      | .ok rows => ((processHistory env rows).run).2)
    unfold historyQueries at h2
    rw [h2]
    rfl
  · intro negative magnitude hn h0
    simp [historyLimit, hn, JsNumber.truthy, h0]
  · intro negative hn
    simp [historyLimit, hn, JsNumber.truthy]
  · intro hn
    simp [historyLimit, hn, JsNumber.truthy]
  · intro negative hn
    simp [historyLimit, hn, JsNumber.truthy]
  · intro h
    have := historyLimit_truthy limit
    rw [h] at this
    exact absurd this (by decide)
  · intro negative h
    have := historyLimit_truthy limit
    rw [h] at this
    simp [JsNumber.truthy] at this

/-- Witness for C23: the query `limit=-5` passes -5, and the array parameter of
`limit=5&limit=6` passes 5. -/
theorem history_limit_is_parsed_or_fifty_witness :
    historyQueries ((getHistory exampleHistoryEnv (.string "-5")).run).1.log =
        [.finite true 5] ∧
      historyQueries ((getHistory exampleHistoryEnv (.array ["5", "6"])).run).1.log =
        [.finite false 5] := by
  have h := history_limit_is_parsed_or_fifty exampleHistoryEnv (.string "-5")
  have g := history_limit_is_parsed_or_fifty exampleHistoryEnv (.array ["5", "6"])
  rw [h.2.1 true 5 (by decide) (by decide)] at h
  rw [g.2.1 false 5 (by decide) (by decide)] at g
  exact ⟨h.1, g.1⟩

theorem deleteHistory_invalid (env : HistoryEnv) (id : String) (h : parseInt id = .nan) :
    (deleteHistory env id).run =
      (⟨[Event.respond 400 (.message false "Invalid ID provided")], none⟩, .ok ()) := by
  simp [deleteHistory, deleteHistoryTry, Js.run, Js.tryCatch, respond, Js.call, h, St.init]

theorem deleteHistory_valid (env : HistoryEnv) (id : String) (h : parseInt id ≠ .nan) :
    (deleteHistory env id).run =
      (⟨Event.deleteScrapingRecord (parseInt id) ::
          (match env.deleteScrapingRecord (parseInt id) with
           | .ok changes =>
             if changes = 0 then [Event.respond 404 (.message false "Record not found")]
             else [Event.respond 200 (.notice true "Record deleted successfully")]
           | .error e =>
             [Event.consoleError "Delete error:" e.message,
              Event.respond 500 (.message false "Failed to delete record")]), none⟩, .ok ()) := by
  have hid : id ≠ "" := by
    intro hid
    have h0 : parseInt "" = .nan := by decide
    rw [hid] at h
    exact h h0
  rcases hdb : env.deleteScrapingRecord (parseInt id) with e | changes
  · simp [deleteHistory, deleteHistoryTry, Js.run, Js.tryCatch, respond, Js.call, Js.bind_apply,
      hid, h, hdb, St.init]
  · by_cases hc : changes = 0
    · simp [deleteHistory, deleteHistoryTry, Js.run, Js.tryCatch, respond, Js.call, Js.bind_apply,
        hid, h, hdb, hc, St.init]
    · simp [deleteHistory, deleteHistoryTry, Js.run, Js.tryCatch, respond, Js.call, Js.bind_apply,
        hid, h, hdb, hc, St.init]

/-- C24: when `parseInt(id)` is `NaN`, `DELETE /history/:id` answers 400 'Invalid ID provided'
and does nothing else, so `database.deleteScrapingRecord` is not called; otherwise it calls
`deleteScrapingRecord` exactly once, with the Number `parseInt(id)` (12 for the id `12abc`,
the nearest double for an integer beyond 2^53), and when that call reports its number of
changed rows the answer is 404 'Record not found' exactly when the number is 0 and the
success body otherwise. When the call rejects instead of reporting, the `catch` answers 500
'Failed to delete record'. -/
theorem delete_answers_by_parsed_id (env : HistoryEnv) (id : String) :
    (parseInt id = .nan →
      ((deleteHistory env id).run).1.log =
        [Event.respond 400 (.message false "Invalid ID provided")] ∧
      deletions ((deleteHistory env id).run).1.log = []) ∧
    (parseInt id ≠ .nan →
      deletions ((deleteHistory env id).run).1.log = [parseInt id] ∧
      (∀ changes : Nat, env.deleteScrapingRecord (parseInt id) = .ok changes →
        (responses ((deleteHistory env id).run).1.log =
            [Event.respond 404 (.message false "Record not found")] ↔ changes = 0) ∧
        (changes ≠ 0 →
          responses ((deleteHistory env id).run).1.log =
            [Event.respond 200 (.notice true "Record deleted successfully")])) ∧
      (∀ e : JsError, env.deleteScrapingRecord (parseInt id) = .error e →
        responses ((deleteHistory env id).run).1.log =
          [Event.respond 500 (.message false "Failed to delete record")])) ∧
    parseInt "12abc" = .finite false 12 ∧
    parseInt "abc" = .nan ∧
    parseInt "-7" = .finite true 7 ∧
    parseInt "9007199254740993" = .finite false 9007199254740992 := by
  refine ⟨fun h => ?_, fun h => ?_, by decide, by decide, by decide, by decide⟩
  · rw [deleteHistory_invalid env id h]
    exact ⟨rfl, rfl⟩
  · rw [deleteHistory_valid env id h]
    refine ⟨?_, fun changes hdb => ?_, fun e hdb => ?_⟩
    · rcases hdb : env.deleteScrapingRecord (parseInt id) with e | changes
      · rfl
      · by_cases hc : changes = 0 <;> simp [deletions, Event.deletion, hc]
    · simp only [hdb]
      by_cases hc : changes = 0
      · simp [hc, responses, Event.isRespond]
      · simp [hc, responses, Event.isRespond]
    · simp only [hdb]
      rfl

/-- Witness for C24: the id `12abc` deletes record 12. -/
theorem delete_answers_by_parsed_id_witness :
    deletions ((deleteHistory exampleHistoryEnv "12abc").run).1.log = [.finite false 12] ∧
      responses ((deleteHistory exampleHistoryEnv "12abc").run).1.log =
        [Event.respond 200 (.notice true "Record deleted successfully")] := by
  have h := (delete_answers_by_parsed_id exampleHistoryEnv "12abc").2.1 (by decide)
  exact ⟨h.1, (h.2.1 1 rfl).2 (by decide)⟩

theorem processRow_ok (env : HistoryEnv) (record : HistoryRow) (s : St) (p : ProcessedRow)
    (h : (processRow env record s).2 = .ok p) :
    p.others = record.others ∧
    ((record.content = none ∨ record.content = some "") → p.content = none) ∧
    (∀ text : String, record.content = some text → text ≠ "" →
      env.jsonParse text = .ok p.content) := by
  unfold processRow at h
  rcases hc : record.content with _ | text
  · simp only [hc, Js.pure_apply] at h
    injection h with h
    subst h
    simp
  · by_cases ht : text = ""
    · simp only [hc, ht, if_true, Js.pure_apply] at h
      injection h with h
      subst h
      simp [ht]
    · simp only [hc, ht, if_false, Js.bind_apply, Js.call] at h
      rcases hp : env.jsonParse text with e | parsed
      · simp [hp] at h
      · simp only [hp, Js.pure_apply] at h
        injection h with h
        subst h
        simp [ht, hp]

theorem processHistory_ok (env : HistoryEnv) (rows : List HistoryRow) :
    ∀ (s : St) (data : List ProcessedRow), (processHistory env rows s).2 = .ok data →
      ∀ (i : Nat) (row : HistoryRow), rows[i]? = some row →
        ∃ p : ProcessedRow, data[i]? = some p ∧ p.others = row.others ∧
          ((row.content = none ∨ row.content = some "") → p.content = none) ∧
          (∀ text : String, row.content = some text → text ≠ "" →
            env.jsonParse text = .ok p.content) := by
  induction rows with
  | nil =>
    intro s data _ i row hrow
    simp at hrow
  | cons record rest ih =>
    intro s data h i row hrow
    unfold processHistory at h
    rw [Js.bind_apply] at h
    rcases hp : processRow env record s with ⟨s1, e | p⟩
    · simp [hp] at h
    · simp only [hp, Js.bind_apply] at h
      rcases hps : processHistory env rest s1 with ⟨s2, e | ps⟩
      · simp [hps] at h
      · simp only [hps, Js.pure_apply] at h
        injection h with h
        subst h
        cases i with
        | zero =>
          simp only [List.getElem?_cons_zero, Option.some.injEq] at hrow
          subst hrow
          have hp2 : (processRow env record s).2 = .ok p := by rw [hp]
          exact ⟨p, by simp, processRow_ok env record s p hp2⟩
        | succ j =>
          simp only [List.getElem?_cons_succ] at hrow
          have hps2 : (processHistory env rest s1).2 = .ok ps := by rw [hps]
          obtain ⟨q, hq, hrest⟩ := ih s1 ps hps2 j row hrow
          exact ⟨q, by simpa using hq, hrest⟩

theorem getHistory_responses (env : HistoryEnv) (limit : JsValue) :
    responses ((getHistory env limit).run).1.log =
      [match (match env.getScrapingHistory (historyLimit limit) with
          | .error e => .error e
          | .ok rows => ((processHistory env rows).run).2 :
            Except JsError (List ProcessedRow)) with
        | .ok data => Event.respond 200 (.history true data)
        | .error _ => Event.respond 500 (.message false "Failed to retrieve scraping history")] := by
  obtain ⟨t, ht, -, hlog⟩ := getHistory_log env limit
  rw [hlog]
  have h1 := responses_of_parse t ht
  unfold responses at h1 ⊢
  rw [List.filter_cons, List.filter_append, h1]
  exact responses_answer _

/-- C22: a validated request whose extraction returns `r` stores one record; its content is
`JSON.stringify(r.content)` when `r` is a success and `null` when it is a failure. When the
database later hands that content back in a row of `GET /history` and the route answers 200,
the row at the same position of the answer carries `r.content` again, given that `JSON.parse`
reads back what `JSON.stringify` wrote for `r.content` and that this text is not empty; for a
failure the row carries `null`, which is `r.content`, and `JSON.parse` is not called for it. -/
theorem history_returns_stored_content (env : Env) (henv : HistoryEnv)
    (fields : List (String × JsValue)) (r : ScrapeResult)
    (hv : Validated env fields)
    (hr : ((extract env (getField fields "url") (getField fields "selector")
        ((getField fields "selectorType").withDefault (.string "css"))
        ((getField fields "usePuppeteer").withDefault (.bool false))).run).2 = .ok r)
    (hjson : r.success = true →
      env.jsonStringify r.content ≠ "" ∧
      henv.jsonParse (env.jsonStringify r.content) = .ok r.content) :
    ∃ record : DbRecord,
      insertedRecords ((postScrape env (some fields)).run).1.log = [record] ∧
      (r.success = true → record.content = some (env.jsonStringify r.content)) ∧
      (r.success = false → record.content = none ∧ r.content = none ∧
        ∀ others : List (String × JsValue),
          (processRow henv ⟨record.content, others⟩).run = (St.init, .ok ⟨none, others⟩)) ∧
      (∀ (limit : JsValue) (rows : List HistoryRow) (data : List ProcessedRow) (i : Nat)
          (others : List (String × JsValue)),
        henv.getScrapingHistory (historyLimit limit) = .ok rows →
        rows[i]? = some ⟨record.content, others⟩ →
        responses ((getHistory henv limit).run).1.log =
          [Event.respond 200 (.history true data)] →
        data[i]? = some ⟨r.content, others⟩) := by
  have hws : r.WellShaped := extract_wellShaped env _ _ _ _ St.init r hr
  have hnone : r.success = false → r.content = none := by
    intro hs
    rcases hws with ⟨reason, h⟩ | ⟨records, -, h⟩
    · rw [h]; rfl
    · rw [h] at hs
      exact absurd hs (by simp [ScrapeResult.ok])
  have heff := (postScrape_validated_effects env fields hv).1
  simp only [hr] at heff
  refine ⟨_, heff, ?_, ?_, ?_⟩
  · intro hs
    simp [makeDbRecord, hs]
  · intro hs
    refine ⟨by simp [makeDbRecord, hs], hnone hs, fun others => ?_⟩
    simp [makeDbRecord, hs, processRow, Js.run, Js.pure_apply]
  · intro limit rows data i others hdb hrow hresp
    have hget := getHistory_responses henv limit
    simp only [hdb] at hget
    rw [hget] at hresp
    rcases hout : ((processHistory henv rows).run).2 with e | data2
    · simp [hout] at hresp
    · simp only [hout, List.cons.injEq, Event.respond.injEq, ResponseBody.history.injEq,
        true_and, and_true] at hresp
      subst hresp
      obtain ⟨p, hp, hothers, hnull, hparse⟩ :=
        processHistory_ok henv rows St.init data2 hout i _ hrow
      rw [hp]
      cases hs : r.success with
      | false =>
        have hc : p.content = none := hnull (Or.inl (by simp [makeDbRecord, hs]))
        rw [hnone hs]
        cases p
        simp_all
      | true =>
        obtain ⟨hne, hback⟩ := hjson hs
        have hc := hparse (env.jsonStringify r.content) (by simp [makeDbRecord, hs]) hne
        rw [hback] at hc
        injection hc with hc
        cases p
        simp_all

theorem history_returns_stored_content_witness :
    ∃ record : DbRecord,
      insertedRecords ((postScrape exampleEnv (some helloRequest)).run).1.log = [record] ∧
      record.content = some "[Hello]" ∧
      ([⟨some [cheerioRecord helloElement], [("id", .number 2)]⟩,
        ⟨none, [("id", .number 1)]⟩] : List ProcessedRow)[0]? =
        some ⟨some [cheerioRecord helloElement], [("id", .number 2)]⟩ := by
  obtain ⟨record, hrec, hsucc, -, hback⟩ :=
    history_returns_stored_content exampleEnv exampleHistoryEnv helloRequest
      (ScrapeResult.ok [cheerioRecord helloElement]) example_validated_hello (by rfl)
      (fun _ => ⟨by decide, by rfl⟩)
  have hc : record.content = some "[Hello]" := hsucc rfl
  refine ⟨record, hrec, hc, ?_⟩
  exact hback .undefined _ _ 0 [("id", .number 2)] rfl (by rw [hc]; rfl) (by rfl)

end WebScraper
